import Mathlib

/-!
# AI-Stickman: a shallow embedding of `src/game.js`

The game keeps all of its state in module-level variables and advances it
from one `requestAnimationFrame` callback, `mainLoop`.  Here the module-level
variables are the fields of one record, `State`, and every function of the
source that writes them is a function `State → State`.

Conventions of the embedding:

* JavaScript numbers are exact rationals (`ℚ`); `player.lives` and
  `player.frame`, which only ever hold integers, are `ℤ` and `ℕ`.
* `Math.random()`, `Math.sin` and `Math.hypot` are parameters (`Env`); the
  state counts the calls of `Math.random()` made so far (`rng`), so the
  k-th call returns `env.random k`.
* `setTimeout(f, d)` appends a `Timer` to `State.timers`; a separate event
  fires a pending timer.  Nothing orders the pending timers, so every
  interleaving the browser can produce is covered.
* DOM writes, audio and canvas drawing do not feed back into the
  simulation and are left out.
-/

namespace Stickman

/-! ## Data model -/

/-- A point `{x, y}`: a landmark, a normalised wrist position, or a mapped
screen position. -/
structure Pt where
  x : ℚ
  y : ℚ
deriving DecidableEq

/-- One detected hand: the tracker's landmark list (21 points). -/
structure Hand where
  pts : List Pt
deriving DecidableEq

/-- The landmark `hand[i]`. -/
def Hand.pt (hand : Hand) (i : ℕ) : Pt := hand.pts.getD i ⟨0, 0⟩

/-- What the simulation reads from outside: the canvas size fixed at load
(`W`, `H`), the stream of `Math.random()` results, and the two
transcendental functions it calls. -/
structure Env where
  W : ℚ
  H : ℚ
  random : ℕ → ℚ
  sin : ℚ → ℚ
  hypot : ℚ → ℚ → ℚ

/-- The `player` object. -/
structure Player where
  x : ℚ
  y : ℚ
  w : ℚ
  h : ℚ
  targetX : ℚ
  targetY : ℚ
  frame : ℕ
  frameTimer : ℚ
  shieldActive : Bool
  shieldCooldown : Bool
  holdTimer : ℚ
  specialCooldown : ℚ
  fistCooldown : ℚ
  lives : ℤ
  doublePoints : Bool
deriving DecidableEq

/-- An entry of `enemies`.  `color` is the hue of the `hsl(...)` string, absent
for the enemies a boss spawns; `seed` is read only when `swing` holds. -/
structure Enemy where
  x : ℚ
  y : ℚ
  r : ℚ
  vy : ℚ
  color : Option ℚ
  swing : Bool
  seed : ℚ
deriving DecidableEq

/-- The `type` tag of a powerup. -/
inductive PowerupType
  | life
  | shield
  | slow
  | double
deriving DecidableEq

/-- An entry of `powerups`. -/
structure Powerup where
  x : ℚ
  y : ℚ
  vy : ℚ
  type : PowerupType
  age : ℚ
deriving DecidableEq

/-- An entry of `particles`. -/
structure Particle where
  x : ℚ
  y : ℚ
  vx : ℚ
  vy : ℚ
  life : ℚ
  size : ℚ
  color : String
deriving DecidableEq

/-- The `state` tag of the boss. -/
inductive BossState
  | intro
  | active
  | dead
deriving DecidableEq

/-- The `boss` object. -/
structure Boss where
  x : ℚ
  y : ℚ
  w : ℚ
  h : ℚ
  hp : ℚ
  maxHp : ℚ
  phase : ℕ
  timer : ℚ
  state : BossState
deriving DecidableEq

/-- The `calibration` object. -/
structure Calibration where
  running : Bool
  samples : List Pt
  durationMs : ℚ
  neutral : Option Pt
  neutralScreenY : Option ℚ
deriving DecidableEq

/-- The bodies handed to `setTimeout` anywhere in the simulation. -/
inductive Callback
  /-- Body `showBossBanner(false); startBoss()`, 5000 ms after the warning. -/
  | bossWarn
  /-- Body `endBoss()`, 1400 ms after the boss died. -/
  | bossEnd
  /-- Body `slowFactor = 1.0`, scheduled by `applySlowMotion`. -/
  | slowReset
  /-- Body `player.shieldCooldown = false`, 3000 ms after the shield was used up. -/
  | shieldReady
  /-- The expiry of a gesture-activated shield, 2200 ms after `activateShield`. -/
  | shieldExpire
  /-- Body `player.doublePoints = false`, 8000 ms after the pickup. -/
  | doubleOff
  /-- Body `resetAll(); playing = true`, 1200 ms after the restart button. -/
  | restart
deriving DecidableEq

/-- A pending `setTimeout`. -/
structure Timer where
  delay : ℚ
  cb : Callback
deriving DecidableEq

/-- The module-level variables of `game.js`. -/
structure State where
  running : Bool
  playing : Bool
  player : Player
  enemies : List Enemy
  powerups : List Powerup
  particles : List Particle
  spawnTimer : ℚ
  spawnInterval : ℚ
  difficultyTimer : ℚ
  elapsedMs : ℚ
  score : ℚ
  boss : Option Boss
  inBoss : Bool
  bossIntro : Bool
  bossWarnShown : Bool
  wristBuffer : List Pt
  calibration : Calibration
  slowFactor : ℚ
  screenShake : ℚ
  lastTS : ℚ
  timers : List Timer
  rng : ℕ
deriving DecidableEq

/-! ## Constants and utilities -/

/-- The constant `BOSS_AFTER_MS`. -/
def BOSS_AFTER_MS : ℚ := 60000

/-- The constant `BOSS_WARN_SEC`. -/
def BOSS_WARN_SEC : ℚ := 5

/-- The constant `SMOOTH_N`. -/
def SMOOTH_N : ℕ := 6

/-- Source `clamp(v,a,b)`. -/
def clamp (v a b : ℚ) : ℚ := max a (min b v)

/-- Source `lerp(a,b,t)`. -/
def lerp (a b t : ℚ) : ℚ := a + (b - a) * t

/-- A call `setTimeout(cb, delay)`: one more pending timer. -/
def setTimeout (cb : Callback) (delay : ℚ) (s : State) : State :=
  { s with timers := s.timers ++ [⟨delay, cb⟩] }

/-! ## Gesture helpers and smoothing -/

/-- Source `wristToNorm(hand)`. -/
def wristToNorm (hand : Hand) : Pt := ⟨(hand.pt 0).x, (hand.pt 0).y⟩

/-- The quotient `avg / handW` that both `isOpenPalm` and `detectFist` compute:
the mean distance of the five fingertips from the wrist over the
index-to-pinky span. -/
def palmSpread (env : Env) (hand : Hand) : ℚ :=
  let wrist := hand.pt 0
  let tips : List ℕ := [4, 8, 12, 16, 20]
  let sum := tips.foldl
    (fun acc i => acc + env.hypot ((hand.pt i).x - wrist.x) ((hand.pt i).y - wrist.y)) 0
  let avg := sum / tips.length
  let handW := env.hypot ((hand.pt 8).x - (hand.pt 20).x) ((hand.pt 8).y - (hand.pt 20).y) + 1e-6
  avg / handW

/-- Source `isOpenPalm(hand)`. -/
def isOpenPalm (env : Env) (hand : Hand) : Bool := decide (palmSpread env hand > 1.85)

/-- Source `detectFist(hand)`. -/
def detectFist (env : Env) (hand : Hand) : Bool := decide (palmSpread env hand < 1.5)

/-- Source `pushWrist(px,py)`.  The `t: now()` field of a sample is never read and is
not kept. -/
def pushWrist (px py : ℚ) (s : State) : State :=
  let buf := s.wristBuffer ++ [⟨px, py⟩]
  { s with wristBuffer := if buf.length > SMOOTH_N then buf.tail else buf }

/-- Source `getSmoothedWrist()`; `none` is `null`. -/
def getSmoothedWrist (s : State) : Option Pt :=
  if s.wristBuffer.length = 0 then none
  else
    let sx := s.wristBuffer.foldl (fun acc p => acc + p.x) 0
    let sy := s.wristBuffer.foldl (fun acc p => acc + p.y) 0
    some ⟨sx / s.wristBuffer.length, sy / s.wristBuffer.length⟩

/-- The arithmetic mean, per coordinate, of the last `min n 6` points of a
sequence of `n` points, as the specification words the control point; `none`
("no signal") for the empty sequence. -/
def meanOfLastSix (ps : List Pt) : Option Pt :=
  let k := min ps.length 6
  let last := ps.drop (ps.length - k)
  if ps.length = 0 then none
  else some ⟨(last.map Pt.x).sum / k, (last.map Pt.y).sum / k⟩

/-! ## Spawns, particles, powerups -/

/-- Source `spawnParticles(x,y,count,clr)`: `count` pushes, each drawing four
random numbers (`vx`, `vy`, `life`, `size`, in that order). -/
def spawnParticles (env : Env) (x y : ℚ) (count : ℕ) (clr : String) (s : State) : State :=
  { s with
    particles := s.particles ++ (List.range count).map (fun i =>
      { x := x, y := y,
        vx := (env.random (s.rng + 4 * i) - 0.5) * 4,
        vy := -(env.random (s.rng + 4 * i + 1)) * 3 - 0.4,
        life := 900 + env.random (s.rng + 4 * i + 2) * 600,
        size := env.random (s.rng + 4 * i + 3) * 3 + 2,
        color := clr })
    rng := s.rng + 4 * count }

/-- Source `spawnEnemy()`: six random draws (`x`, `r`, `vy`, the hue, `swing`,
`seed`). -/
def spawnEnemy (env : Env) (s : State) : State :=
  let x := env.random s.rng * (env.W - 160) + 80
  let r := env.random (s.rng + 1) * 26 + 18
  let vy := env.random (s.rng + 2) * 1.2 + 2.2 + min 2.8 (s.difficultyTimer / 12000)
  { s with
    enemies := s.enemies ++ [
      { x := x, y := -40, r := r, vy := vy,
        color := some (env.random (s.rng + 3) * 40 + 10),
        swing := decide (env.random (s.rng + 4) < 0.28),
        seed := env.random (s.rng + 5) * 1000 }]
    rng := s.rng + 6 }

/-- Source `spawnPowerup()`: two random draws (`x`, then the type selector). -/
def spawnPowerup (env : Env) (s : State) : State :=
  let x := env.random s.rng * (env.W - 180) + 90
  let t := env.random (s.rng + 1)
  let type := if t < 0.02 then PowerupType.life
    else if t < 0.18 then PowerupType.shield
    else if t < 0.34 then PowerupType.slow
    else PowerupType.double
  { s with
    powerups := s.powerups ++ [{ x := x, y := -40, vy := 1.6, type := type, age := 0 }]
    rng := s.rng + 2 }

/-! ## Slow motion and collisions -/

/-- Source `applySlowMotion(f, dur)`. -/
def applySlowMotion (f dur : ℚ) (s : State) : State :=
  setTimeout Callback.slowReset dur { s with slowFactor := f }

/-- Source `circleRectCollision(cx,cy,cr,rx,ry,rw,rh)`. -/
def circleRectCollision (cx cy cr rx ry rw rh : ℚ) : Bool :=
  let dx := |cx - rx|
  let dy := |cy - ry|
  if dx > rw / 2 + cr then false
  else if dy > rh / 2 + cr then false
  else if dx ≤ rw / 2 then true
  else if dy ≤ rh / 2 then true
  else
    let dx2 := dx - rw / 2
    let dy2 := dy - rh / 2
    decide (dx2 * dx2 + dy2 * dy2 ≤ cr * cr)

/-- The collision test of a circle against the player, with the arguments both
loops of `mainLoop` pass: the hitbox is centred at
`(player.x, player.y - player.h/2 + 6)` and measures `player.w*0.8` by
`player.h*0.9`. -/
def hitsPlayer (s : State) (cx cy cr : ℚ) : Bool :=
  circleRectCollision cx cy cr s.player.x (s.player.y - s.player.h / 2 + 6)
    (s.player.w * 0.8) (s.player.h * 0.9)

/-! ## Boss -/

/-- Source `startBoss()`. -/
def startBoss (env : Env) (s : State) : State :=
  { s with
    boss := some { x := env.W * 0.5, y := -320, w := 420, h := 320, hp := 200, maxHp := 200,
                   phase := 1, timer := 0, state := BossState.intro }
    inBoss := true
    bossIntro := true
    bossWarnShown := false }

/-- Source `endBoss()`. -/
def endBoss (s : State) : State :=
  { s with score := s.score + 250, boss := none, inBoss := false, bossIntro := false }

/-- Source `bossTakeDamage(d)`. -/
def bossTakeDamage (env : Env) (d : ℚ) (s : State) : State :=
  match s.boss with
  | none => s
  | some b =>
    let b1 : Boss := { b with hp := b.hp - d }
    let s1 := spawnParticles env b1.x b1.y 12 "#ff7b7b" { s with boss := some b1 }
    if b1.hp ≤ 0 then
      let s2 := spawnParticles env b1.x b1.y 60 "#ffd166"
        { s1 with boss := some { b1 with state := BossState.dead } }
      setTimeout Callback.bossEnd 1400 (applySlowMotion 0.5 1500 s2)
    else if b1.hp < b1.maxHp * 0.1 then { s1 with boss := some { b1 with phase := 3 } }
    else if b1.hp < b1.maxHp * 0.5 then { s1 with boss := some { b1 with phase := 2 } }
    else s1

/-- The test `boss && boss.state === 'active'`. -/
def bossIsActive (s : State) : Bool :=
  match s.boss with
  | some b => decide (b.state = BossState.active)
  | none => false

/-! ## Shield, reset, calibration -/

/-- Source `activateShield()`. -/
def activateShield (s : State) : State :=
  if s.player.shieldActive || s.player.shieldCooldown then s
  else setTimeout Callback.shieldExpire 2200
    { s with player := { s.player with shieldActive := true } }

/-- Source `resetAll()`. -/
def resetAll (env : Env) (s : State) : State :=
  { s with
    enemies := [], powerups := [], particles := []
    boss := none, inBoss := false, bossIntro := false, bossWarnShown := false
    spawnTimer := 0, spawnInterval := 900, difficultyTimer := 0, elapsedMs := 0, score := 0
    player := { s.player with
      x := env.W * 0.5, y := env.H - 140, targetX := env.W * 0.5, targetY := env.H - 140
      shieldActive := false, shieldCooldown := false
      holdTimer := 0, specialCooldown := 0, fistCooldown := 0
      lives := 3, doublePoints := false }
    screenShake := 0 }

/-- The start of a play session, as both `initAndStartSequence` and the restart
callback end: `resetAll(); playing = true`. -/
def startSession (env : Env) (s : State) : State :=
  { resetAll env s with playing := true }

/-- The start of calibration sampling in `initAndStartSequence`:
`calibration.running = true; calibration.samples = []`. -/
def beginCalibration (s : State) : State :=
  { s with calibration := { s.calibration with running := true, samples := [] } }

/-- One round of the sampling loop: the wrist of the first hand, when there is
one, is appended to `calibration.samples`. -/
def sampleCalibration (hands : List Hand) (s : State) : State :=
  match hands with
  | [] => s
  | hand :: _ =>
    { s with calibration :=
      { s.calibration with samples := s.calibration.samples ++ [wristToNorm hand] } }

/-- The end of calibration in `initAndStartSequence`: the neutral reference is
the mean of the samples, or `(0.5, 0.5)` when there are none. -/
def finishCalibration (env : Env) (s : State) : State :=
  let samples := s.calibration.samples
  if samples.length > 0 then
    let sx := samples.foldl (fun acc p => acc + p.x) 0
    let sy := samples.foldl (fun acc p => acc + p.y) 0
    let neutral : Pt := ⟨sx / samples.length, sy / samples.length⟩
    { s with calibration := { s.calibration with
        neutral := some neutral, neutralScreenY := some (neutral.y * env.H), running := false } }
  else
    { s with calibration := { s.calibration with
        neutral := some ⟨0.5, 0.5⟩, neutralScreenY := some (0.5 * env.H), running := false } }

/-- The calibration run of `initAndStartSequence`: the samples are cleared, each
round of the sampling loop reads `latestHands` (one entry of `rounds`), and the
neutral reference is computed at the end. -/
def calibrate (env : Env) (rounds : List (List Hand)) (s : State) : State :=
  finishCalibration env
    (rounds.foldl (fun st hands => sampleCalibration hands st) (beginCalibration s))

/-- The wrist samples a calibration run collects: the wrist of the first hand of
every round that has a hand. -/
def collectedSamples (rounds : List (List Hand)) : List Pt :=
  rounds.filterMap (fun hands => hands.head?.map wristToNorm)

/-- The state when the script has loaded, before any callback has run. -/
def initialState (env : Env) : State :=
  { running := false, playing := false
    player :=
      { x := env.W * 0.5, y := env.H - 140, w := 56, h := 120
        targetX := env.W * 0.5, targetY := env.H - 140
        frame := 0, frameTimer := 0
        shieldActive := false, shieldCooldown := false
        holdTimer := 0, specialCooldown := 0, fistCooldown := 0
        lives := 3, doublePoints := false }
    enemies := [], powerups := [], particles := []
    spawnTimer := 0, spawnInterval := 900, difficultyTimer := 0, elapsedMs := 0, score := 0
    boss := none, inBoss := false, bossIntro := false, bossWarnShown := false
    wristBuffer := []
    calibration :=
      { running := false, samples := [], durationMs := 1500, neutral := none,
        neutralScreenY := none }
    slowFactor := 1, screenShake := 0, lastTS := 0
    timers := [], rng := 0 }

/-! ## The main loop

`mainLoop` is cut at the comments of the source into one function per block;
`playingTick` chains them in source order. -/

/-- The first block of the playing branch: `elapsedMs += dtRaw;
difficultyTimer += dtRaw`. -/
def advanceClock (dtRaw : ℚ) (s : State) : State :=
  { s with elapsedMs := s.elapsedMs + dtRaw, difficultyTimer := s.difficultyTimer + dtRaw }

/-- The boss timer block: with no encounter running, `remaining` at most
`BOSS_WARN_SEC*1000` and no warning shown yet, the warning is raised and
`startBoss` is scheduled. -/
def bossTimerStep (s : State) : State :=
  let remaining := max 0 (BOSS_AFTER_MS - s.elapsedMs)
  if !s.inBoss && decide (remaining ≤ BOSS_WARN_SEC * 1000) && !s.bossWarnShown then
    setTimeout Callback.bossWarn (BOSS_WARN_SEC * 1000) { s with bossWarnShown := true }
  else s

/-- The mapping of a normalised wrist position to the screen, calibrated or
not, clamped to the playable bounds.  A `null` `neutralScreenY` counts as 0 in
the sum, as it does in JavaScript. -/
def mapWrist (env : Env) (s : State) (n : Pt) : Pt :=
  match s.calibration.neutral with
  | some neutral =>
    let dx := n.x - neutral.x
    let dy := n.y - neutral.y
    let sensX : ℚ := 1.2
    ⟨clamp (env.W * 0.5 + dx * sensX * env.W) 60 (env.W - 60),
     clamp (s.calibration.neutralScreenY.getD 0 + dy * env.H) 120 (env.H - 80)⟩
  | none => ⟨clamp (n.x * env.W) 60 (env.W - 60), clamp (n.y * env.H) 120 (env.H - 80)⟩

/-- The two-hand shield gesture: with a second hand present and both palms
open, `activateShield()` is called unless the shield is active or cooling. -/
def shieldGesture (env : Env) (hands : List Hand) (s : State) : State :=
  match hands with
  | hand0 :: hand1 :: _ =>
    let bothOpen := isOpenPalm env hand0 && isOpenPalm env hand1
    if bothOpen && !s.player.shieldActive && !s.player.shieldCooldown then activateShield s
    else s
  | _ => s

/-- The condition of the fist branch: `detectFist(hand) && inBoss && boss &&
boss.state === 'active' && (!player.fistCooldown || player.fistCooldown <= 0)`. -/
def fistReady (env : Env) (hand : Hand) (s : State) : Bool :=
  detectFist env hand && s.inBoss && bossIsActive s
    && decide (s.player.fistCooldown = 0 ∨ s.player.fistCooldown ≤ 0)

/-- The fist gesture: `bossTakeDamage(4); player.fistCooldown = 400` when the
first hand is a fist, the boss is active and the fist cooldown is over. -/
def fistGesture (env : Env) (hand : Hand) (s : State) : State :=
  if fistReady env hand s then
    let s1 := bossTakeDamage env 4 s
    { s1 with player := { s1.player with fistCooldown := 400 } }
  else s

/-- The gesture block; `hands` is `latestHands`, the empty list standing for
`null`. -/
def processGestures (env : Env) (hands : List Hand) (s : State) : State :=
  match hands with
  | [] => s
  | hand :: _ =>
    let m := mapWrist env s (wristToNorm hand)
    fistGesture env hand (shieldGesture env hands (pushWrist m.x m.y s))

/-- The block "apply smoothed wrist". -/
def applySmoothedWrist (env : Env) (dtRaw : ℚ) (s : State) : State :=
  match getSmoothedWrist s with
  | some sm =>
    let threshold :=
      match s.calibration.neutral with
      | some _ => s.calibration.neutralScreenY.getD 0 - 60
      | none => env.H * 0.28
    { s with player := { s.player with
        targetX := sm.x
        targetY := sm.y + 50
        holdTimer := if sm.y < threshold then s.player.holdTimer + dtRaw else 0 } }
  | none =>
    { s with player := { s.player with
        targetX := lerp s.player.targetX (env.W * 0.5) 0.02
        targetY := lerp s.player.targetY (env.H - 140) 0.02
        holdTimer := 0 } }

/-- The block "movement smoothing". -/
def smoothMovement (s : State) : State :=
  { s with player := { s.player with
      x := lerp s.player.x s.player.targetX (0.15 + 0.03 * min 1 (s.difficultyTimer / 12000))
      y := lerp s.player.y s.player.targetY 0.12 } }

/-- The condition of the special release: `player.holdTimer > 2000 &&
!player.specialCooldown && inBoss && boss && boss.state === 'active'`. -/
def specialReady (s : State) : Bool :=
  decide (s.player.holdTimer > 2000) && decide (s.player.specialCooldown = 0)
    && s.inBoss && bossIsActive s

/-- The block "special (hold) release". -/
def specialRelease (env : Env) (s : State) : State :=
  if specialReady s then
    let s1 := { s with player := { s.player with holdTimer := 0, specialCooldown := 6000 } }
    let s2 := bossTakeDamage env 28 s1
    let s3 := spawnParticles env s2.player.x (s2.player.y - 40) 28 "#ffd166" s2
    applySlowMotion 0.5 400 s3
  else s

/-- The two cooldown lines after the special release. -/
def tickCooldowns (dtRaw : ℚ) (s : State) : State :=
  { s with player := { s.player with
      specialCooldown :=
        if s.player.specialCooldown ≠ 0 then max 0 (s.player.specialCooldown - dtRaw)
        else s.player.specialCooldown
      fistCooldown :=
        if s.player.fistCooldown ≠ 0 then max 0 (s.player.fistCooldown - dtRaw)
        else s.player.fistCooldown } }

/-- The block "animation". -/
def animate (dtRaw : ℚ) (s : State) : State :=
  let ft := s.player.frameTimer + dtRaw
  if ft > 80 then
    { s with player := { s.player with frame := (s.player.frame + 1) % 6, frameTimer := 0 } }
  else { s with player := { s.player with frameTimer := ft } }

/-- The block "spawns".  A random number is drawn only when `!inBoss` holds,
as `&&` evaluates its right operand only then. -/
def spawnStep (env : Env) (dtRaw : ℚ) (s : State) : State :=
  let s1 := { s with spawnTimer := s.spawnTimer + dtRaw }
  let effectiveSpawn := s1.spawnInterval - min 500 (s1.difficultyTimer / 25)
  if s1.spawnTimer > effectiveSpawn then
    let s2 := { s1 with spawnTimer := 0 }
    let s3 :=
      if s2.inBoss then s2
      else
        let s2r := { s2 with rng := s2.rng + 1 }
        if env.random s2.rng < 0.92 then spawnEnemy env s2r else s2r
    if s3.inBoss then s3
    else
      let s3r := { s3 with rng := s3.rng + 1 }
      if env.random s3.rng < 0.12 then spawnPowerup env s3r else s3r
  else s1

/-- The motion of one enemy in a tick: `e.y += e.vy * (dt/16)` and, for a
swinging enemy, `e.x += Math.sin((ts + e.seed)/300) * 0.7`. -/
def moveEnemy (env : Env) (ts dt : ℚ) (e : Enemy) : Enemy :=
  let e1 : Enemy := { e with y := e.y + e.vy * (dt / 16) }
  if e1.swing then { e1 with x := e1.x + env.sin ((ts + e1.seed) / 300) * 0.7 } else e1

/-- What a collision of an enemy with the player does, the removal of the
enemy apart: a shield is used up and its cooldown timer set, or else a life
is lost and, at no lives left, `playing` is cleared. -/
def onEnemyCollision (env : Env) (s : State) : State :=
  if s.player.shieldActive then
    let s1 := { s with player := { s.player with shieldActive := false, shieldCooldown := true } }
    let s2 := setTimeout Callback.shieldReady 3000 s1
    spawnParticles env s2.player.x (s2.player.y - 30) 10 "#7fd1ff" s2
  else
    let s1 := { s with player := { s.player with lives := s.player.lives - 1 } }
    let s2 := spawnParticles env s1.player.x (s1.player.y - 20) 16 "#ff8a8a" s1
    let s3 := { s2 with screenShake := 14 }
    if s3.player.lives ≤ 0 then { s3 with playing := false } else s3

/-- One iteration of the enemy loop for the enemy `e`; `s.enemies` holds the
enemies of higher index that stayed in the list. -/
def enemyStep (env : Env) (ts dt : ℚ) (e : Enemy) (s : State) : State :=
  let e1 := moveEnemy env ts dt e
  if hitsPlayer s e1.x e1.y e1.r then onEnemyCollision env s
  else if e1.y > env.H + 60 then s
  else { s with enemies := e1 :: s.enemies }

/-- The block "update enemies": the loop runs from the last index down to 0,
so the last enemy is handled first. -/
def updateEnemies (env : Env) (ts dt : ℚ) (s : State) : State :=
  s.enemies.foldr (enemyStep env ts dt) { s with enemies := [] }

/-- The effect of picking up a powerup, by type. -/
def applyPowerup (env : Env) (type : PowerupType) (s : State) : State :=
  match type with
  | PowerupType.shield =>
    spawnParticles env s.player.x (s.player.y - 20) 16 "#7fd1ff"
      { s with player := { s.player with shieldActive := true, shieldCooldown := false } }
  | PowerupType.slow =>
    let s1 := applySlowMotion 0.6 4500 s
    spawnParticles env s1.player.x (s1.player.y - 20) 12 "#a0d1ff" s1
  | PowerupType.double =>
    let s1 := setTimeout Callback.doubleOff 8000
      { s with player := { s.player with doublePoints := true } }
    spawnParticles env s1.player.x (s1.player.y - 20) 14 "#ffd166" s1
  | PowerupType.life =>
    spawnParticles env s.player.x (s.player.y - 20) 22 "#ff9bcf"
      { s with player := { s.player with lives := s.player.lives + 1 } }

/-- The motion of one powerup in a tick: `p.y += p.vy * (dt/16); p.age += dt`. -/
def movePowerup (dt : ℚ) (p : Powerup) : Powerup :=
  { p with y := p.y + p.vy * (dt / 16), age := p.age + dt }

/-- One iteration of the powerup loop for the powerup `p`. -/
def powerupStep (env : Env) (dt : ℚ) (p : Powerup) (s : State) : State :=
  let p1 := movePowerup dt p
  if hitsPlayer s p1.x p1.y 20 then applyPowerup env p1.type s
  else if p1.y > env.H + 40 then s
  else { s with powerups := p1 :: s.powerups }

/-- The block "update powerups", last index first. -/
def updatePowerups (env : Env) (dt : ℚ) (s : State) : State :=
  s.powerups.foldr (powerupStep env dt) { s with powerups := [] }

/-- The enemies a boss in phase 1 spawns: three, 80 apart. -/
def bossVolley (env : Env) (b : Boss) (rng : ℕ) : List Enemy :=
  (List.range 3).map (fun (i : ℕ) =>
    { x := b.x + ((i : ℚ) - 1) * 80, y := b.y + 140, r := 26,
      vy := 2.6 + env.random (rng + i) * 0.6, color := none, swing := false, seed := 0 })

/-- The enemies a boss in phase 3 spawns: six across the width. -/
def bossSweep (env : Env) (b : Boss) (rng : ℕ) : List Enemy :=
  (List.range 6).map (fun (i : ℕ) =>
    { x := 60 + (i : ℚ) * (env.W - 120) / 5, y := b.y + 100,
      r := 26 + env.random (rng + 2 * i) * 8,
      vy := 3.5 + env.random (rng + 2 * i + 1) * 1.8, color := none, swing := false, seed := 0 })

/-- The block "boss logic". -/
def bossLogic (env : Env) (dt : ℚ) (s : State) : State :=
  match s.boss with
  | none => s
  | some b =>
    match b.state with
    | BossState.intro =>
      let b1 : Boss := { b with y := lerp b.y 120 0.02 }
      let b2 : Boss := if |b1.y - 120| < 6 then { b1 with state := BossState.active, timer := 0 } else b1
      let px := b2.x + (env.random s.rng - 0.5) * 200
      spawnParticles env px (b2.y + 40) 2 "#ff7b7b" { s with boss := some b2, rng := s.rng + 1 }
    | BossState.active =>
      let b1 : Boss := { b with timer := b.timer + dt }
      let s1 :=
        if b1.phase = 1 ∧ b1.timer > 1200 then
          { s with boss := some { b1 with timer := 0 }
                   enemies := s.enemies ++ bossVolley env b1 s.rng
                   rng := s.rng + 3 }
        else if b1.phase = 2 ∧ b1.timer > 900 then
          let dir : ℚ := if s.player.x < b1.x then -1 else 1
          { s with boss := some { b1 with timer := 0 }
                   enemies := s.enemies ++ [
                     { x := b1.x + dir * 60, y := b1.y + 140, r := 34,
                       vy := 3.6 + env.random s.rng * 1.2, color := none, swing := true,
                       seed := env.random (s.rng + 1) * 1000 }]
                   rng := s.rng + 2 }
        else if b1.phase = 3 ∧ b1.timer > 700 then
          { s with boss := some { b1 with timer := 0 }
                   enemies := s.enemies ++ bossSweep env b1 s.rng
                   rng := s.rng + 12
                   screenShake := 10 }
        else { s with boss := some b1 }
      { s1 with boss := s1.boss.map (fun b2 => { b2 with x := lerp b2.x s1.player.x 0.01 }) }
    | BossState.dead => s

/-- The block "particles": each particle moves, ages by `dt`, and is removed
when its life is over. -/
def updateParticles (dt : ℚ) (s : State) : State :=
  { s with particles := s.particles.filterMap (fun p =>
      let p1 : Particle := { p with x := p.x + p.vx, y := p.y + p.vy, vy := p.vy + 0.08, life := p.life - dt }
      if p1.life ≤ 0 then none else some p1) }

/-- The block "scoring over time". -/
def addScore (dtRaw : ℚ) (s : State) : State :=
  { s with score := s.score + (dtRaw / 1000) * (if s.player.doublePoints then 2 else 1) }

/-- The block "screen shake apply": two random draws while the shake lasts. -/
def applyScreenShake (s : State) : State :=
  if s.screenShake > 0 then
    { s with screenShake := max 0 (s.screenShake - 0.6), rng := s.rng + 2 }
  else s

/-- The part of a playing tick that comes before the enemy loop. -/
def beforeEnemies (env : Env) (dtRaw : ℚ) (hands : List Hand) (s : State) : State :=
  spawnStep env dtRaw (animate dtRaw (tickCooldowns dtRaw (specialRelease env
    (smoothMovement (applySmoothedWrist env dtRaw (processGestures env hands
      (bossTimerStep (advanceClock dtRaw s))))))))

/-- The part of a playing tick that comes after the enemy loop. -/
def afterEnemies (env : Env) (dtRaw dt : ℚ) (s : State) : State :=
  applyScreenShake (addScore dtRaw (updateParticles dt (bossLogic env dt
    (updatePowerups env dt s))))

/-- The body of `if (playing){ ... }`. -/
def playingTick (env : Env) (ts dtRaw dt : ℚ) (hands : List Hand) (s : State) : State :=
  afterEnemies env dtRaw dt (updateEnemies env ts dt (beforeEnemies env dtRaw hands s))

/-- Source `mainLoop(ts)`, with `latestHands` as the argument `hands`. -/
def mainLoop (env : Env) (ts : ℚ) (hands : List Hand) (s : State) : State :=
  let dtRaw := ts - s.lastTS
  let dt := dtRaw * s.slowFactor
  let s0 := { s with lastTS := ts }
  if !s0.running then { s0 with running := true }
  else if s0.playing then playingTick env ts dtRaw dt hands s0
  else s0

/-! ## Events -/

/-- The body of a timer callback. -/
def runCallback (env : Env) (cb : Callback) (s : State) : State :=
  match cb with
  | Callback.bossWarn => startBoss env s
  | Callback.bossEnd => endBoss s
  | Callback.slowReset => { s with slowFactor := 1 }
  | Callback.shieldReady => { s with player := { s.player with shieldCooldown := false } }
  | Callback.shieldExpire =>
    setTimeout Callback.shieldReady 3000
      { s with player := { s.player with shieldActive := false, shieldCooldown := true } }
  | Callback.doubleOff => { s with player := { s.player with doublePoints := false } }
  | Callback.restart => startSession env s

/-- The pending timer of index `i` fires: it leaves the list and its body
runs.  Nothing happens when there is no such timer. -/
def fireTimer (env : Env) (i : ℕ) (s : State) : State :=
  match s.timers.get? i with
  | none => s
  | some t => runCallback env t.cb { s with timers := s.timers.eraseIdx i }

/-- The keys of the `keydown` listener that write the simulation state. -/
inductive Key
  | left
  | right
  | space
deriving DecidableEq

/-- The `keydown` listener. -/
def keydown (k : Key) (s : State) : State :=
  match k with
  | Key.left => { s with player := { s.player with targetX := s.player.targetX - 60 } }
  | Key.right => { s with player := { s.player with targetX := s.player.targetX + 60 } }
  | Key.space => activateShield s

/-- Source `restartPlay()`: the reset is deferred by 1200 ms. -/
def restartPlay (s : State) : State := setTimeout Callback.restart 1200 s

/-- What can happen to the state: an animation frame, a timer firing, a key
press, the restart button, or the end of a calibration run that starts a
session. -/
inductive Event
  | frame (ts : ℚ) (hands : List Hand)
  | timeout (i : ℕ)
  | key (k : Key)
  | restartClick
  | sessionStart

/-- One event. -/
def step (env : Env) (s : State) (ev : Event) : State :=
  match ev with
  | Event.frame ts hands => mainLoop env ts hands s
  | Event.timeout i => fireTimer env i s
  | Event.key k => keydown k s
  | Event.restartClick => restartPlay s
  | Event.sessionStart => startSession env (finishCalibration env s)

/-- A run of events, oldest first. -/
def run (env : Env) (s : State) (evs : List Event) : State := evs.foldl (step env) s

/-! ## Predicates and derived notions used by the theorems -/

/-- The shield is not active and cooling at once. -/
def ShieldOk (s : State) : Prop :=
  ¬ (s.player.shieldActive = true ∧ s.player.shieldCooldown = true)

/-- A run of animation frames, oldest first, each with its timestamp and the
hands `latestHands` holds when it starts. -/
def runFrames (env : Env) (frames : List (ℚ × List Hand)) (s : State) : State :=
  frames.foldl (fun st f => mainLoop env f.1 f.2 st) s

/-- The states `a` and `b` differ in `slowFactor` at most. -/
def SameButSlow (a b : State) : Prop := a = { b with slowFactor := a.slowFactor }

/-- The playable bounds: `[60, W-60]` across and `[120, H-80]` down. -/
def InBox (env : Env) (p : Pt) : Prop :=
  60 ≤ p.x ∧ p.x ≤ env.W - 60 ∧ 120 ≤ p.y ∧ p.y ≤ env.H - 80

/-- Every sample in the wrist buffer lies in the playable bounds. -/
def BufferInBox (env : Env) (s : State) : Prop := ∀ p ∈ s.wristBuffer, InBox env p

/-- The pending timers of `t` are those of `s` followed by new ones: between
`s` and `t` timers were set and none fired. -/
def TimersGrow (s t : State) : Prop := ∃ l : List Timer, t.timers = s.timers ++ l

/-- The state at the entry of the gesture block in the playing tick
`mainLoop(ts)` taken from `s`. -/
def gestureEntry (ts : ℚ) (s : State) : State :=
  bossTimerStep (advanceClock (ts - s.lastTS) { s with lastTS := ts })

/-- The state at the exit of the gesture block in that tick. -/
def gestureExit (env : Env) (ts : ℚ) (hands : List Hand) (s : State) : State :=
  processGestures env hands (gestureEntry ts s)

/-- The state at the special release of that tick, the smoothed wrist applied
and the player moved. -/
def releaseEntry (env : Env) (ts : ℚ) (hands : List Hand) (s : State) : State :=
  smoothMovement (applySmoothedWrist env (ts - s.lastTS) (gestureExit env ts hands s))

/-- Whether the fist branch runs in the tick taken from `s` with `hands` as
`latestHands`: the first hand is a fist and the branch condition holds. -/
def fistFires (env : Env) (hands : List Hand) (s : State) : Bool :=
  match hands with
  | [] => false
  | hand :: _ => fistReady env hand s

/-- Whether the special attack is released in the tick taken from `s`. -/
def specialFires (env : Env) (ts : ℚ) (hands : List Hand) (s : State) : Bool :=
  specialReady (releaseEntry env ts hands s)

/-- The state at the entry of the enemy loop in the playing tick `mainLoop(ts)`
taken from `s`. -/
def loopEntry (env : Env) (ts : ℚ) (hands : List Hand) (s : State) : State :=
  beforeEnemies env (ts - s.lastTS) hands { s with lastTS := ts }

/-- The state at the exit of the enemy loop in the playing tick `mainLoop(ts)`
taken from `s`. -/
def loopExit (env : Env) (ts : ℚ) (hands : List Hand) (s : State) : State :=
  updateEnemies env ts ((ts - s.lastTS) * s.slowFactor) (loopEntry env ts hands s)

/-- The state of the enemy loop entered from `m` once the enemies `handled`, the
ones at the end of the list, have had their turn. -/
def enemyLoopAfter (env : Env) (ts dt : ℚ) (m : State) (handled : List Enemy) : State :=
  handled.foldr (enemyStep env ts dt) { m with enemies := [] }

/-- The enemies of `m` that overlap the player's hitbox once moved by this
tick's step: the ones the enemy loop treats as collisions. -/
def collidingEnemies (env : Env) (ts dt : ℚ) (m : State) : List Enemy :=
  (m.enemies.map (moveEnemy env ts dt)).filter (fun e => hitsPlayer m e.x e.y e.r)

/-- The enemies of `m` that, once moved, neither overlap the hitbox nor have
left the canvas by more than 60. -/
def survivingEnemies (env : Env) (ts dt : ℚ) (m : State) : List Enemy :=
  (m.enemies.map (moveEnemy env ts dt)).filter
    (fun e => !hitsPlayer m e.x e.y e.r && !decide (e.y > env.H + 60))

/-- The powerups of `m` that, once moved, neither overlap the hitbox nor have
left the canvas by more than 40. -/
def survivingPowerups (env : Env) (dt : ℚ) (m : State) : List Powerup :=
  (m.powerups.map (movePowerup dt)).filter
    (fun p => !hitsPlayer m p.x p.y 20 && !decide (p.y > env.H + 40))

/-- Whether the boss `b`, its timer advanced to `t`, launches the attack of its
phase: past 1200 ms in phase 1, 900 ms in phase 2, 700 ms in phase 3. -/
def bossAttacks (b : Boss) (t : ℚ) : Bool :=
  decide ((b.phase = 1 ∧ t > 1200) ∨ (b.phase = 2 ∧ t > 900) ∨ (b.phase = 3 ∧ t > 700))

/-- The powerups of `m` that overlap the player's hitbox once moved by this
tick's step: the ones the powerup loop treats as picked up. -/
def pickedPowerups (dt : ℚ) (m : State) : List Powerup :=
  (m.powerups.map (movePowerup dt)).filter (fun p => hitsPlayer m p.x p.y 20)

/-! ## Concrete inputs

The environment and the states at which the theorems below are evaluated. -/

/-- A canvas of 800 by 600 in which every `Math.random()` call returns `1/2`;
`Math.sin` and `Math.hypot` are stand-ins, the results below not depending on
them. -/
def sampleEnv : Env :=
  { W := 800, H := 600, random := fun _ => 1 / 2, sin := fun _ => 0,
    hypot := fun a b => |a| + |b| }

/-- Seven mapped wrist positions, one more than the buffer holds. -/
def sevenPoints : List Pt :=
  [⟨100, 200⟩, ⟨110, 210⟩, ⟨120, 220⟩, ⟨130, 230⟩, ⟨140, 240⟩, ⟨150, 250⟩, ⟨160, 260⟩]

/-- A session with no hand in view: the page loads, the first frame starts the
loop, calibration ends and play starts, then five frames follow at 900, 1800,
2200, 2900 and 4900 ms.  Enemies spawn in the frames at 900, 1800, 2900 and
4900 ms; one hits the player at 2200 ms, one at 2900 ms, and two at 4900 ms. -/
def livesRun : List Event :=
  [Event.frame 0 [], Event.sessionStart, Event.frame 900 [], Event.frame 1800 [],
   Event.frame 2200 [], Event.frame 2900 [], Event.frame 4900 []]

/-- An enemy of radius 26 and fall speed 3 at `(x, y)`, as a boss volley
spawns them. -/
def enemyAt (x y : ℚ) : Enemy :=
  { x := x, y := y, r := 26, vy := 3, color := none, swing := false, seed := 0 }

/-- A session just started on the sample canvas, the loop running: the player
stands at `(400, 460)` with three lives. -/
def sessionState : State :=
  { startSession sampleEnv (initialState sampleEnv) with running := true }

/-- A shielded player with two enemies over the hitbox and one far away. -/
def shieldedState : State :=
  { sessionState with
    player := { sessionState.player with shieldActive := true }
    enemies := [enemyAt 400 400, enemyAt 420 380, enemyAt 100 100] }

/-- An unshielded player on the last life with one enemy over the hitbox and one
far away. -/
def lastLifeState : State :=
  { sessionState with
    player := { sessionState.player with lives := 1 }
    enemies := [enemyAt 100 100, enemyAt 400 400] }

/-- A session with no hand in view up to the start of the first encounter: the
frame at 55000 ms raises the boss warning and sets the timer that is then
fired, which runs `startBoss`. -/
def bossRun : List Event :=
  [Event.frame 0 [], Event.sessionStart, Event.frame 55000 [], Event.timeout 0]

/-- A hand whose 21 landmarks all sit at the normalised position `(0.375, 0.4)`. -/
def sampleHand : Hand := ⟨List.replicate 21 ⟨0.375, 0.4⟩⟩

/-- A session in which the hand is seen in one frame, at 16 ms, and is gone in
the next, at 32 ms. -/
def staleRun : List Event :=
  [Event.frame 0 [], Event.sessionStart, Event.frame 16 [sampleHand], Event.frame 32 []]

/-- A hand raised high: the wrist at `(0.5, 0.2)`, every other landmark at
`(0.5, 0.1)`; its fingertips are away from the wrist, so it is no fist. -/
def raisedHand : Hand := ⟨⟨0.5, 0.2⟩ :: List.replicate 20 ⟨0.5, 0.1⟩⟩

/-- A boss in its active state with the given hp and phase, at rest over the
sample canvas. -/
def bossWith (hp : ℚ) (phase : ℕ) : Boss :=
  { x := 400, y := 120, w := 420, h := 320, hp := hp, maxHp := 200, phase := phase,
    timer := 0, state := BossState.active }

/-- An encounter under way: the boss is active with hp 100 and the fist
cooldown is over. -/
def bossFightState : State :=
  { sessionState with inBoss := true, bossIntro := true, boss := some (bossWith 100 1) }

/-- An encounter under way with the boss at hp 50, the hand held high for 1990
ms so far and no special cooldown pending. -/
def holdState : State :=
  { sessionState with
    inBoss := true, bossIntro := true, boss := some (bossWith 50 2)
    player := { sessionState.player with holdTimer := 1990 } }

/-! ## Theorems -/

/-! ### Frame lemmas: the fields each block of the loop leaves alone -/

@[simp] theorem setTimeout_player_lives (cb : Callback) (d : ℚ) (s : State) :
    (setTimeout cb d s).player.lives = s.player.lives := rfl

@[simp] theorem setTimeout_playing (cb : Callback) (d : ℚ) (s : State) :
    (setTimeout cb d s).playing = s.playing := rfl

@[simp] theorem setTimeout_lastTS (cb : Callback) (d : ℚ) (s : State) :
    (setTimeout cb d s).lastTS = s.lastTS := rfl

@[simp] theorem setTimeout_boss (cb : Callback) (d : ℚ) (s : State) :
    (setTimeout cb d s).boss = s.boss := rfl

@[simp] theorem setTimeout_inBoss (cb : Callback) (d : ℚ) (s : State) :
    (setTimeout cb d s).inBoss = s.inBoss := rfl

@[simp] theorem setTimeout_player_fistCooldown (cb : Callback) (d : ℚ) (s : State) :
    (setTimeout cb d s).player.fistCooldown = s.player.fistCooldown := rfl

@[simp] theorem setTimeout_player_specialCooldown (cb : Callback) (d : ℚ) (s : State) :
    (setTimeout cb d s).player.specialCooldown = s.player.specialCooldown := rfl

@[simp] theorem setTimeout_player_holdTimer (cb : Callback) (d : ℚ) (s : State) :
    (setTimeout cb d s).player.holdTimer = s.player.holdTimer := rfl

@[simp] theorem setTimeout_player_x (cb : Callback) (d : ℚ) (s : State) :
    (setTimeout cb d s).player.x = s.player.x := rfl

@[simp] theorem setTimeout_player_y (cb : Callback) (d : ℚ) (s : State) :
    (setTimeout cb d s).player.y = s.player.y := rfl

@[simp] theorem setTimeout_player_w (cb : Callback) (d : ℚ) (s : State) :
    (setTimeout cb d s).player.w = s.player.w := rfl

@[simp] theorem setTimeout_player_h (cb : Callback) (d : ℚ) (s : State) :
    (setTimeout cb d s).player.h = s.player.h := rfl

@[simp] theorem setTimeout_player_shieldCooldown (cb : Callback) (d : ℚ) (s : State) :
    (setTimeout cb d s).player.shieldCooldown = s.player.shieldCooldown := rfl

@[simp] theorem setTimeout_player_shieldActive (cb : Callback) (d : ℚ) (s : State) :
    (setTimeout cb d s).player.shieldActive = s.player.shieldActive := rfl

@[simp] theorem setTimeout_wristBuffer (cb : Callback) (d : ℚ) (s : State) :
    (setTimeout cb d s).wristBuffer = s.wristBuffer := rfl

@[simp] theorem setTimeout_calibration (cb : Callback) (d : ℚ) (s : State) :
    (setTimeout cb d s).calibration = s.calibration := rfl

@[simp] theorem setTimeout_bossWarnShown (cb : Callback) (d : ℚ) (s : State) :
    (setTimeout cb d s).bossWarnShown = s.bossWarnShown := rfl

@[simp] theorem setTimeout_elapsedMs (cb : Callback) (d : ℚ) (s : State) :
    (setTimeout cb d s).elapsedMs = s.elapsedMs := rfl

@[simp] theorem spawnParticles_player_lives (env : Env) (x y : ℚ) (n : ℕ) (c : String) (s : State) :
    (spawnParticles env x y n c s).player.lives = s.player.lives := rfl

@[simp] theorem spawnParticles_playing (env : Env) (x y : ℚ) (n : ℕ) (c : String) (s : State) :
    (spawnParticles env x y n c s).playing = s.playing := rfl

@[simp] theorem spawnParticles_lastTS (env : Env) (x y : ℚ) (n : ℕ) (c : String) (s : State) :
    (spawnParticles env x y n c s).lastTS = s.lastTS := rfl

@[simp] theorem spawnParticles_boss (env : Env) (x y : ℚ) (n : ℕ) (c : String) (s : State) :
    (spawnParticles env x y n c s).boss = s.boss := rfl

@[simp] theorem spawnParticles_inBoss (env : Env) (x y : ℚ) (n : ℕ) (c : String) (s : State) :
    (spawnParticles env x y n c s).inBoss = s.inBoss := rfl

@[simp] theorem spawnParticles_player_fistCooldown (env : Env) (x y : ℚ) (n : ℕ) (c : String) (s : State) :
    (spawnParticles env x y n c s).player.fistCooldown = s.player.fistCooldown := rfl

@[simp] theorem spawnParticles_player_specialCooldown (env : Env) (x y : ℚ) (n : ℕ) (c : String) (s : State) :
    (spawnParticles env x y n c s).player.specialCooldown = s.player.specialCooldown := rfl

@[simp] theorem spawnParticles_player_holdTimer (env : Env) (x y : ℚ) (n : ℕ) (c : String) (s : State) :
    (spawnParticles env x y n c s).player.holdTimer = s.player.holdTimer := rfl

@[simp] theorem spawnParticles_player_x (env : Env) (x y : ℚ) (n : ℕ) (c : String) (s : State) :
    (spawnParticles env x y n c s).player.x = s.player.x := rfl

@[simp] theorem spawnParticles_player_y (env : Env) (x y : ℚ) (n : ℕ) (c : String) (s : State) :
    (spawnParticles env x y n c s).player.y = s.player.y := rfl

@[simp] theorem spawnParticles_player_w (env : Env) (x y : ℚ) (n : ℕ) (c : String) (s : State) :
    (spawnParticles env x y n c s).player.w = s.player.w := rfl

@[simp] theorem spawnParticles_player_h (env : Env) (x y : ℚ) (n : ℕ) (c : String) (s : State) :
    (spawnParticles env x y n c s).player.h = s.player.h := rfl

@[simp] theorem spawnParticles_player_shieldCooldown (env : Env) (x y : ℚ) (n : ℕ) (c : String) (s : State) :
    (spawnParticles env x y n c s).player.shieldCooldown = s.player.shieldCooldown := rfl

@[simp] theorem spawnParticles_player_shieldActive (env : Env) (x y : ℚ) (n : ℕ) (c : String) (s : State) :
    (spawnParticles env x y n c s).player.shieldActive = s.player.shieldActive := rfl

@[simp] theorem spawnParticles_wristBuffer (env : Env) (x y : ℚ) (n : ℕ) (c : String) (s : State) :
    (spawnParticles env x y n c s).wristBuffer = s.wristBuffer := rfl

@[simp] theorem spawnParticles_calibration (env : Env) (x y : ℚ) (n : ℕ) (c : String) (s : State) :
    (spawnParticles env x y n c s).calibration = s.calibration := rfl

@[simp] theorem spawnParticles_timers (env : Env) (x y : ℚ) (n : ℕ) (c : String) (s : State) :
    (spawnParticles env x y n c s).timers = s.timers := rfl

@[simp] theorem spawnParticles_bossWarnShown (env : Env) (x y : ℚ) (n : ℕ) (c : String) (s : State) :
    (spawnParticles env x y n c s).bossWarnShown = s.bossWarnShown := rfl

@[simp] theorem spawnParticles_elapsedMs (env : Env) (x y : ℚ) (n : ℕ) (c : String) (s : State) :
    (spawnParticles env x y n c s).elapsedMs = s.elapsedMs := rfl

@[simp] theorem spawnEnemy_player_lives (env : Env) (s : State) :
    (spawnEnemy env s).player.lives = s.player.lives := rfl

@[simp] theorem spawnEnemy_playing (env : Env) (s : State) :
    (spawnEnemy env s).playing = s.playing := rfl

@[simp] theorem spawnEnemy_lastTS (env : Env) (s : State) :
    (spawnEnemy env s).lastTS = s.lastTS := rfl

@[simp] theorem spawnEnemy_boss (env : Env) (s : State) : (spawnEnemy env s).boss = s.boss := rfl

@[simp] theorem spawnEnemy_inBoss (env : Env) (s : State) :
    (spawnEnemy env s).inBoss = s.inBoss := rfl

@[simp] theorem spawnEnemy_player_fistCooldown (env : Env) (s : State) :
    (spawnEnemy env s).player.fistCooldown = s.player.fistCooldown := rfl

@[simp] theorem spawnEnemy_player_specialCooldown (env : Env) (s : State) :
    (spawnEnemy env s).player.specialCooldown = s.player.specialCooldown := rfl

@[simp] theorem spawnEnemy_player_holdTimer (env : Env) (s : State) :
    (spawnEnemy env s).player.holdTimer = s.player.holdTimer := rfl

@[simp] theorem spawnEnemy_player_x (env : Env) (s : State) :
    (spawnEnemy env s).player.x = s.player.x := rfl

@[simp] theorem spawnEnemy_player_y (env : Env) (s : State) :
    (spawnEnemy env s).player.y = s.player.y := rfl

@[simp] theorem spawnEnemy_player_w (env : Env) (s : State) :
    (spawnEnemy env s).player.w = s.player.w := rfl

@[simp] theorem spawnEnemy_player_h (env : Env) (s : State) :
    (spawnEnemy env s).player.h = s.player.h := rfl

@[simp] theorem spawnEnemy_player_shieldCooldown (env : Env) (s : State) :
    (spawnEnemy env s).player.shieldCooldown = s.player.shieldCooldown := rfl

@[simp] theorem spawnEnemy_player_shieldActive (env : Env) (s : State) :
    (spawnEnemy env s).player.shieldActive = s.player.shieldActive := rfl

@[simp] theorem spawnEnemy_wristBuffer (env : Env) (s : State) :
    (spawnEnemy env s).wristBuffer = s.wristBuffer := rfl

@[simp] theorem spawnEnemy_calibration (env : Env) (s : State) :
    (spawnEnemy env s).calibration = s.calibration := rfl

@[simp] theorem spawnEnemy_timers (env : Env) (s : State) :
    (spawnEnemy env s).timers = s.timers := rfl

@[simp] theorem spawnEnemy_bossWarnShown (env : Env) (s : State) :
    (spawnEnemy env s).bossWarnShown = s.bossWarnShown := rfl

@[simp] theorem spawnEnemy_elapsedMs (env : Env) (s : State) :
    (spawnEnemy env s).elapsedMs = s.elapsedMs := rfl

@[simp] theorem spawnPowerup_player_lives (env : Env) (s : State) :
    (spawnPowerup env s).player.lives = s.player.lives := rfl

@[simp] theorem spawnPowerup_playing (env : Env) (s : State) :
    (spawnPowerup env s).playing = s.playing := rfl

@[simp] theorem spawnPowerup_lastTS (env : Env) (s : State) :
    (spawnPowerup env s).lastTS = s.lastTS := rfl

@[simp] theorem spawnPowerup_boss (env : Env) (s : State) :
    (spawnPowerup env s).boss = s.boss := rfl

@[simp] theorem spawnPowerup_inBoss (env : Env) (s : State) :
    (spawnPowerup env s).inBoss = s.inBoss := rfl

@[simp] theorem spawnPowerup_player_fistCooldown (env : Env) (s : State) :
    (spawnPowerup env s).player.fistCooldown = s.player.fistCooldown := rfl

@[simp] theorem spawnPowerup_player_specialCooldown (env : Env) (s : State) :
    (spawnPowerup env s).player.specialCooldown = s.player.specialCooldown := rfl

@[simp] theorem spawnPowerup_player_holdTimer (env : Env) (s : State) :
    (spawnPowerup env s).player.holdTimer = s.player.holdTimer := rfl

@[simp] theorem spawnPowerup_player_x (env : Env) (s : State) :
    (spawnPowerup env s).player.x = s.player.x := rfl

@[simp] theorem spawnPowerup_player_y (env : Env) (s : State) :
    (spawnPowerup env s).player.y = s.player.y := rfl

@[simp] theorem spawnPowerup_player_w (env : Env) (s : State) :
    (spawnPowerup env s).player.w = s.player.w := rfl

@[simp] theorem spawnPowerup_player_h (env : Env) (s : State) :
    (spawnPowerup env s).player.h = s.player.h := rfl

@[simp] theorem spawnPowerup_player_shieldCooldown (env : Env) (s : State) :
    (spawnPowerup env s).player.shieldCooldown = s.player.shieldCooldown := rfl

@[simp] theorem spawnPowerup_player_shieldActive (env : Env) (s : State) :
    (spawnPowerup env s).player.shieldActive = s.player.shieldActive := rfl

@[simp] theorem spawnPowerup_wristBuffer (env : Env) (s : State) :
    (spawnPowerup env s).wristBuffer = s.wristBuffer := rfl

@[simp] theorem spawnPowerup_calibration (env : Env) (s : State) :
    (spawnPowerup env s).calibration = s.calibration := rfl

@[simp] theorem spawnPowerup_timers (env : Env) (s : State) :
    (spawnPowerup env s).timers = s.timers := rfl

@[simp] theorem spawnPowerup_bossWarnShown (env : Env) (s : State) :
    (spawnPowerup env s).bossWarnShown = s.bossWarnShown := rfl

@[simp] theorem spawnPowerup_elapsedMs (env : Env) (s : State) :
    (spawnPowerup env s).elapsedMs = s.elapsedMs := rfl

@[simp] theorem applySlowMotion_player_lives (f d : ℚ) (s : State) :
    (applySlowMotion f d s).player.lives = s.player.lives := rfl

@[simp] theorem applySlowMotion_playing (f d : ℚ) (s : State) :
    (applySlowMotion f d s).playing = s.playing := rfl

@[simp] theorem applySlowMotion_lastTS (f d : ℚ) (s : State) :
    (applySlowMotion f d s).lastTS = s.lastTS := rfl

@[simp] theorem applySlowMotion_boss (f d : ℚ) (s : State) :
    (applySlowMotion f d s).boss = s.boss := rfl

@[simp] theorem applySlowMotion_inBoss (f d : ℚ) (s : State) :
    (applySlowMotion f d s).inBoss = s.inBoss := rfl

@[simp] theorem applySlowMotion_player_fistCooldown (f d : ℚ) (s : State) :
    (applySlowMotion f d s).player.fistCooldown = s.player.fistCooldown := rfl

@[simp] theorem applySlowMotion_player_specialCooldown (f d : ℚ) (s : State) :
    (applySlowMotion f d s).player.specialCooldown = s.player.specialCooldown := rfl

@[simp] theorem applySlowMotion_player_holdTimer (f d : ℚ) (s : State) :
    (applySlowMotion f d s).player.holdTimer = s.player.holdTimer := rfl

@[simp] theorem applySlowMotion_player_x (f d : ℚ) (s : State) :
    (applySlowMotion f d s).player.x = s.player.x := rfl

@[simp] theorem applySlowMotion_player_y (f d : ℚ) (s : State) :
    (applySlowMotion f d s).player.y = s.player.y := rfl

@[simp] theorem applySlowMotion_player_w (f d : ℚ) (s : State) :
    (applySlowMotion f d s).player.w = s.player.w := rfl

@[simp] theorem applySlowMotion_player_h (f d : ℚ) (s : State) :
    (applySlowMotion f d s).player.h = s.player.h := rfl

@[simp] theorem applySlowMotion_player_shieldCooldown (f d : ℚ) (s : State) :
    (applySlowMotion f d s).player.shieldCooldown = s.player.shieldCooldown := rfl

@[simp] theorem applySlowMotion_player_shieldActive (f d : ℚ) (s : State) :
    (applySlowMotion f d s).player.shieldActive = s.player.shieldActive := rfl

@[simp] theorem applySlowMotion_wristBuffer (f d : ℚ) (s : State) :
    (applySlowMotion f d s).wristBuffer = s.wristBuffer := rfl

@[simp] theorem applySlowMotion_calibration (f d : ℚ) (s : State) :
    (applySlowMotion f d s).calibration = s.calibration := rfl

@[simp] theorem applySlowMotion_bossWarnShown (f d : ℚ) (s : State) :
    (applySlowMotion f d s).bossWarnShown = s.bossWarnShown := rfl

@[simp] theorem applySlowMotion_elapsedMs (f d : ℚ) (s : State) :
    (applySlowMotion f d s).elapsedMs = s.elapsedMs := rfl

@[simp] theorem bossTakeDamage_player_lives (env : Env) (d : ℚ) (s : State) :
    (bossTakeDamage env d s).player.lives = s.player.lives := by
  unfold bossTakeDamage
  split
  · rfl
  · dsimp only
    split_ifs <;> rfl

@[simp] theorem bossTakeDamage_playing (env : Env) (d : ℚ) (s : State) :
    (bossTakeDamage env d s).playing = s.playing := by
  unfold bossTakeDamage
  split
  · rfl
  · dsimp only
    split_ifs <;> rfl

@[simp] theorem bossTakeDamage_lastTS (env : Env) (d : ℚ) (s : State) :
    (bossTakeDamage env d s).lastTS = s.lastTS := by
  unfold bossTakeDamage
  split
  · rfl
  · dsimp only
    split_ifs <;> rfl

@[simp] theorem bossTakeDamage_inBoss (env : Env) (d : ℚ) (s : State) :
    (bossTakeDamage env d s).inBoss = s.inBoss := by
  unfold bossTakeDamage
  split
  · rfl
  · dsimp only
    split_ifs <;> rfl

@[simp] theorem bossTakeDamage_player_fistCooldown (env : Env) (d : ℚ) (s : State) :
    (bossTakeDamage env d s).player.fistCooldown = s.player.fistCooldown := by
  unfold bossTakeDamage
  split
  · rfl
  · dsimp only
    split_ifs <;> rfl

@[simp] theorem bossTakeDamage_player_specialCooldown (env : Env) (d : ℚ) (s : State) :
    (bossTakeDamage env d s).player.specialCooldown = s.player.specialCooldown := by
  unfold bossTakeDamage
  split
  · rfl
  · dsimp only
    split_ifs <;> rfl

@[simp] theorem bossTakeDamage_player_holdTimer (env : Env) (d : ℚ) (s : State) :
    (bossTakeDamage env d s).player.holdTimer = s.player.holdTimer := by
  unfold bossTakeDamage
  split
  · rfl
  · dsimp only
    split_ifs <;> rfl

@[simp] theorem bossTakeDamage_player_x (env : Env) (d : ℚ) (s : State) :
    (bossTakeDamage env d s).player.x = s.player.x := by
  unfold bossTakeDamage
  split
  · rfl
  · dsimp only
    split_ifs <;> rfl

@[simp] theorem bossTakeDamage_player_y (env : Env) (d : ℚ) (s : State) :
    (bossTakeDamage env d s).player.y = s.player.y := by
  unfold bossTakeDamage
  split
  · rfl
  · dsimp only
    split_ifs <;> rfl

@[simp] theorem bossTakeDamage_player_w (env : Env) (d : ℚ) (s : State) :
    (bossTakeDamage env d s).player.w = s.player.w := by
  unfold bossTakeDamage
  split
  · rfl
  · dsimp only
    split_ifs <;> rfl

@[simp] theorem bossTakeDamage_player_h (env : Env) (d : ℚ) (s : State) :
    (bossTakeDamage env d s).player.h = s.player.h := by
  unfold bossTakeDamage
  split
  · rfl
  · dsimp only
    split_ifs <;> rfl

@[simp] theorem bossTakeDamage_player_shieldCooldown (env : Env) (d : ℚ) (s : State) :
    (bossTakeDamage env d s).player.shieldCooldown = s.player.shieldCooldown := by
  unfold bossTakeDamage
  split
  · rfl
  · dsimp only
    split_ifs <;> rfl

@[simp] theorem bossTakeDamage_player_shieldActive (env : Env) (d : ℚ) (s : State) :
    (bossTakeDamage env d s).player.shieldActive = s.player.shieldActive := by
  unfold bossTakeDamage
  split
  · rfl
  · dsimp only
    split_ifs <;> rfl

@[simp] theorem bossTakeDamage_wristBuffer (env : Env) (d : ℚ) (s : State) :
    (bossTakeDamage env d s).wristBuffer = s.wristBuffer := by
  unfold bossTakeDamage
  split
  · rfl
  · dsimp only
    split_ifs <;> rfl

@[simp] theorem bossTakeDamage_calibration (env : Env) (d : ℚ) (s : State) :
    (bossTakeDamage env d s).calibration = s.calibration := by
  unfold bossTakeDamage
  split
  · rfl
  · dsimp only
    split_ifs <;> rfl

@[simp] theorem bossTakeDamage_bossWarnShown (env : Env) (d : ℚ) (s : State) :
    (bossTakeDamage env d s).bossWarnShown = s.bossWarnShown := by
  unfold bossTakeDamage
  split
  · rfl
  · dsimp only
    split_ifs <;> rfl

@[simp] theorem bossTakeDamage_elapsedMs (env : Env) (d : ℚ) (s : State) :
    (bossTakeDamage env d s).elapsedMs = s.elapsedMs := by
  unfold bossTakeDamage
  split
  · rfl
  · dsimp only
    split_ifs <;> rfl

@[simp] theorem pushWrist_player_lives (px py : ℚ) (s : State) :
    (pushWrist px py s).player.lives = s.player.lives := rfl

@[simp] theorem pushWrist_playing (px py : ℚ) (s : State) :
    (pushWrist px py s).playing = s.playing := rfl

@[simp] theorem pushWrist_lastTS (px py : ℚ) (s : State) :
    (pushWrist px py s).lastTS = s.lastTS := rfl

@[simp] theorem pushWrist_boss (px py : ℚ) (s : State) : (pushWrist px py s).boss = s.boss := rfl

@[simp] theorem pushWrist_inBoss (px py : ℚ) (s : State) :
    (pushWrist px py s).inBoss = s.inBoss := rfl

@[simp] theorem pushWrist_player_fistCooldown (px py : ℚ) (s : State) :
    (pushWrist px py s).player.fistCooldown = s.player.fistCooldown := rfl

@[simp] theorem pushWrist_player_specialCooldown (px py : ℚ) (s : State) :
    (pushWrist px py s).player.specialCooldown = s.player.specialCooldown := rfl

@[simp] theorem pushWrist_player_holdTimer (px py : ℚ) (s : State) :
    (pushWrist px py s).player.holdTimer = s.player.holdTimer := rfl

@[simp] theorem pushWrist_player_x (px py : ℚ) (s : State) :
    (pushWrist px py s).player.x = s.player.x := rfl

@[simp] theorem pushWrist_player_y (px py : ℚ) (s : State) :
    (pushWrist px py s).player.y = s.player.y := rfl

@[simp] theorem pushWrist_player_w (px py : ℚ) (s : State) :
    (pushWrist px py s).player.w = s.player.w := rfl

@[simp] theorem pushWrist_player_h (px py : ℚ) (s : State) :
    (pushWrist px py s).player.h = s.player.h := rfl

@[simp] theorem pushWrist_player_shieldCooldown (px py : ℚ) (s : State) :
    (pushWrist px py s).player.shieldCooldown = s.player.shieldCooldown := rfl

@[simp] theorem pushWrist_player_shieldActive (px py : ℚ) (s : State) :
    (pushWrist px py s).player.shieldActive = s.player.shieldActive := rfl

@[simp] theorem pushWrist_calibration (px py : ℚ) (s : State) :
    (pushWrist px py s).calibration = s.calibration := rfl

@[simp] theorem pushWrist_timers (px py : ℚ) (s : State) :
    (pushWrist px py s).timers = s.timers := rfl

@[simp] theorem pushWrist_bossWarnShown (px py : ℚ) (s : State) :
    (pushWrist px py s).bossWarnShown = s.bossWarnShown := rfl

@[simp] theorem pushWrist_elapsedMs (px py : ℚ) (s : State) :
    (pushWrist px py s).elapsedMs = s.elapsedMs := rfl

@[simp] theorem activateShield_player_lives (s : State) :
    (activateShield s).player.lives = s.player.lives := by
  unfold activateShield
  split_ifs <;> rfl

@[simp] theorem activateShield_playing (s : State) : (activateShield s).playing = s.playing := by
  unfold activateShield
  split_ifs <;> rfl

@[simp] theorem activateShield_lastTS (s : State) : (activateShield s).lastTS = s.lastTS := by
  unfold activateShield
  split_ifs <;> rfl

@[simp] theorem activateShield_boss (s : State) : (activateShield s).boss = s.boss := by
  unfold activateShield
  split_ifs <;> rfl

@[simp] theorem activateShield_inBoss (s : State) : (activateShield s).inBoss = s.inBoss := by
  unfold activateShield
  split_ifs <;> rfl

@[simp] theorem activateShield_player_fistCooldown (s : State) :
    (activateShield s).player.fistCooldown = s.player.fistCooldown := by
  unfold activateShield
  split_ifs <;> rfl

@[simp] theorem activateShield_player_specialCooldown (s : State) :
    (activateShield s).player.specialCooldown = s.player.specialCooldown := by
  unfold activateShield
  split_ifs <;> rfl

@[simp] theorem activateShield_player_holdTimer (s : State) :
    (activateShield s).player.holdTimer = s.player.holdTimer := by
  unfold activateShield
  split_ifs <;> rfl

@[simp] theorem activateShield_player_x (s : State) :
    (activateShield s).player.x = s.player.x := by
  unfold activateShield
  split_ifs <;> rfl

@[simp] theorem activateShield_player_y (s : State) :
    (activateShield s).player.y = s.player.y := by
  unfold activateShield
  split_ifs <;> rfl

@[simp] theorem activateShield_player_w (s : State) :
    (activateShield s).player.w = s.player.w := by
  unfold activateShield
  split_ifs <;> rfl

@[simp] theorem activateShield_player_h (s : State) :
    (activateShield s).player.h = s.player.h := by
  unfold activateShield
  split_ifs <;> rfl

@[simp] theorem activateShield_player_shieldCooldown (s : State) :
    (activateShield s).player.shieldCooldown = s.player.shieldCooldown := by
  unfold activateShield
  split_ifs <;> rfl

@[simp] theorem activateShield_wristBuffer (s : State) :
    (activateShield s).wristBuffer = s.wristBuffer := by
  unfold activateShield
  split_ifs <;> rfl

@[simp] theorem activateShield_calibration (s : State) :
    (activateShield s).calibration = s.calibration := by
  unfold activateShield
  split_ifs <;> rfl

@[simp] theorem activateShield_bossWarnShown (s : State) :
    (activateShield s).bossWarnShown = s.bossWarnShown := by
  unfold activateShield
  split_ifs <;> rfl

@[simp] theorem activateShield_elapsedMs (s : State) :
    (activateShield s).elapsedMs = s.elapsedMs := by
  unfold activateShield
  split_ifs <;> rfl

@[simp] theorem advanceClock_player_lives (d : ℚ) (s : State) :
    (advanceClock d s).player.lives = s.player.lives := rfl

@[simp] theorem advanceClock_playing (d : ℚ) (s : State) :
    (advanceClock d s).playing = s.playing := rfl

@[simp] theorem advanceClock_lastTS (d : ℚ) (s : State) :
    (advanceClock d s).lastTS = s.lastTS := rfl

@[simp] theorem advanceClock_boss (d : ℚ) (s : State) : (advanceClock d s).boss = s.boss := rfl

@[simp] theorem advanceClock_inBoss (d : ℚ) (s : State) :
    (advanceClock d s).inBoss = s.inBoss := rfl

@[simp] theorem advanceClock_player_fistCooldown (d : ℚ) (s : State) :
    (advanceClock d s).player.fistCooldown = s.player.fistCooldown := rfl

@[simp] theorem advanceClock_player_specialCooldown (d : ℚ) (s : State) :
    (advanceClock d s).player.specialCooldown = s.player.specialCooldown := rfl

@[simp] theorem advanceClock_player_holdTimer (d : ℚ) (s : State) :
    (advanceClock d s).player.holdTimer = s.player.holdTimer := rfl

@[simp] theorem advanceClock_player_x (d : ℚ) (s : State) :
    (advanceClock d s).player.x = s.player.x := rfl

@[simp] theorem advanceClock_player_y (d : ℚ) (s : State) :
    (advanceClock d s).player.y = s.player.y := rfl

@[simp] theorem advanceClock_player_w (d : ℚ) (s : State) :
    (advanceClock d s).player.w = s.player.w := rfl

@[simp] theorem advanceClock_player_h (d : ℚ) (s : State) :
    (advanceClock d s).player.h = s.player.h := rfl

@[simp] theorem advanceClock_player_shieldCooldown (d : ℚ) (s : State) :
    (advanceClock d s).player.shieldCooldown = s.player.shieldCooldown := rfl

@[simp] theorem advanceClock_player_shieldActive (d : ℚ) (s : State) :
    (advanceClock d s).player.shieldActive = s.player.shieldActive := rfl

@[simp] theorem advanceClock_wristBuffer (d : ℚ) (s : State) :
    (advanceClock d s).wristBuffer = s.wristBuffer := rfl

@[simp] theorem advanceClock_calibration (d : ℚ) (s : State) :
    (advanceClock d s).calibration = s.calibration := rfl

@[simp] theorem advanceClock_timers (d : ℚ) (s : State) :
    (advanceClock d s).timers = s.timers := rfl

@[simp] theorem advanceClock_bossWarnShown (d : ℚ) (s : State) :
    (advanceClock d s).bossWarnShown = s.bossWarnShown := rfl

@[simp] theorem bossTimerStep_player_lives (s : State) :
    (bossTimerStep s).player.lives = s.player.lives := by
  unfold bossTimerStep
  dsimp only
  split_ifs <;> rfl

@[simp] theorem bossTimerStep_playing (s : State) : (bossTimerStep s).playing = s.playing := by
  unfold bossTimerStep
  dsimp only
  split_ifs <;> rfl

@[simp] theorem bossTimerStep_lastTS (s : State) : (bossTimerStep s).lastTS = s.lastTS := by
  unfold bossTimerStep
  dsimp only
  split_ifs <;> rfl

@[simp] theorem bossTimerStep_boss (s : State) : (bossTimerStep s).boss = s.boss := by
  unfold bossTimerStep
  dsimp only
  split_ifs <;> rfl

@[simp] theorem bossTimerStep_inBoss (s : State) : (bossTimerStep s).inBoss = s.inBoss := by
  unfold bossTimerStep
  dsimp only
  split_ifs <;> rfl

@[simp] theorem bossTimerStep_player_fistCooldown (s : State) :
    (bossTimerStep s).player.fistCooldown = s.player.fistCooldown := by
  unfold bossTimerStep
  dsimp only
  split_ifs <;> rfl

@[simp] theorem bossTimerStep_player_specialCooldown (s : State) :
    (bossTimerStep s).player.specialCooldown = s.player.specialCooldown := by
  unfold bossTimerStep
  dsimp only
  split_ifs <;> rfl

@[simp] theorem bossTimerStep_player_holdTimer (s : State) :
    (bossTimerStep s).player.holdTimer = s.player.holdTimer := by
  unfold bossTimerStep
  dsimp only
  split_ifs <;> rfl

@[simp] theorem bossTimerStep_player_x (s : State) : (bossTimerStep s).player.x = s.player.x := by
  unfold bossTimerStep
  dsimp only
  split_ifs <;> rfl

@[simp] theorem bossTimerStep_player_y (s : State) : (bossTimerStep s).player.y = s.player.y := by
  unfold bossTimerStep
  dsimp only
  split_ifs <;> rfl

@[simp] theorem bossTimerStep_player_w (s : State) : (bossTimerStep s).player.w = s.player.w := by
  unfold bossTimerStep
  dsimp only
  split_ifs <;> rfl

@[simp] theorem bossTimerStep_player_h (s : State) : (bossTimerStep s).player.h = s.player.h := by
  unfold bossTimerStep
  dsimp only
  split_ifs <;> rfl

@[simp] theorem bossTimerStep_player_shieldCooldown (s : State) :
    (bossTimerStep s).player.shieldCooldown = s.player.shieldCooldown := by
  unfold bossTimerStep
  dsimp only
  split_ifs <;> rfl

@[simp] theorem bossTimerStep_player_shieldActive (s : State) :
    (bossTimerStep s).player.shieldActive = s.player.shieldActive := by
  unfold bossTimerStep
  dsimp only
  split_ifs <;> rfl

@[simp] theorem bossTimerStep_wristBuffer (s : State) :
    (bossTimerStep s).wristBuffer = s.wristBuffer := by
  unfold bossTimerStep
  dsimp only
  split_ifs <;> rfl

@[simp] theorem bossTimerStep_calibration (s : State) :
    (bossTimerStep s).calibration = s.calibration := by
  unfold bossTimerStep
  dsimp only
  split_ifs <;> rfl

@[simp] theorem bossTimerStep_elapsedMs (s : State) :
    (bossTimerStep s).elapsedMs = s.elapsedMs := by
  unfold bossTimerStep
  dsimp only
  split_ifs <;> rfl

@[simp] theorem shieldGesture_player_lives (env : Env) (hands : List Hand) (s : State) :
    (shieldGesture env hands s).player.lives = s.player.lives := by
  unfold shieldGesture
  dsimp only
  repeat' split
  all_goals first | rfl | simp

@[simp] theorem shieldGesture_playing (env : Env) (hands : List Hand) (s : State) :
    (shieldGesture env hands s).playing = s.playing := by
  unfold shieldGesture
  dsimp only
  repeat' split
  all_goals first | rfl | simp

@[simp] theorem shieldGesture_lastTS (env : Env) (hands : List Hand) (s : State) :
    (shieldGesture env hands s).lastTS = s.lastTS := by
  unfold shieldGesture
  dsimp only
  repeat' split
  all_goals first | rfl | simp

@[simp] theorem shieldGesture_boss (env : Env) (hands : List Hand) (s : State) :
    (shieldGesture env hands s).boss = s.boss := by
  unfold shieldGesture
  dsimp only
  repeat' split
  all_goals first | rfl | simp

@[simp] theorem shieldGesture_inBoss (env : Env) (hands : List Hand) (s : State) :
    (shieldGesture env hands s).inBoss = s.inBoss := by
  unfold shieldGesture
  dsimp only
  repeat' split
  all_goals first | rfl | simp

@[simp] theorem shieldGesture_player_fistCooldown (env : Env) (hands : List Hand) (s : State) :
    (shieldGesture env hands s).player.fistCooldown = s.player.fistCooldown := by
  unfold shieldGesture
  dsimp only
  repeat' split
  all_goals first | rfl | simp

@[simp] theorem shieldGesture_player_specialCooldown (env : Env) (hands : List Hand) (s : State) :
    (shieldGesture env hands s).player.specialCooldown = s.player.specialCooldown := by
  unfold shieldGesture
  dsimp only
  repeat' split
  all_goals first | rfl | simp

@[simp] theorem shieldGesture_player_holdTimer (env : Env) (hands : List Hand) (s : State) :
    (shieldGesture env hands s).player.holdTimer = s.player.holdTimer := by
  unfold shieldGesture
  dsimp only
  repeat' split
  all_goals first | rfl | simp

@[simp] theorem shieldGesture_player_x (env : Env) (hands : List Hand) (s : State) :
    (shieldGesture env hands s).player.x = s.player.x := by
  unfold shieldGesture
  dsimp only
  repeat' split
  all_goals first | rfl | simp

@[simp] theorem shieldGesture_player_y (env : Env) (hands : List Hand) (s : State) :
    (shieldGesture env hands s).player.y = s.player.y := by
  unfold shieldGesture
  dsimp only
  repeat' split
  all_goals first | rfl | simp

@[simp] theorem shieldGesture_player_w (env : Env) (hands : List Hand) (s : State) :
    (shieldGesture env hands s).player.w = s.player.w := by
  unfold shieldGesture
  dsimp only
  repeat' split
  all_goals first | rfl | simp

@[simp] theorem shieldGesture_player_h (env : Env) (hands : List Hand) (s : State) :
    (shieldGesture env hands s).player.h = s.player.h := by
  unfold shieldGesture
  dsimp only
  repeat' split
  all_goals first | rfl | simp

@[simp] theorem shieldGesture_player_shieldCooldown (env : Env) (hands : List Hand) (s : State) :
    (shieldGesture env hands s).player.shieldCooldown = s.player.shieldCooldown := by
  unfold shieldGesture
  dsimp only
  repeat' split
  all_goals first | rfl | simp

@[simp] theorem shieldGesture_wristBuffer (env : Env) (hands : List Hand) (s : State) :
    (shieldGesture env hands s).wristBuffer = s.wristBuffer := by
  unfold shieldGesture
  dsimp only
  repeat' split
  all_goals first | rfl | simp

@[simp] theorem shieldGesture_calibration (env : Env) (hands : List Hand) (s : State) :
    (shieldGesture env hands s).calibration = s.calibration := by
  unfold shieldGesture
  dsimp only
  repeat' split
  all_goals first | rfl | simp

@[simp] theorem shieldGesture_bossWarnShown (env : Env) (hands : List Hand) (s : State) :
    (shieldGesture env hands s).bossWarnShown = s.bossWarnShown := by
  unfold shieldGesture
  dsimp only
  repeat' split
  all_goals first | rfl | simp

@[simp] theorem shieldGesture_elapsedMs (env : Env) (hands : List Hand) (s : State) :
    (shieldGesture env hands s).elapsedMs = s.elapsedMs := by
  unfold shieldGesture
  dsimp only
  repeat' split
  all_goals first | rfl | simp

@[simp] theorem fistGesture_player_lives (env : Env) (hand : Hand) (s : State) :
    (fistGesture env hand s).player.lives = s.player.lives := by
  unfold fistGesture
  split_ifs <;> simp

@[simp] theorem fistGesture_playing (env : Env) (hand : Hand) (s : State) :
    (fistGesture env hand s).playing = s.playing := by
  unfold fistGesture
  split_ifs <;> simp

@[simp] theorem fistGesture_lastTS (env : Env) (hand : Hand) (s : State) :
    (fistGesture env hand s).lastTS = s.lastTS := by
  unfold fistGesture
  split_ifs <;> simp

@[simp] theorem fistGesture_inBoss (env : Env) (hand : Hand) (s : State) :
    (fistGesture env hand s).inBoss = s.inBoss := by
  unfold fistGesture
  split_ifs <;> simp

@[simp] theorem fistGesture_player_specialCooldown (env : Env) (hand : Hand) (s : State) :
    (fistGesture env hand s).player.specialCooldown = s.player.specialCooldown := by
  unfold fistGesture
  split_ifs <;> simp

@[simp] theorem fistGesture_player_holdTimer (env : Env) (hand : Hand) (s : State) :
    (fistGesture env hand s).player.holdTimer = s.player.holdTimer := by
  unfold fistGesture
  split_ifs <;> simp

@[simp] theorem fistGesture_player_x (env : Env) (hand : Hand) (s : State) :
    (fistGesture env hand s).player.x = s.player.x := by
  unfold fistGesture
  split_ifs <;> simp

@[simp] theorem fistGesture_player_y (env : Env) (hand : Hand) (s : State) :
    (fistGesture env hand s).player.y = s.player.y := by
  unfold fistGesture
  split_ifs <;> simp

@[simp] theorem fistGesture_player_w (env : Env) (hand : Hand) (s : State) :
    (fistGesture env hand s).player.w = s.player.w := by
  unfold fistGesture
  split_ifs <;> simp

@[simp] theorem fistGesture_player_h (env : Env) (hand : Hand) (s : State) :
    (fistGesture env hand s).player.h = s.player.h := by
  unfold fistGesture
  split_ifs <;> simp

@[simp] theorem fistGesture_player_shieldCooldown (env : Env) (hand : Hand) (s : State) :
    (fistGesture env hand s).player.shieldCooldown = s.player.shieldCooldown := by
  unfold fistGesture
  split_ifs <;> simp

@[simp] theorem fistGesture_player_shieldActive (env : Env) (hand : Hand) (s : State) :
    (fistGesture env hand s).player.shieldActive = s.player.shieldActive := by
  unfold fistGesture
  split_ifs <;> simp

@[simp] theorem fistGesture_wristBuffer (env : Env) (hand : Hand) (s : State) :
    (fistGesture env hand s).wristBuffer = s.wristBuffer := by
  unfold fistGesture
  split_ifs <;> simp

@[simp] theorem fistGesture_calibration (env : Env) (hand : Hand) (s : State) :
    (fistGesture env hand s).calibration = s.calibration := by
  unfold fistGesture
  split_ifs <;> simp

@[simp] theorem fistGesture_bossWarnShown (env : Env) (hand : Hand) (s : State) :
    (fistGesture env hand s).bossWarnShown = s.bossWarnShown := by
  unfold fistGesture
  split_ifs <;> simp

@[simp] theorem fistGesture_elapsedMs (env : Env) (hand : Hand) (s : State) :
    (fistGesture env hand s).elapsedMs = s.elapsedMs := by
  unfold fistGesture
  split_ifs <;> simp

@[simp] theorem processGestures_player_lives (env : Env) (hands : List Hand) (s : State) :
    (processGestures env hands s).player.lives = s.player.lives := by
  unfold processGestures
  split <;> simp

@[simp] theorem processGestures_playing (env : Env) (hands : List Hand) (s : State) :
    (processGestures env hands s).playing = s.playing := by
  unfold processGestures
  split <;> simp

@[simp] theorem processGestures_lastTS (env : Env) (hands : List Hand) (s : State) :
    (processGestures env hands s).lastTS = s.lastTS := by
  unfold processGestures
  split <;> simp

@[simp] theorem processGestures_inBoss (env : Env) (hands : List Hand) (s : State) :
    (processGestures env hands s).inBoss = s.inBoss := by
  unfold processGestures
  split <;> simp

@[simp] theorem processGestures_player_specialCooldown (env : Env) (hands : List Hand) (s : State) :
    (processGestures env hands s).player.specialCooldown = s.player.specialCooldown := by
  unfold processGestures
  split <;> simp

@[simp] theorem processGestures_player_holdTimer (env : Env) (hands : List Hand) (s : State) :
    (processGestures env hands s).player.holdTimer = s.player.holdTimer := by
  unfold processGestures
  split <;> simp

@[simp] theorem processGestures_player_x (env : Env) (hands : List Hand) (s : State) :
    (processGestures env hands s).player.x = s.player.x := by
  unfold processGestures
  split <;> simp

@[simp] theorem processGestures_player_y (env : Env) (hands : List Hand) (s : State) :
    (processGestures env hands s).player.y = s.player.y := by
  unfold processGestures
  split <;> simp

@[simp] theorem processGestures_player_w (env : Env) (hands : List Hand) (s : State) :
    (processGestures env hands s).player.w = s.player.w := by
  unfold processGestures
  split <;> simp

@[simp] theorem processGestures_player_h (env : Env) (hands : List Hand) (s : State) :
    (processGestures env hands s).player.h = s.player.h := by
  unfold processGestures
  split <;> simp

@[simp] theorem processGestures_player_shieldCooldown (env : Env) (hands : List Hand) (s : State) :
    (processGestures env hands s).player.shieldCooldown = s.player.shieldCooldown := by
  unfold processGestures
  split <;> simp

@[simp] theorem processGestures_calibration (env : Env) (hands : List Hand) (s : State) :
    (processGestures env hands s).calibration = s.calibration := by
  unfold processGestures
  split <;> simp

@[simp] theorem processGestures_bossWarnShown (env : Env) (hands : List Hand) (s : State) :
    (processGestures env hands s).bossWarnShown = s.bossWarnShown := by
  unfold processGestures
  split <;> simp

@[simp] theorem processGestures_elapsedMs (env : Env) (hands : List Hand) (s : State) :
    (processGestures env hands s).elapsedMs = s.elapsedMs := by
  unfold processGestures
  split <;> simp

@[simp] theorem applySmoothedWrist_player_lives (env : Env) (d : ℚ) (s : State) :
    (applySmoothedWrist env d s).player.lives = s.player.lives := by
  unfold applySmoothedWrist
  split <;> rfl

@[simp] theorem applySmoothedWrist_playing (env : Env) (d : ℚ) (s : State) :
    (applySmoothedWrist env d s).playing = s.playing := by
  unfold applySmoothedWrist
  split <;> rfl

@[simp] theorem applySmoothedWrist_lastTS (env : Env) (d : ℚ) (s : State) :
    (applySmoothedWrist env d s).lastTS = s.lastTS := by
  unfold applySmoothedWrist
  split <;> rfl

@[simp] theorem applySmoothedWrist_boss (env : Env) (d : ℚ) (s : State) :
    (applySmoothedWrist env d s).boss = s.boss := by
  unfold applySmoothedWrist
  split <;> rfl

@[simp] theorem applySmoothedWrist_inBoss (env : Env) (d : ℚ) (s : State) :
    (applySmoothedWrist env d s).inBoss = s.inBoss := by
  unfold applySmoothedWrist
  split <;> rfl

@[simp] theorem applySmoothedWrist_player_fistCooldown (env : Env) (d : ℚ) (s : State) :
    (applySmoothedWrist env d s).player.fistCooldown = s.player.fistCooldown := by
  unfold applySmoothedWrist
  split <;> rfl

@[simp] theorem applySmoothedWrist_player_specialCooldown (env : Env) (d : ℚ) (s : State) :
    (applySmoothedWrist env d s).player.specialCooldown = s.player.specialCooldown := by
  unfold applySmoothedWrist
  split <;> rfl

@[simp] theorem applySmoothedWrist_player_x (env : Env) (d : ℚ) (s : State) :
    (applySmoothedWrist env d s).player.x = s.player.x := by
  unfold applySmoothedWrist
  split <;> rfl

@[simp] theorem applySmoothedWrist_player_y (env : Env) (d : ℚ) (s : State) :
    (applySmoothedWrist env d s).player.y = s.player.y := by
  unfold applySmoothedWrist
  split <;> rfl

@[simp] theorem applySmoothedWrist_player_w (env : Env) (d : ℚ) (s : State) :
    (applySmoothedWrist env d s).player.w = s.player.w := by
  unfold applySmoothedWrist
  split <;> rfl

@[simp] theorem applySmoothedWrist_player_h (env : Env) (d : ℚ) (s : State) :
    (applySmoothedWrist env d s).player.h = s.player.h := by
  unfold applySmoothedWrist
  split <;> rfl

@[simp] theorem applySmoothedWrist_player_shieldCooldown (env : Env) (d : ℚ) (s : State) :
    (applySmoothedWrist env d s).player.shieldCooldown = s.player.shieldCooldown := by
  unfold applySmoothedWrist
  split <;> rfl

@[simp] theorem applySmoothedWrist_player_shieldActive (env : Env) (d : ℚ) (s : State) :
    (applySmoothedWrist env d s).player.shieldActive = s.player.shieldActive := by
  unfold applySmoothedWrist
  split <;> rfl

@[simp] theorem applySmoothedWrist_wristBuffer (env : Env) (d : ℚ) (s : State) :
    (applySmoothedWrist env d s).wristBuffer = s.wristBuffer := by
  unfold applySmoothedWrist
  split <;> rfl

@[simp] theorem applySmoothedWrist_calibration (env : Env) (d : ℚ) (s : State) :
    (applySmoothedWrist env d s).calibration = s.calibration := by
  unfold applySmoothedWrist
  split <;> rfl

@[simp] theorem applySmoothedWrist_timers (env : Env) (d : ℚ) (s : State) :
    (applySmoothedWrist env d s).timers = s.timers := by
  unfold applySmoothedWrist
  split <;> rfl

@[simp] theorem applySmoothedWrist_bossWarnShown (env : Env) (d : ℚ) (s : State) :
    (applySmoothedWrist env d s).bossWarnShown = s.bossWarnShown := by
  unfold applySmoothedWrist
  split <;> rfl

@[simp] theorem applySmoothedWrist_elapsedMs (env : Env) (d : ℚ) (s : State) :
    (applySmoothedWrist env d s).elapsedMs = s.elapsedMs := by
  unfold applySmoothedWrist
  split <;> rfl

@[simp] theorem smoothMovement_player_lives (s : State) :
    (smoothMovement s).player.lives = s.player.lives := rfl

@[simp] theorem smoothMovement_playing (s : State) : (smoothMovement s).playing = s.playing := rfl

@[simp] theorem smoothMovement_lastTS (s : State) : (smoothMovement s).lastTS = s.lastTS := rfl

@[simp] theorem smoothMovement_boss (s : State) : (smoothMovement s).boss = s.boss := rfl

@[simp] theorem smoothMovement_inBoss (s : State) : (smoothMovement s).inBoss = s.inBoss := rfl

@[simp] theorem smoothMovement_player_fistCooldown (s : State) :
    (smoothMovement s).player.fistCooldown = s.player.fistCooldown := rfl

@[simp] theorem smoothMovement_player_specialCooldown (s : State) :
    (smoothMovement s).player.specialCooldown = s.player.specialCooldown := rfl

@[simp] theorem smoothMovement_player_holdTimer (s : State) :
    (smoothMovement s).player.holdTimer = s.player.holdTimer := rfl

@[simp] theorem smoothMovement_player_w (s : State) :
    (smoothMovement s).player.w = s.player.w := rfl

@[simp] theorem smoothMovement_player_h (s : State) :
    (smoothMovement s).player.h = s.player.h := rfl

@[simp] theorem smoothMovement_player_shieldCooldown (s : State) :
    (smoothMovement s).player.shieldCooldown = s.player.shieldCooldown := rfl

@[simp] theorem smoothMovement_player_shieldActive (s : State) :
    (smoothMovement s).player.shieldActive = s.player.shieldActive := rfl

@[simp] theorem smoothMovement_wristBuffer (s : State) :
    (smoothMovement s).wristBuffer = s.wristBuffer := rfl

@[simp] theorem smoothMovement_calibration (s : State) :
    (smoothMovement s).calibration = s.calibration := rfl

@[simp] theorem smoothMovement_timers (s : State) : (smoothMovement s).timers = s.timers := rfl

@[simp] theorem smoothMovement_bossWarnShown (s : State) :
    (smoothMovement s).bossWarnShown = s.bossWarnShown := rfl

@[simp] theorem smoothMovement_elapsedMs (s : State) :
    (smoothMovement s).elapsedMs = s.elapsedMs := rfl

@[simp] theorem specialRelease_player_lives (env : Env) (s : State) :
    (specialRelease env s).player.lives = s.player.lives := by
  unfold specialRelease
  split_ifs <;> simp

@[simp] theorem specialRelease_playing (env : Env) (s : State) :
    (specialRelease env s).playing = s.playing := by
  unfold specialRelease
  split_ifs <;> simp

@[simp] theorem specialRelease_lastTS (env : Env) (s : State) :
    (specialRelease env s).lastTS = s.lastTS := by
  unfold specialRelease
  split_ifs <;> simp

@[simp] theorem specialRelease_inBoss (env : Env) (s : State) :
    (specialRelease env s).inBoss = s.inBoss := by
  unfold specialRelease
  split_ifs <;> simp

@[simp] theorem specialRelease_player_fistCooldown (env : Env) (s : State) :
    (specialRelease env s).player.fistCooldown = s.player.fistCooldown := by
  unfold specialRelease
  split_ifs <;> simp

@[simp] theorem specialRelease_player_x (env : Env) (s : State) :
    (specialRelease env s).player.x = s.player.x := by
  unfold specialRelease
  split_ifs <;> simp

@[simp] theorem specialRelease_player_y (env : Env) (s : State) :
    (specialRelease env s).player.y = s.player.y := by
  unfold specialRelease
  split_ifs <;> simp

@[simp] theorem specialRelease_player_w (env : Env) (s : State) :
    (specialRelease env s).player.w = s.player.w := by
  unfold specialRelease
  split_ifs <;> simp

@[simp] theorem specialRelease_player_h (env : Env) (s : State) :
    (specialRelease env s).player.h = s.player.h := by
  unfold specialRelease
  split_ifs <;> simp

@[simp] theorem specialRelease_player_shieldCooldown (env : Env) (s : State) :
    (specialRelease env s).player.shieldCooldown = s.player.shieldCooldown := by
  unfold specialRelease
  split_ifs <;> simp

@[simp] theorem specialRelease_player_shieldActive (env : Env) (s : State) :
    (specialRelease env s).player.shieldActive = s.player.shieldActive := by
  unfold specialRelease
  split_ifs <;> simp

@[simp] theorem specialRelease_wristBuffer (env : Env) (s : State) :
    (specialRelease env s).wristBuffer = s.wristBuffer := by
  unfold specialRelease
  split_ifs <;> simp

@[simp] theorem specialRelease_calibration (env : Env) (s : State) :
    (specialRelease env s).calibration = s.calibration := by
  unfold specialRelease
  split_ifs <;> simp

@[simp] theorem specialRelease_bossWarnShown (env : Env) (s : State) :
    (specialRelease env s).bossWarnShown = s.bossWarnShown := by
  unfold specialRelease
  split_ifs <;> simp

@[simp] theorem specialRelease_elapsedMs (env : Env) (s : State) :
    (specialRelease env s).elapsedMs = s.elapsedMs := by
  unfold specialRelease
  split_ifs <;> simp

@[simp] theorem tickCooldowns_player_lives (d : ℚ) (s : State) :
    (tickCooldowns d s).player.lives = s.player.lives := rfl

@[simp] theorem tickCooldowns_playing (d : ℚ) (s : State) :
    (tickCooldowns d s).playing = s.playing := rfl

@[simp] theorem tickCooldowns_lastTS (d : ℚ) (s : State) :
    (tickCooldowns d s).lastTS = s.lastTS := rfl

@[simp] theorem tickCooldowns_boss (d : ℚ) (s : State) : (tickCooldowns d s).boss = s.boss := rfl

@[simp] theorem tickCooldowns_inBoss (d : ℚ) (s : State) :
    (tickCooldowns d s).inBoss = s.inBoss := rfl

@[simp] theorem tickCooldowns_player_holdTimer (d : ℚ) (s : State) :
    (tickCooldowns d s).player.holdTimer = s.player.holdTimer := rfl

@[simp] theorem tickCooldowns_player_x (d : ℚ) (s : State) :
    (tickCooldowns d s).player.x = s.player.x := rfl

@[simp] theorem tickCooldowns_player_y (d : ℚ) (s : State) :
    (tickCooldowns d s).player.y = s.player.y := rfl

@[simp] theorem tickCooldowns_player_w (d : ℚ) (s : State) :
    (tickCooldowns d s).player.w = s.player.w := rfl

@[simp] theorem tickCooldowns_player_h (d : ℚ) (s : State) :
    (tickCooldowns d s).player.h = s.player.h := rfl

@[simp] theorem tickCooldowns_player_shieldCooldown (d : ℚ) (s : State) :
    (tickCooldowns d s).player.shieldCooldown = s.player.shieldCooldown := rfl

@[simp] theorem tickCooldowns_player_shieldActive (d : ℚ) (s : State) :
    (tickCooldowns d s).player.shieldActive = s.player.shieldActive := rfl

@[simp] theorem tickCooldowns_wristBuffer (d : ℚ) (s : State) :
    (tickCooldowns d s).wristBuffer = s.wristBuffer := rfl

@[simp] theorem tickCooldowns_calibration (d : ℚ) (s : State) :
    (tickCooldowns d s).calibration = s.calibration := rfl

@[simp] theorem tickCooldowns_timers (d : ℚ) (s : State) :
    (tickCooldowns d s).timers = s.timers := rfl

@[simp] theorem tickCooldowns_bossWarnShown (d : ℚ) (s : State) :
    (tickCooldowns d s).bossWarnShown = s.bossWarnShown := rfl

@[simp] theorem tickCooldowns_elapsedMs (d : ℚ) (s : State) :
    (tickCooldowns d s).elapsedMs = s.elapsedMs := rfl

@[simp] theorem animate_player_lives (d : ℚ) (s : State) :
    (animate d s).player.lives = s.player.lives := by
  unfold animate
  dsimp only
  split_ifs <;> rfl

@[simp] theorem animate_playing (d : ℚ) (s : State) : (animate d s).playing = s.playing := by
  unfold animate
  dsimp only
  split_ifs <;> rfl

@[simp] theorem animate_lastTS (d : ℚ) (s : State) : (animate d s).lastTS = s.lastTS := by
  unfold animate
  dsimp only
  split_ifs <;> rfl

@[simp] theorem animate_boss (d : ℚ) (s : State) : (animate d s).boss = s.boss := by
  unfold animate
  dsimp only
  split_ifs <;> rfl

@[simp] theorem animate_inBoss (d : ℚ) (s : State) : (animate d s).inBoss = s.inBoss := by
  unfold animate
  dsimp only
  split_ifs <;> rfl

@[simp] theorem animate_player_fistCooldown (d : ℚ) (s : State) :
    (animate d s).player.fistCooldown = s.player.fistCooldown := by
  unfold animate
  dsimp only
  split_ifs <;> rfl

@[simp] theorem animate_player_specialCooldown (d : ℚ) (s : State) :
    (animate d s).player.specialCooldown = s.player.specialCooldown := by
  unfold animate
  dsimp only
  split_ifs <;> rfl

@[simp] theorem animate_player_holdTimer (d : ℚ) (s : State) :
    (animate d s).player.holdTimer = s.player.holdTimer := by
  unfold animate
  dsimp only
  split_ifs <;> rfl

@[simp] theorem animate_player_x (d : ℚ) (s : State) : (animate d s).player.x = s.player.x := by
  unfold animate
  dsimp only
  split_ifs <;> rfl

@[simp] theorem animate_player_y (d : ℚ) (s : State) : (animate d s).player.y = s.player.y := by
  unfold animate
  dsimp only
  split_ifs <;> rfl

@[simp] theorem animate_player_w (d : ℚ) (s : State) : (animate d s).player.w = s.player.w := by
  unfold animate
  dsimp only
  split_ifs <;> rfl

@[simp] theorem animate_player_h (d : ℚ) (s : State) : (animate d s).player.h = s.player.h := by
  unfold animate
  dsimp only
  split_ifs <;> rfl

@[simp] theorem animate_player_shieldCooldown (d : ℚ) (s : State) :
    (animate d s).player.shieldCooldown = s.player.shieldCooldown := by
  unfold animate
  dsimp only
  split_ifs <;> rfl

@[simp] theorem animate_player_shieldActive (d : ℚ) (s : State) :
    (animate d s).player.shieldActive = s.player.shieldActive := by
  unfold animate
  dsimp only
  split_ifs <;> rfl

@[simp] theorem animate_wristBuffer (d : ℚ) (s : State) :
    (animate d s).wristBuffer = s.wristBuffer := by
  unfold animate
  dsimp only
  split_ifs <;> rfl

@[simp] theorem animate_calibration (d : ℚ) (s : State) :
    (animate d s).calibration = s.calibration := by
  unfold animate
  dsimp only
  split_ifs <;> rfl

@[simp] theorem animate_timers (d : ℚ) (s : State) : (animate d s).timers = s.timers := by
  unfold animate
  dsimp only
  split_ifs <;> rfl

@[simp] theorem animate_bossWarnShown (d : ℚ) (s : State) :
    (animate d s).bossWarnShown = s.bossWarnShown := by
  unfold animate
  dsimp only
  split_ifs <;> rfl

@[simp] theorem animate_elapsedMs (d : ℚ) (s : State) :
    (animate d s).elapsedMs = s.elapsedMs := by
  unfold animate
  dsimp only
  split_ifs <;> rfl

@[simp] theorem spawnStep_player_lives (env : Env) (d : ℚ) (s : State) :
    (spawnStep env d s).player.lives = s.player.lives := by
  unfold spawnStep
  dsimp only
  split_ifs <;> rfl

@[simp] theorem spawnStep_playing (env : Env) (d : ℚ) (s : State) :
    (spawnStep env d s).playing = s.playing := by
  unfold spawnStep
  dsimp only
  split_ifs <;> rfl

@[simp] theorem spawnStep_lastTS (env : Env) (d : ℚ) (s : State) :
    (spawnStep env d s).lastTS = s.lastTS := by
  unfold spawnStep
  dsimp only
  split_ifs <;> rfl

@[simp] theorem spawnStep_boss (env : Env) (d : ℚ) (s : State) :
    (spawnStep env d s).boss = s.boss := by
  unfold spawnStep
  dsimp only
  split_ifs <;> rfl

@[simp] theorem spawnStep_inBoss (env : Env) (d : ℚ) (s : State) :
    (spawnStep env d s).inBoss = s.inBoss := by
  unfold spawnStep
  dsimp only
  split_ifs <;> rfl

@[simp] theorem spawnStep_player_fistCooldown (env : Env) (d : ℚ) (s : State) :
    (spawnStep env d s).player.fistCooldown = s.player.fistCooldown := by
  unfold spawnStep
  dsimp only
  split_ifs <;> rfl

@[simp] theorem spawnStep_player_specialCooldown (env : Env) (d : ℚ) (s : State) :
    (spawnStep env d s).player.specialCooldown = s.player.specialCooldown := by
  unfold spawnStep
  dsimp only
  split_ifs <;> rfl

@[simp] theorem spawnStep_player_holdTimer (env : Env) (d : ℚ) (s : State) :
    (spawnStep env d s).player.holdTimer = s.player.holdTimer := by
  unfold spawnStep
  dsimp only
  split_ifs <;> rfl

@[simp] theorem spawnStep_player_x (env : Env) (d : ℚ) (s : State) :
    (spawnStep env d s).player.x = s.player.x := by
  unfold spawnStep
  dsimp only
  split_ifs <;> rfl

@[simp] theorem spawnStep_player_y (env : Env) (d : ℚ) (s : State) :
    (spawnStep env d s).player.y = s.player.y := by
  unfold spawnStep
  dsimp only
  split_ifs <;> rfl

@[simp] theorem spawnStep_player_w (env : Env) (d : ℚ) (s : State) :
    (spawnStep env d s).player.w = s.player.w := by
  unfold spawnStep
  dsimp only
  split_ifs <;> rfl

@[simp] theorem spawnStep_player_h (env : Env) (d : ℚ) (s : State) :
    (spawnStep env d s).player.h = s.player.h := by
  unfold spawnStep
  dsimp only
  split_ifs <;> rfl

@[simp] theorem spawnStep_player_shieldCooldown (env : Env) (d : ℚ) (s : State) :
    (spawnStep env d s).player.shieldCooldown = s.player.shieldCooldown := by
  unfold spawnStep
  dsimp only
  split_ifs <;> rfl

@[simp] theorem spawnStep_player_shieldActive (env : Env) (d : ℚ) (s : State) :
    (spawnStep env d s).player.shieldActive = s.player.shieldActive := by
  unfold spawnStep
  dsimp only
  split_ifs <;> rfl

@[simp] theorem spawnStep_wristBuffer (env : Env) (d : ℚ) (s : State) :
    (spawnStep env d s).wristBuffer = s.wristBuffer := by
  unfold spawnStep
  dsimp only
  split_ifs <;> rfl

@[simp] theorem spawnStep_calibration (env : Env) (d : ℚ) (s : State) :
    (spawnStep env d s).calibration = s.calibration := by
  unfold spawnStep
  dsimp only
  split_ifs <;> rfl

@[simp] theorem spawnStep_timers (env : Env) (d : ℚ) (s : State) :
    (spawnStep env d s).timers = s.timers := by
  unfold spawnStep
  dsimp only
  split_ifs <;> rfl

@[simp] theorem spawnStep_bossWarnShown (env : Env) (d : ℚ) (s : State) :
    (spawnStep env d s).bossWarnShown = s.bossWarnShown := by
  unfold spawnStep
  dsimp only
  split_ifs <;> rfl

@[simp] theorem spawnStep_elapsedMs (env : Env) (d : ℚ) (s : State) :
    (spawnStep env d s).elapsedMs = s.elapsedMs := by
  unfold spawnStep
  dsimp only
  split_ifs <;> rfl

@[simp] theorem onEnemyCollision_lastTS (env : Env) (s : State) :
    (onEnemyCollision env s).lastTS = s.lastTS := by
  unfold onEnemyCollision
  dsimp only
  split_ifs <;> rfl

@[simp] theorem onEnemyCollision_boss (env : Env) (s : State) :
    (onEnemyCollision env s).boss = s.boss := by
  unfold onEnemyCollision
  dsimp only
  split_ifs <;> rfl

@[simp] theorem onEnemyCollision_inBoss (env : Env) (s : State) :
    (onEnemyCollision env s).inBoss = s.inBoss := by
  unfold onEnemyCollision
  dsimp only
  split_ifs <;> rfl

@[simp] theorem onEnemyCollision_player_fistCooldown (env : Env) (s : State) :
    (onEnemyCollision env s).player.fistCooldown = s.player.fistCooldown := by
  unfold onEnemyCollision
  dsimp only
  split_ifs <;> rfl

@[simp] theorem onEnemyCollision_player_specialCooldown (env : Env) (s : State) :
    (onEnemyCollision env s).player.specialCooldown = s.player.specialCooldown := by
  unfold onEnemyCollision
  dsimp only
  split_ifs <;> rfl

@[simp] theorem onEnemyCollision_player_holdTimer (env : Env) (s : State) :
    (onEnemyCollision env s).player.holdTimer = s.player.holdTimer := by
  unfold onEnemyCollision
  dsimp only
  split_ifs <;> rfl

@[simp] theorem onEnemyCollision_player_x (env : Env) (s : State) :
    (onEnemyCollision env s).player.x = s.player.x := by
  unfold onEnemyCollision
  dsimp only
  split_ifs <;> rfl

@[simp] theorem onEnemyCollision_player_y (env : Env) (s : State) :
    (onEnemyCollision env s).player.y = s.player.y := by
  unfold onEnemyCollision
  dsimp only
  split_ifs <;> rfl

@[simp] theorem onEnemyCollision_player_w (env : Env) (s : State) :
    (onEnemyCollision env s).player.w = s.player.w := by
  unfold onEnemyCollision
  dsimp only
  split_ifs <;> rfl

@[simp] theorem onEnemyCollision_player_h (env : Env) (s : State) :
    (onEnemyCollision env s).player.h = s.player.h := by
  unfold onEnemyCollision
  dsimp only
  split_ifs <;> rfl

@[simp] theorem onEnemyCollision_wristBuffer (env : Env) (s : State) :
    (onEnemyCollision env s).wristBuffer = s.wristBuffer := by
  unfold onEnemyCollision
  dsimp only
  split_ifs <;> rfl

@[simp] theorem onEnemyCollision_calibration (env : Env) (s : State) :
    (onEnemyCollision env s).calibration = s.calibration := by
  unfold onEnemyCollision
  dsimp only
  split_ifs <;> rfl

@[simp] theorem onEnemyCollision_bossWarnShown (env : Env) (s : State) :
    (onEnemyCollision env s).bossWarnShown = s.bossWarnShown := by
  unfold onEnemyCollision
  dsimp only
  split_ifs <;> rfl

@[simp] theorem onEnemyCollision_elapsedMs (env : Env) (s : State) :
    (onEnemyCollision env s).elapsedMs = s.elapsedMs := by
  unfold onEnemyCollision
  dsimp only
  split_ifs <;> rfl

@[simp] theorem enemyStep_lastTS (env : Env) (ts dt : ℚ) (e : Enemy) (s : State) :
    (enemyStep env ts dt e s).lastTS = s.lastTS := by
  unfold enemyStep
  dsimp only
  split_ifs <;> simp

@[simp] theorem enemyStep_boss (env : Env) (ts dt : ℚ) (e : Enemy) (s : State) :
    (enemyStep env ts dt e s).boss = s.boss := by
  unfold enemyStep
  dsimp only
  split_ifs <;> simp

@[simp] theorem enemyStep_inBoss (env : Env) (ts dt : ℚ) (e : Enemy) (s : State) :
    (enemyStep env ts dt e s).inBoss = s.inBoss := by
  unfold enemyStep
  dsimp only
  split_ifs <;> simp

@[simp] theorem enemyStep_player_fistCooldown (env : Env) (ts dt : ℚ) (e : Enemy) (s : State) :
    (enemyStep env ts dt e s).player.fistCooldown = s.player.fistCooldown := by
  unfold enemyStep
  dsimp only
  split_ifs <;> simp

@[simp] theorem enemyStep_player_specialCooldown (env : Env) (ts dt : ℚ) (e : Enemy) (s : State) :
    (enemyStep env ts dt e s).player.specialCooldown = s.player.specialCooldown := by
  unfold enemyStep
  dsimp only
  split_ifs <;> simp

@[simp] theorem enemyStep_player_holdTimer (env : Env) (ts dt : ℚ) (e : Enemy) (s : State) :
    (enemyStep env ts dt e s).player.holdTimer = s.player.holdTimer := by
  unfold enemyStep
  dsimp only
  split_ifs <;> simp

@[simp] theorem enemyStep_player_x (env : Env) (ts dt : ℚ) (e : Enemy) (s : State) :
    (enemyStep env ts dt e s).player.x = s.player.x := by
  unfold enemyStep
  dsimp only
  split_ifs <;> simp

@[simp] theorem enemyStep_player_y (env : Env) (ts dt : ℚ) (e : Enemy) (s : State) :
    (enemyStep env ts dt e s).player.y = s.player.y := by
  unfold enemyStep
  dsimp only
  split_ifs <;> simp

@[simp] theorem enemyStep_player_w (env : Env) (ts dt : ℚ) (e : Enemy) (s : State) :
    (enemyStep env ts dt e s).player.w = s.player.w := by
  unfold enemyStep
  dsimp only
  split_ifs <;> simp

@[simp] theorem enemyStep_player_h (env : Env) (ts dt : ℚ) (e : Enemy) (s : State) :
    (enemyStep env ts dt e s).player.h = s.player.h := by
  unfold enemyStep
  dsimp only
  split_ifs <;> simp

@[simp] theorem enemyStep_wristBuffer (env : Env) (ts dt : ℚ) (e : Enemy) (s : State) :
    (enemyStep env ts dt e s).wristBuffer = s.wristBuffer := by
  unfold enemyStep
  dsimp only
  split_ifs <;> simp

@[simp] theorem enemyStep_calibration (env : Env) (ts dt : ℚ) (e : Enemy) (s : State) :
    (enemyStep env ts dt e s).calibration = s.calibration := by
  unfold enemyStep
  dsimp only
  split_ifs <;> simp

@[simp] theorem enemyStep_bossWarnShown (env : Env) (ts dt : ℚ) (e : Enemy) (s : State) :
    (enemyStep env ts dt e s).bossWarnShown = s.bossWarnShown := by
  unfold enemyStep
  dsimp only
  split_ifs <;> simp

@[simp] theorem enemyStep_elapsedMs (env : Env) (ts dt : ℚ) (e : Enemy) (s : State) :
    (enemyStep env ts dt e s).elapsedMs = s.elapsedMs := by
  unfold enemyStep
  dsimp only
  split_ifs <;> simp

@[simp] theorem updateEnemies_lastTS (env : Env) (ts dt : ℚ) (s : State) :
    (updateEnemies env ts dt s).lastTS = s.lastTS := by
  unfold updateEnemies
  induction s.enemies with
  | nil => rfl
  | cons a l ih => rw [List.foldr_cons, enemyStep_lastTS, ih]

@[simp] theorem updateEnemies_boss (env : Env) (ts dt : ℚ) (s : State) :
    (updateEnemies env ts dt s).boss = s.boss := by
  unfold updateEnemies
  induction s.enemies with
  | nil => rfl
  | cons a l ih => rw [List.foldr_cons, enemyStep_boss, ih]

@[simp] theorem updateEnemies_inBoss (env : Env) (ts dt : ℚ) (s : State) :
    (updateEnemies env ts dt s).inBoss = s.inBoss := by
  unfold updateEnemies
  induction s.enemies with
  | nil => rfl
  | cons a l ih => rw [List.foldr_cons, enemyStep_inBoss, ih]

@[simp] theorem updateEnemies_player_fistCooldown (env : Env) (ts dt : ℚ) (s : State) :
    (updateEnemies env ts dt s).player.fistCooldown = s.player.fistCooldown := by
  unfold updateEnemies
  induction s.enemies with
  | nil => rfl
  | cons a l ih => rw [List.foldr_cons, enemyStep_player_fistCooldown, ih]

@[simp] theorem updateEnemies_player_specialCooldown (env : Env) (ts dt : ℚ) (s : State) :
    (updateEnemies env ts dt s).player.specialCooldown = s.player.specialCooldown := by
  unfold updateEnemies
  induction s.enemies with
  | nil => rfl
  | cons a l ih => rw [List.foldr_cons, enemyStep_player_specialCooldown, ih]

@[simp] theorem updateEnemies_player_holdTimer (env : Env) (ts dt : ℚ) (s : State) :
    (updateEnemies env ts dt s).player.holdTimer = s.player.holdTimer := by
  unfold updateEnemies
  induction s.enemies with
  | nil => rfl
  | cons a l ih => rw [List.foldr_cons, enemyStep_player_holdTimer, ih]

@[simp] theorem updateEnemies_player_x (env : Env) (ts dt : ℚ) (s : State) :
    (updateEnemies env ts dt s).player.x = s.player.x := by
  unfold updateEnemies
  induction s.enemies with
  | nil => rfl
  | cons a l ih => rw [List.foldr_cons, enemyStep_player_x, ih]

@[simp] theorem updateEnemies_player_y (env : Env) (ts dt : ℚ) (s : State) :
    (updateEnemies env ts dt s).player.y = s.player.y := by
  unfold updateEnemies
  induction s.enemies with
  | nil => rfl
  | cons a l ih => rw [List.foldr_cons, enemyStep_player_y, ih]

@[simp] theorem updateEnemies_player_w (env : Env) (ts dt : ℚ) (s : State) :
    (updateEnemies env ts dt s).player.w = s.player.w := by
  unfold updateEnemies
  induction s.enemies with
  | nil => rfl
  | cons a l ih => rw [List.foldr_cons, enemyStep_player_w, ih]

@[simp] theorem updateEnemies_player_h (env : Env) (ts dt : ℚ) (s : State) :
    (updateEnemies env ts dt s).player.h = s.player.h := by
  unfold updateEnemies
  induction s.enemies with
  | nil => rfl
  | cons a l ih => rw [List.foldr_cons, enemyStep_player_h, ih]

@[simp] theorem updateEnemies_wristBuffer (env : Env) (ts dt : ℚ) (s : State) :
    (updateEnemies env ts dt s).wristBuffer = s.wristBuffer := by
  unfold updateEnemies
  induction s.enemies with
  | nil => rfl
  | cons a l ih => rw [List.foldr_cons, enemyStep_wristBuffer, ih]

@[simp] theorem updateEnemies_calibration (env : Env) (ts dt : ℚ) (s : State) :
    (updateEnemies env ts dt s).calibration = s.calibration := by
  unfold updateEnemies
  induction s.enemies with
  | nil => rfl
  | cons a l ih => rw [List.foldr_cons, enemyStep_calibration, ih]

@[simp] theorem updateEnemies_bossWarnShown (env : Env) (ts dt : ℚ) (s : State) :
    (updateEnemies env ts dt s).bossWarnShown = s.bossWarnShown := by
  unfold updateEnemies
  induction s.enemies with
  | nil => rfl
  | cons a l ih => rw [List.foldr_cons, enemyStep_bossWarnShown, ih]

@[simp] theorem updateEnemies_elapsedMs (env : Env) (ts dt : ℚ) (s : State) :
    (updateEnemies env ts dt s).elapsedMs = s.elapsedMs := by
  unfold updateEnemies
  induction s.enemies with
  | nil => rfl
  | cons a l ih => rw [List.foldr_cons, enemyStep_elapsedMs, ih]

@[simp] theorem applyPowerup_playing (env : Env) (t : PowerupType) (s : State) :
    (applyPowerup env t s).playing = s.playing := by
  unfold applyPowerup
  split <;> rfl

@[simp] theorem applyPowerup_lastTS (env : Env) (t : PowerupType) (s : State) :
    (applyPowerup env t s).lastTS = s.lastTS := by
  unfold applyPowerup
  split <;> rfl

@[simp] theorem applyPowerup_boss (env : Env) (t : PowerupType) (s : State) :
    (applyPowerup env t s).boss = s.boss := by
  unfold applyPowerup
  split <;> rfl

@[simp] theorem applyPowerup_inBoss (env : Env) (t : PowerupType) (s : State) :
    (applyPowerup env t s).inBoss = s.inBoss := by
  unfold applyPowerup
  split <;> rfl

@[simp] theorem applyPowerup_player_fistCooldown (env : Env) (t : PowerupType) (s : State) :
    (applyPowerup env t s).player.fistCooldown = s.player.fistCooldown := by
  unfold applyPowerup
  split <;> rfl

@[simp] theorem applyPowerup_player_specialCooldown (env : Env) (t : PowerupType) (s : State) :
    (applyPowerup env t s).player.specialCooldown = s.player.specialCooldown := by
  unfold applyPowerup
  split <;> rfl

@[simp] theorem applyPowerup_player_holdTimer (env : Env) (t : PowerupType) (s : State) :
    (applyPowerup env t s).player.holdTimer = s.player.holdTimer := by
  unfold applyPowerup
  split <;> rfl

@[simp] theorem applyPowerup_player_x (env : Env) (t : PowerupType) (s : State) :
    (applyPowerup env t s).player.x = s.player.x := by
  unfold applyPowerup
  split <;> rfl

@[simp] theorem applyPowerup_player_y (env : Env) (t : PowerupType) (s : State) :
    (applyPowerup env t s).player.y = s.player.y := by
  unfold applyPowerup
  split <;> rfl

@[simp] theorem applyPowerup_player_w (env : Env) (t : PowerupType) (s : State) :
    (applyPowerup env t s).player.w = s.player.w := by
  unfold applyPowerup
  split <;> rfl

@[simp] theorem applyPowerup_player_h (env : Env) (t : PowerupType) (s : State) :
    (applyPowerup env t s).player.h = s.player.h := by
  unfold applyPowerup
  split <;> rfl

@[simp] theorem applyPowerup_wristBuffer (env : Env) (t : PowerupType) (s : State) :
    (applyPowerup env t s).wristBuffer = s.wristBuffer := by
  unfold applyPowerup
  split <;> rfl

@[simp] theorem applyPowerup_calibration (env : Env) (t : PowerupType) (s : State) :
    (applyPowerup env t s).calibration = s.calibration := by
  unfold applyPowerup
  split <;> rfl

@[simp] theorem applyPowerup_bossWarnShown (env : Env) (t : PowerupType) (s : State) :
    (applyPowerup env t s).bossWarnShown = s.bossWarnShown := by
  unfold applyPowerup
  split <;> rfl

@[simp] theorem applyPowerup_elapsedMs (env : Env) (t : PowerupType) (s : State) :
    (applyPowerup env t s).elapsedMs = s.elapsedMs := by
  unfold applyPowerup
  split <;> rfl

@[simp] theorem powerupStep_playing (env : Env) (dt : ℚ) (p : Powerup) (s : State) :
    (powerupStep env dt p s).playing = s.playing := by
  unfold powerupStep
  dsimp only
  split_ifs <;> simp

@[simp] theorem powerupStep_lastTS (env : Env) (dt : ℚ) (p : Powerup) (s : State) :
    (powerupStep env dt p s).lastTS = s.lastTS := by
  unfold powerupStep
  dsimp only
  split_ifs <;> simp

@[simp] theorem powerupStep_boss (env : Env) (dt : ℚ) (p : Powerup) (s : State) :
    (powerupStep env dt p s).boss = s.boss := by
  unfold powerupStep
  dsimp only
  split_ifs <;> simp

@[simp] theorem powerupStep_inBoss (env : Env) (dt : ℚ) (p : Powerup) (s : State) :
    (powerupStep env dt p s).inBoss = s.inBoss := by
  unfold powerupStep
  dsimp only
  split_ifs <;> simp

@[simp] theorem powerupStep_player_fistCooldown (env : Env) (dt : ℚ) (p : Powerup) (s : State) :
    (powerupStep env dt p s).player.fistCooldown = s.player.fistCooldown := by
  unfold powerupStep
  dsimp only
  split_ifs <;> simp

@[simp] theorem powerupStep_player_specialCooldown (env : Env) (dt : ℚ) (p : Powerup) (s : State) :
    (powerupStep env dt p s).player.specialCooldown = s.player.specialCooldown := by
  unfold powerupStep
  dsimp only
  split_ifs <;> simp

@[simp] theorem powerupStep_player_holdTimer (env : Env) (dt : ℚ) (p : Powerup) (s : State) :
    (powerupStep env dt p s).player.holdTimer = s.player.holdTimer := by
  unfold powerupStep
  dsimp only
  split_ifs <;> simp

@[simp] theorem powerupStep_player_x (env : Env) (dt : ℚ) (p : Powerup) (s : State) :
    (powerupStep env dt p s).player.x = s.player.x := by
  unfold powerupStep
  dsimp only
  split_ifs <;> simp

@[simp] theorem powerupStep_player_y (env : Env) (dt : ℚ) (p : Powerup) (s : State) :
    (powerupStep env dt p s).player.y = s.player.y := by
  unfold powerupStep
  dsimp only
  split_ifs <;> simp

@[simp] theorem powerupStep_player_w (env : Env) (dt : ℚ) (p : Powerup) (s : State) :
    (powerupStep env dt p s).player.w = s.player.w := by
  unfold powerupStep
  dsimp only
  split_ifs <;> simp

@[simp] theorem powerupStep_player_h (env : Env) (dt : ℚ) (p : Powerup) (s : State) :
    (powerupStep env dt p s).player.h = s.player.h := by
  unfold powerupStep
  dsimp only
  split_ifs <;> simp

@[simp] theorem powerupStep_wristBuffer (env : Env) (dt : ℚ) (p : Powerup) (s : State) :
    (powerupStep env dt p s).wristBuffer = s.wristBuffer := by
  unfold powerupStep
  dsimp only
  split_ifs <;> simp

@[simp] theorem powerupStep_calibration (env : Env) (dt : ℚ) (p : Powerup) (s : State) :
    (powerupStep env dt p s).calibration = s.calibration := by
  unfold powerupStep
  dsimp only
  split_ifs <;> simp

@[simp] theorem powerupStep_bossWarnShown (env : Env) (dt : ℚ) (p : Powerup) (s : State) :
    (powerupStep env dt p s).bossWarnShown = s.bossWarnShown := by
  unfold powerupStep
  dsimp only
  split_ifs <;> simp

@[simp] theorem powerupStep_elapsedMs (env : Env) (dt : ℚ) (p : Powerup) (s : State) :
    (powerupStep env dt p s).elapsedMs = s.elapsedMs := by
  unfold powerupStep
  dsimp only
  split_ifs <;> simp

@[simp] theorem updatePowerups_playing (env : Env) (dt : ℚ) (s : State) :
    (updatePowerups env dt s).playing = s.playing := by
  unfold updatePowerups
  induction s.powerups with
  | nil => rfl
  | cons a l ih => rw [List.foldr_cons, powerupStep_playing, ih]

@[simp] theorem updatePowerups_lastTS (env : Env) (dt : ℚ) (s : State) :
    (updatePowerups env dt s).lastTS = s.lastTS := by
  unfold updatePowerups
  induction s.powerups with
  | nil => rfl
  | cons a l ih => rw [List.foldr_cons, powerupStep_lastTS, ih]

@[simp] theorem updatePowerups_boss (env : Env) (dt : ℚ) (s : State) :
    (updatePowerups env dt s).boss = s.boss := by
  unfold updatePowerups
  induction s.powerups with
  | nil => rfl
  | cons a l ih => rw [List.foldr_cons, powerupStep_boss, ih]

@[simp] theorem updatePowerups_inBoss (env : Env) (dt : ℚ) (s : State) :
    (updatePowerups env dt s).inBoss = s.inBoss := by
  unfold updatePowerups
  induction s.powerups with
  | nil => rfl
  | cons a l ih => rw [List.foldr_cons, powerupStep_inBoss, ih]

@[simp] theorem updatePowerups_player_fistCooldown (env : Env) (dt : ℚ) (s : State) :
    (updatePowerups env dt s).player.fistCooldown = s.player.fistCooldown := by
  unfold updatePowerups
  induction s.powerups with
  | nil => rfl
  | cons a l ih => rw [List.foldr_cons, powerupStep_player_fistCooldown, ih]

@[simp] theorem updatePowerups_player_specialCooldown (env : Env) (dt : ℚ) (s : State) :
    (updatePowerups env dt s).player.specialCooldown = s.player.specialCooldown := by
  unfold updatePowerups
  induction s.powerups with
  | nil => rfl
  | cons a l ih => rw [List.foldr_cons, powerupStep_player_specialCooldown, ih]

@[simp] theorem updatePowerups_player_holdTimer (env : Env) (dt : ℚ) (s : State) :
    (updatePowerups env dt s).player.holdTimer = s.player.holdTimer := by
  unfold updatePowerups
  induction s.powerups with
  | nil => rfl
  | cons a l ih => rw [List.foldr_cons, powerupStep_player_holdTimer, ih]

@[simp] theorem updatePowerups_player_x (env : Env) (dt : ℚ) (s : State) :
    (updatePowerups env dt s).player.x = s.player.x := by
  unfold updatePowerups
  induction s.powerups with
  | nil => rfl
  | cons a l ih => rw [List.foldr_cons, powerupStep_player_x, ih]

@[simp] theorem updatePowerups_player_y (env : Env) (dt : ℚ) (s : State) :
    (updatePowerups env dt s).player.y = s.player.y := by
  unfold updatePowerups
  induction s.powerups with
  | nil => rfl
  | cons a l ih => rw [List.foldr_cons, powerupStep_player_y, ih]

@[simp] theorem updatePowerups_player_w (env : Env) (dt : ℚ) (s : State) :
    (updatePowerups env dt s).player.w = s.player.w := by
  unfold updatePowerups
  induction s.powerups with
  | nil => rfl
  | cons a l ih => rw [List.foldr_cons, powerupStep_player_w, ih]

@[simp] theorem updatePowerups_player_h (env : Env) (dt : ℚ) (s : State) :
    (updatePowerups env dt s).player.h = s.player.h := by
  unfold updatePowerups
  induction s.powerups with
  | nil => rfl
  | cons a l ih => rw [List.foldr_cons, powerupStep_player_h, ih]

@[simp] theorem updatePowerups_wristBuffer (env : Env) (dt : ℚ) (s : State) :
    (updatePowerups env dt s).wristBuffer = s.wristBuffer := by
  unfold updatePowerups
  induction s.powerups with
  | nil => rfl
  | cons a l ih => rw [List.foldr_cons, powerupStep_wristBuffer, ih]

@[simp] theorem updatePowerups_calibration (env : Env) (dt : ℚ) (s : State) :
    (updatePowerups env dt s).calibration = s.calibration := by
  unfold updatePowerups
  induction s.powerups with
  | nil => rfl
  | cons a l ih => rw [List.foldr_cons, powerupStep_calibration, ih]

@[simp] theorem updatePowerups_bossWarnShown (env : Env) (dt : ℚ) (s : State) :
    (updatePowerups env dt s).bossWarnShown = s.bossWarnShown := by
  unfold updatePowerups
  induction s.powerups with
  | nil => rfl
  | cons a l ih => rw [List.foldr_cons, powerupStep_bossWarnShown, ih]

@[simp] theorem updatePowerups_elapsedMs (env : Env) (dt : ℚ) (s : State) :
    (updatePowerups env dt s).elapsedMs = s.elapsedMs := by
  unfold updatePowerups
  induction s.powerups with
  | nil => rfl
  | cons a l ih => rw [List.foldr_cons, powerupStep_elapsedMs, ih]

@[simp] theorem bossLogic_playing (env : Env) (dt : ℚ) (s : State) :
    (bossLogic env dt s).playing = s.playing := by
  unfold bossLogic
  split
  · rfl
  · split
    · rfl
    · dsimp only
      split_ifs <;> rfl
    · rfl

@[simp] theorem bossLogic_lastTS (env : Env) (dt : ℚ) (s : State) :
    (bossLogic env dt s).lastTS = s.lastTS := by
  unfold bossLogic
  split
  · rfl
  · split
    · rfl
    · dsimp only
      split_ifs <;> rfl
    · rfl

@[simp] theorem bossLogic_inBoss (env : Env) (dt : ℚ) (s : State) :
    (bossLogic env dt s).inBoss = s.inBoss := by
  unfold bossLogic
  split
  · rfl
  · split
    · rfl
    · dsimp only
      split_ifs <;> rfl
    · rfl

@[simp] theorem bossLogic_player_fistCooldown (env : Env) (dt : ℚ) (s : State) :
    (bossLogic env dt s).player.fistCooldown = s.player.fistCooldown := by
  unfold bossLogic
  split
  · rfl
  · split
    · rfl
    · dsimp only
      split_ifs <;> rfl
    · rfl

@[simp] theorem bossLogic_player_specialCooldown (env : Env) (dt : ℚ) (s : State) :
    (bossLogic env dt s).player.specialCooldown = s.player.specialCooldown := by
  unfold bossLogic
  split
  · rfl
  · split
    · rfl
    · dsimp only
      split_ifs <;> rfl
    · rfl

@[simp] theorem bossLogic_player_holdTimer (env : Env) (dt : ℚ) (s : State) :
    (bossLogic env dt s).player.holdTimer = s.player.holdTimer := by
  unfold bossLogic
  split
  · rfl
  · split
    · rfl
    · dsimp only
      split_ifs <;> rfl
    · rfl

@[simp] theorem bossLogic_player_x (env : Env) (dt : ℚ) (s : State) :
    (bossLogic env dt s).player.x = s.player.x := by
  unfold bossLogic
  split
  · rfl
  · split
    · rfl
    · dsimp only
      split_ifs <;> rfl
    · rfl

@[simp] theorem bossLogic_player_y (env : Env) (dt : ℚ) (s : State) :
    (bossLogic env dt s).player.y = s.player.y := by
  unfold bossLogic
  split
  · rfl
  · split
    · rfl
    · dsimp only
      split_ifs <;> rfl
    · rfl

@[simp] theorem bossLogic_player_w (env : Env) (dt : ℚ) (s : State) :
    (bossLogic env dt s).player.w = s.player.w := by
  unfold bossLogic
  split
  · rfl
  · split
    · rfl
    · dsimp only
      split_ifs <;> rfl
    · rfl

@[simp] theorem bossLogic_player_h (env : Env) (dt : ℚ) (s : State) :
    (bossLogic env dt s).player.h = s.player.h := by
  unfold bossLogic
  split
  · rfl
  · split
    · rfl
    · dsimp only
      split_ifs <;> rfl
    · rfl

@[simp] theorem bossLogic_wristBuffer (env : Env) (dt : ℚ) (s : State) :
    (bossLogic env dt s).wristBuffer = s.wristBuffer := by
  unfold bossLogic
  split
  · rfl
  · split
    · rfl
    · dsimp only
      split_ifs <;> rfl
    · rfl

@[simp] theorem bossLogic_calibration (env : Env) (dt : ℚ) (s : State) :
    (bossLogic env dt s).calibration = s.calibration := by
  unfold bossLogic
  split
  · rfl
  · split
    · rfl
    · dsimp only
      split_ifs <;> rfl
    · rfl

@[simp] theorem bossLogic_timers (env : Env) (dt : ℚ) (s : State) :
    (bossLogic env dt s).timers = s.timers := by
  unfold bossLogic
  split
  · rfl
  · split
    · rfl
    · dsimp only
      split_ifs <;> rfl
    · rfl

@[simp] theorem bossLogic_bossWarnShown (env : Env) (dt : ℚ) (s : State) :
    (bossLogic env dt s).bossWarnShown = s.bossWarnShown := by
  unfold bossLogic
  split
  · rfl
  · split
    · rfl
    · dsimp only
      split_ifs <;> rfl
    · rfl

@[simp] theorem bossLogic_elapsedMs (env : Env) (dt : ℚ) (s : State) :
    (bossLogic env dt s).elapsedMs = s.elapsedMs := by
  unfold bossLogic
  split
  · rfl
  · split
    · rfl
    · dsimp only
      split_ifs <;> rfl
    · rfl

@[simp] theorem updateParticles_playing (dt : ℚ) (s : State) :
    (updateParticles dt s).playing = s.playing := rfl

@[simp] theorem updateParticles_lastTS (dt : ℚ) (s : State) :
    (updateParticles dt s).lastTS = s.lastTS := rfl

@[simp] theorem updateParticles_boss (dt : ℚ) (s : State) :
    (updateParticles dt s).boss = s.boss := rfl

@[simp] theorem updateParticles_inBoss (dt : ℚ) (s : State) :
    (updateParticles dt s).inBoss = s.inBoss := rfl

@[simp] theorem updateParticles_player_fistCooldown (dt : ℚ) (s : State) :
    (updateParticles dt s).player.fistCooldown = s.player.fistCooldown := rfl

@[simp] theorem updateParticles_player_specialCooldown (dt : ℚ) (s : State) :
    (updateParticles dt s).player.specialCooldown = s.player.specialCooldown := rfl

@[simp] theorem updateParticles_player_holdTimer (dt : ℚ) (s : State) :
    (updateParticles dt s).player.holdTimer = s.player.holdTimer := rfl

@[simp] theorem updateParticles_player_x (dt : ℚ) (s : State) :
    (updateParticles dt s).player.x = s.player.x := rfl

@[simp] theorem updateParticles_player_y (dt : ℚ) (s : State) :
    (updateParticles dt s).player.y = s.player.y := rfl

@[simp] theorem updateParticles_player_w (dt : ℚ) (s : State) :
    (updateParticles dt s).player.w = s.player.w := rfl

@[simp] theorem updateParticles_player_h (dt : ℚ) (s : State) :
    (updateParticles dt s).player.h = s.player.h := rfl

@[simp] theorem updateParticles_wristBuffer (dt : ℚ) (s : State) :
    (updateParticles dt s).wristBuffer = s.wristBuffer := rfl

@[simp] theorem updateParticles_calibration (dt : ℚ) (s : State) :
    (updateParticles dt s).calibration = s.calibration := rfl

@[simp] theorem updateParticles_timers (dt : ℚ) (s : State) :
    (updateParticles dt s).timers = s.timers := rfl

@[simp] theorem updateParticles_bossWarnShown (dt : ℚ) (s : State) :
    (updateParticles dt s).bossWarnShown = s.bossWarnShown := rfl

@[simp] theorem updateParticles_elapsedMs (dt : ℚ) (s : State) :
    (updateParticles dt s).elapsedMs = s.elapsedMs := rfl

@[simp] theorem addScore_playing (d : ℚ) (s : State) : (addScore d s).playing = s.playing := rfl

@[simp] theorem addScore_lastTS (d : ℚ) (s : State) : (addScore d s).lastTS = s.lastTS := rfl

@[simp] theorem addScore_boss (d : ℚ) (s : State) : (addScore d s).boss = s.boss := rfl

@[simp] theorem addScore_inBoss (d : ℚ) (s : State) : (addScore d s).inBoss = s.inBoss := rfl

@[simp] theorem addScore_player_fistCooldown (d : ℚ) (s : State) :
    (addScore d s).player.fistCooldown = s.player.fistCooldown := rfl

@[simp] theorem addScore_player_specialCooldown (d : ℚ) (s : State) :
    (addScore d s).player.specialCooldown = s.player.specialCooldown := rfl

@[simp] theorem addScore_player_holdTimer (d : ℚ) (s : State) :
    (addScore d s).player.holdTimer = s.player.holdTimer := rfl

@[simp] theorem addScore_player_x (d : ℚ) (s : State) : (addScore d s).player.x = s.player.x := rfl

@[simp] theorem addScore_player_y (d : ℚ) (s : State) : (addScore d s).player.y = s.player.y := rfl

@[simp] theorem addScore_player_w (d : ℚ) (s : State) : (addScore d s).player.w = s.player.w := rfl

@[simp] theorem addScore_player_h (d : ℚ) (s : State) : (addScore d s).player.h = s.player.h := rfl

@[simp] theorem addScore_wristBuffer (d : ℚ) (s : State) :
    (addScore d s).wristBuffer = s.wristBuffer := rfl

@[simp] theorem addScore_calibration (d : ℚ) (s : State) :
    (addScore d s).calibration = s.calibration := rfl

@[simp] theorem addScore_timers (d : ℚ) (s : State) : (addScore d s).timers = s.timers := rfl

@[simp] theorem addScore_bossWarnShown (d : ℚ) (s : State) :
    (addScore d s).bossWarnShown = s.bossWarnShown := rfl

@[simp] theorem addScore_elapsedMs (d : ℚ) (s : State) :
    (addScore d s).elapsedMs = s.elapsedMs := rfl

@[simp] theorem applyScreenShake_playing (s : State) :
    (applyScreenShake s).playing = s.playing := by
  unfold applyScreenShake
  split_ifs <;> rfl

@[simp] theorem applyScreenShake_lastTS (s : State) : (applyScreenShake s).lastTS = s.lastTS := by
  unfold applyScreenShake
  split_ifs <;> rfl

@[simp] theorem applyScreenShake_boss (s : State) : (applyScreenShake s).boss = s.boss := by
  unfold applyScreenShake
  split_ifs <;> rfl

@[simp] theorem applyScreenShake_inBoss (s : State) : (applyScreenShake s).inBoss = s.inBoss := by
  unfold applyScreenShake
  split_ifs <;> rfl

@[simp] theorem applyScreenShake_player_fistCooldown (s : State) :
    (applyScreenShake s).player.fistCooldown = s.player.fistCooldown := by
  unfold applyScreenShake
  split_ifs <;> rfl

@[simp] theorem applyScreenShake_player_specialCooldown (s : State) :
    (applyScreenShake s).player.specialCooldown = s.player.specialCooldown := by
  unfold applyScreenShake
  split_ifs <;> rfl

@[simp] theorem applyScreenShake_player_holdTimer (s : State) :
    (applyScreenShake s).player.holdTimer = s.player.holdTimer := by
  unfold applyScreenShake
  split_ifs <;> rfl

@[simp] theorem applyScreenShake_player_x (s : State) :
    (applyScreenShake s).player.x = s.player.x := by
  unfold applyScreenShake
  split_ifs <;> rfl

@[simp] theorem applyScreenShake_player_y (s : State) :
    (applyScreenShake s).player.y = s.player.y := by
  unfold applyScreenShake
  split_ifs <;> rfl

@[simp] theorem applyScreenShake_player_w (s : State) :
    (applyScreenShake s).player.w = s.player.w := by
  unfold applyScreenShake
  split_ifs <;> rfl

@[simp] theorem applyScreenShake_player_h (s : State) :
    (applyScreenShake s).player.h = s.player.h := by
  unfold applyScreenShake
  split_ifs <;> rfl

@[simp] theorem applyScreenShake_wristBuffer (s : State) :
    (applyScreenShake s).wristBuffer = s.wristBuffer := by
  unfold applyScreenShake
  split_ifs <;> rfl

@[simp] theorem applyScreenShake_calibration (s : State) :
    (applyScreenShake s).calibration = s.calibration := by
  unfold applyScreenShake
  split_ifs <;> rfl

@[simp] theorem applyScreenShake_timers (s : State) : (applyScreenShake s).timers = s.timers := by
  unfold applyScreenShake
  split_ifs <;> rfl

@[simp] theorem applyScreenShake_bossWarnShown (s : State) :
    (applyScreenShake s).bossWarnShown = s.bossWarnShown := by
  unfold applyScreenShake
  split_ifs <;> rfl

@[simp] theorem applyScreenShake_elapsedMs (s : State) :
    (applyScreenShake s).elapsedMs = s.elapsedMs := by
  unfold applyScreenShake
  split_ifs <;> rfl

@[simp] theorem beforeEnemies_player_lives (env : Env) (d : ℚ) (hands : List Hand) (s : State) :
    (beforeEnemies env d hands s).player.lives = s.player.lives := by
  simp [beforeEnemies]

@[simp] theorem beforeEnemies_playing (env : Env) (d : ℚ) (hands : List Hand) (s : State) :
    (beforeEnemies env d hands s).playing = s.playing := by
  simp [beforeEnemies]

@[simp] theorem beforeEnemies_lastTS (env : Env) (d : ℚ) (hands : List Hand) (s : State) :
    (beforeEnemies env d hands s).lastTS = s.lastTS := by
  simp [beforeEnemies]

@[simp] theorem beforeEnemies_inBoss (env : Env) (d : ℚ) (hands : List Hand) (s : State) :
    (beforeEnemies env d hands s).inBoss = s.inBoss := by
  simp [beforeEnemies]

@[simp] theorem beforeEnemies_player_w (env : Env) (d : ℚ) (hands : List Hand) (s : State) :
    (beforeEnemies env d hands s).player.w = s.player.w := by
  simp [beforeEnemies]

@[simp] theorem beforeEnemies_player_h (env : Env) (d : ℚ) (hands : List Hand) (s : State) :
    (beforeEnemies env d hands s).player.h = s.player.h := by
  simp [beforeEnemies]

@[simp] theorem beforeEnemies_player_shieldCooldown (env : Env) (d : ℚ) (hands : List Hand) (s : State) :
    (beforeEnemies env d hands s).player.shieldCooldown = s.player.shieldCooldown := by
  simp [beforeEnemies]

@[simp] theorem beforeEnemies_calibration (env : Env) (d : ℚ) (hands : List Hand) (s : State) :
    (beforeEnemies env d hands s).calibration = s.calibration := by
  simp [beforeEnemies]

@[simp] theorem afterEnemies_playing (env : Env) (d dt : ℚ) (s : State) :
    (afterEnemies env d dt s).playing = s.playing := by
  simp [afterEnemies]

@[simp] theorem afterEnemies_lastTS (env : Env) (d dt : ℚ) (s : State) :
    (afterEnemies env d dt s).lastTS = s.lastTS := by
  simp [afterEnemies]

@[simp] theorem afterEnemies_inBoss (env : Env) (d dt : ℚ) (s : State) :
    (afterEnemies env d dt s).inBoss = s.inBoss := by
  simp [afterEnemies]

@[simp] theorem afterEnemies_player_fistCooldown (env : Env) (d dt : ℚ) (s : State) :
    (afterEnemies env d dt s).player.fistCooldown = s.player.fistCooldown := by
  simp [afterEnemies]

@[simp] theorem afterEnemies_player_specialCooldown (env : Env) (d dt : ℚ) (s : State) :
    (afterEnemies env d dt s).player.specialCooldown = s.player.specialCooldown := by
  simp [afterEnemies]

@[simp] theorem afterEnemies_player_holdTimer (env : Env) (d dt : ℚ) (s : State) :
    (afterEnemies env d dt s).player.holdTimer = s.player.holdTimer := by
  simp [afterEnemies]

@[simp] theorem afterEnemies_player_x (env : Env) (d dt : ℚ) (s : State) :
    (afterEnemies env d dt s).player.x = s.player.x := by
  simp [afterEnemies]

@[simp] theorem afterEnemies_player_y (env : Env) (d dt : ℚ) (s : State) :
    (afterEnemies env d dt s).player.y = s.player.y := by
  simp [afterEnemies]

@[simp] theorem afterEnemies_player_w (env : Env) (d dt : ℚ) (s : State) :
    (afterEnemies env d dt s).player.w = s.player.w := by
  simp [afterEnemies]

@[simp] theorem afterEnemies_player_h (env : Env) (d dt : ℚ) (s : State) :
    (afterEnemies env d dt s).player.h = s.player.h := by
  simp [afterEnemies]

@[simp] theorem afterEnemies_wristBuffer (env : Env) (d dt : ℚ) (s : State) :
    (afterEnemies env d dt s).wristBuffer = s.wristBuffer := by
  simp [afterEnemies]

@[simp] theorem afterEnemies_calibration (env : Env) (d dt : ℚ) (s : State) :
    (afterEnemies env d dt s).calibration = s.calibration := by
  simp [afterEnemies]

@[simp] theorem afterEnemies_bossWarnShown (env : Env) (d dt : ℚ) (s : State) :
    (afterEnemies env d dt s).bossWarnShown = s.bossWarnShown := by
  simp [afterEnemies]

@[simp] theorem afterEnemies_elapsedMs (env : Env) (d dt : ℚ) (s : State) :
    (afterEnemies env d dt s).elapsedMs = s.elapsedMs := by
  simp [afterEnemies]

theorem lastSix_snoc (l : List Pt) (p : Pt) :
    (if (l.drop (l.length - 6) ++ [p]).length > 6 then (l.drop (l.length - 6) ++ [p]).tail
      else l.drop (l.length - 6) ++ [p]) = (l ++ [p]).drop ((l ++ [p]).length - 6) := by
  by_cases h : l.length < 6
  · have h1 : l.length - 6 = 0 := by omega
    have h2 : (l ++ [p]).length - 6 = 0 := by simp; omega
    have h3 : ¬ ((l ++ [p]).length > 6) := by simp; omega
    rw [h1, h2, List.drop_zero, List.drop_zero, if_neg h3]
  · have h1 : (l.drop (l.length - 6) ++ [p]).length > 6 := by simp; omega
    rw [if_pos h1, ← List.drop_one, List.drop_append_of_le_length (by simp; omega),
      List.drop_drop, List.drop_append_of_le_length (by simp)]
    congr 2
    simp
    omega

theorem pushWrist_wristBuffer (px py : ℚ) (s : State) :
    (pushWrist px py s).wristBuffer
      = if (s.wristBuffer ++ [(⟨px, py⟩ : Pt)]).length > 6 then (s.wristBuffer ++ [(⟨px, py⟩ : Pt)]).tail
        else s.wristBuffer ++ [(⟨px, py⟩ : Pt)] := rfl

/-- The buffer after a run of pushes from an empty buffer holds the last six
points pushed. -/
theorem wristBuffer_foldl_pushWrist (s : State) (h : s.wristBuffer = []) (ps : List Pt) :
    (ps.foldl (fun st p => pushWrist p.x p.y st) s).wristBuffer
      = ps.drop (ps.length - 6) := by
  induction ps using List.reverseRecOn with
  | nil => simpa using h
  | append_singleton l p ih =>
    rw [List.foldl_append, List.foldl_cons, List.foldl_nil, pushWrist_wristBuffer, ih]
    exact lastSix_snoc l p

theorem foldl_add_x (l : List Pt) (a : ℚ) :
    l.foldl (fun acc p => acc + p.x) a = a + (l.map Pt.x).sum := by
  induction l generalizing a with
  | nil => simp
  | cons p l ih => simp [ih, add_assoc]

theorem foldl_add_y (l : List Pt) (a : ℚ) :
    l.foldl (fun acc p => acc + p.y) a = a + (l.map Pt.y).sum := by
  induction l generalizing a with
  | nil => simp
  | cons p l ih => simp [ih, add_assoc]

/-- C1. For every sequence `ps` of points pushed by `pushWrist` into an empty
buffer, `getSmoothedWrist` returns the per-coordinate arithmetic mean of the
last `min n 6` points pushed (`n` the number of pushes), and it returns `null`
exactly when nothing has been pushed. -/
theorem getSmoothedWrist_eq_mean (s : State) (h : s.wristBuffer = []) (ps : List Pt) :
    getSmoothedWrist (ps.foldl (fun st p => pushWrist p.x p.y st) s) = meanOfLastSix ps
    ∧ (getSmoothedWrist (ps.foldl (fun st p => pushWrist p.x p.y st) s) = none
        ↔ ps.length = 0) := by
  have hb := wristBuffer_foldl_pushWrist s h ps
  have hlen : (ps.drop (ps.length - 6)).length = min ps.length 6 := by
    rw [List.length_drop]; omega
  have key : getSmoothedWrist (ps.foldl (fun st p => pushWrist p.x p.y st) s)
      = meanOfLastSix ps := by
    unfold getSmoothedWrist meanOfLastSix
    rw [hb, hlen]
    by_cases h0 : ps.length = 0
    · simp [h0]
    · have h1 : min ps.length 6 ≠ 0 := by omega
      have h2 : ps.length - min ps.length 6 = ps.length - 6 := by omega
      simp only [h0, h1, if_false, foldl_add_x, foldl_add_y, zero_add, h2]
  refine ⟨key, ?_⟩
  rw [key]
  unfold meanOfLastSix
  by_cases h0 : ps.length = 0 <;> simp [h0]

/-- Witness for C1: seven pushes into the empty buffer of the initial state. -/
theorem getSmoothedWrist_eq_mean_witness :
    (initialState sampleEnv).wristBuffer = []
    ∧ getSmoothedWrist (sevenPoints.foldl (fun st p => pushWrist p.x p.y st)
        (initialState sampleEnv)) = meanOfLastSix sevenPoints
    ∧ (getSmoothedWrist (sevenPoints.foldl (fun st p => pushWrist p.x p.y st)
        (initialState sampleEnv)) = none ↔ sevenPoints.length = 0) :=
  ⟨rfl, getSmoothedWrist_eq_mean (initialState sampleEnv) rfl sevenPoints⟩

/-! ### C2: lives below zero -/

/-- C2. The code at the failing input: in the session `livesRun` (no hand in
view, every random draw `1/2`, canvas 800 by 600) the player has one life left
after the frame at 2900 ms and play is still on; the frame at 4900 ms has two
enemies overlap the hitbox, each takes a life, and `player.lives` ends at -1. -/
theorem lives_negative_after_double_collision :
    (run sampleEnv (initialState sampleEnv) (livesRun.take 6)).player.lives = 1
    ∧ (run sampleEnv (initialState sampleEnv) (livesRun.take 6)).playing = true
    ∧ (run sampleEnv (initialState sampleEnv) livesRun).player.lives = -1 := by
  decide!

/-! ### C3: the shield is never active and cooling at once -/

@[simp] theorem spawnParticles_player (env : Env) (x y : ℚ) (n : ℕ) (c : String) (s : State) :
    (spawnParticles env x y n c s).player = s.player := rfl

@[simp] theorem setTimeout_player (cb : Callback) (d : ℚ) (s : State) :
    (setTimeout cb d s).player = s.player := rfl

@[simp] theorem applySlowMotion_player (f d : ℚ) (s : State) :
    (applySlowMotion f d s).player = s.player := rfl

@[simp] theorem bossTakeDamage_player (env : Env) (d : ℚ) (s : State) :
    (bossTakeDamage env d s).player = s.player := by
  unfold bossTakeDamage
  split
  · rfl
  · dsimp only
    split_ifs <;> rfl

@[simp] theorem spawnEnemy_player (env : Env) (s : State) :
    (spawnEnemy env s).player = s.player := rfl

@[simp] theorem spawnPowerup_player (env : Env) (s : State) :
    (spawnPowerup env s).player = s.player := rfl

@[simp] theorem pushWrist_player (px py : ℚ) (s : State) :
    (pushWrist px py s).player = s.player := rfl

theorem activateShield_shieldOk (s : State) (h : ShieldOk s) : ShieldOk (activateShield s) := by
  unfold ShieldOk activateShield at *
  split_ifs with h1
  · exact h
  · simp at h1 ⊢
    simp [h1]

theorem advanceClock_shieldOk (d : ℚ) (s : State) (h : ShieldOk s) :
    ShieldOk (advanceClock d s) := h

theorem bossTimerStep_shieldOk (s : State) (h : ShieldOk s) : ShieldOk (bossTimerStep s) := by
  unfold bossTimerStep
  dsimp only
  split_ifs <;> exact h

theorem shieldGesture_shieldOk (env : Env) (hands : List Hand) (s : State) (h : ShieldOk s) :
    ShieldOk (shieldGesture env hands s) := by
  unfold shieldGesture
  split
  · dsimp only
    split_ifs
    · exact activateShield_shieldOk s h
    · exact h
  · exact h

theorem fistGesture_shieldOk (env : Env) (hand : Hand) (s : State) (h : ShieldOk s) :
    ShieldOk (fistGesture env hand s) := by
  unfold fistGesture
  split_ifs
  · simpa [ShieldOk] using h
  · exact h

theorem processGestures_shieldOk (env : Env) (hands : List Hand) (s : State) (h : ShieldOk s) :
    ShieldOk (processGestures env hands s) := by
  unfold processGestures
  split
  · exact h
  · exact fistGesture_shieldOk _ _ _ (shieldGesture_shieldOk _ _ _ h)

theorem applySmoothedWrist_shieldOk (env : Env) (d : ℚ) (s : State) (h : ShieldOk s) :
    ShieldOk (applySmoothedWrist env d s) := by
  unfold applySmoothedWrist
  split <;> exact h

theorem smoothMovement_shieldOk (s : State) (h : ShieldOk s) : ShieldOk (smoothMovement s) := h

theorem specialRelease_shieldOk (env : Env) (s : State) (h : ShieldOk s) :
    ShieldOk (specialRelease env s) := by
  unfold specialRelease
  split_ifs
  · simpa [ShieldOk] using h
  · exact h

theorem tickCooldowns_shieldOk (d : ℚ) (s : State) (h : ShieldOk s) :
    ShieldOk (tickCooldowns d s) := h

theorem animate_shieldOk (d : ℚ) (s : State) (h : ShieldOk s) : ShieldOk (animate d s) := by
  unfold animate
  dsimp only
  split_ifs <;> exact h

theorem spawnStep_shieldOk (env : Env) (d : ℚ) (s : State) (h : ShieldOk s) :
    ShieldOk (spawnStep env d s) := by
  unfold spawnStep
  dsimp only
  split_ifs <;> simpa [ShieldOk] using h

theorem onEnemyCollision_shieldOk (env : Env) (s : State) :
    ShieldOk (onEnemyCollision env s) := by
  unfold onEnemyCollision
  dsimp only
  split_ifs with h1 h2
  · simp [ShieldOk]
  · simpa [ShieldOk] using fun h => absurd h h1
  · simpa [ShieldOk] using fun h => absurd h h1

theorem enemyStep_shieldOk (env : Env) (ts dt : ℚ) (e : Enemy) (s : State) (h : ShieldOk s) :
    ShieldOk (enemyStep env ts dt e s) := by
  unfold enemyStep
  dsimp only
  split_ifs
  · exact onEnemyCollision_shieldOk env s
  · exact h
  · exact h

theorem updateEnemies_shieldOk (env : Env) (ts dt : ℚ) (s : State) (h : ShieldOk s) :
    ShieldOk (updateEnemies env ts dt s) := by
  unfold updateEnemies
  induction s.enemies with
  | nil => exact h
  | cons e l ih => exact enemyStep_shieldOk env ts dt e _ ih

theorem applyPowerup_shieldOk (env : Env) (t : PowerupType) (s : State) (h : ShieldOk s) :
    ShieldOk (applyPowerup env t s) := by
  cases t <;> simp [applyPowerup, ShieldOk] at h ⊢ <;> exact h

theorem powerupStep_shieldOk (env : Env) (dt : ℚ) (p : Powerup) (s : State) (h : ShieldOk s) :
    ShieldOk (powerupStep env dt p s) := by
  unfold powerupStep
  dsimp only
  split_ifs
  · exact applyPowerup_shieldOk env _ s h
  · exact h
  · exact h

theorem updatePowerups_shieldOk (env : Env) (dt : ℚ) (s : State) (h : ShieldOk s) :
    ShieldOk (updatePowerups env dt s) := by
  unfold updatePowerups
  induction s.powerups with
  | nil => exact h
  | cons e l ih => exact powerupStep_shieldOk env dt e _ ih

@[simp] theorem bossLogic_player (env : Env) (dt : ℚ) (s : State) :
    (bossLogic env dt s).player = s.player := by
  unfold bossLogic
  split
  · rfl
  · split
    · rfl
    · dsimp only
      split_ifs <;> rfl
    · rfl

theorem afterEnemies_shieldOk (env : Env) (d dt : ℚ) (s : State) (h : ShieldOk s) :
    ShieldOk (afterEnemies env d dt s) := by
  have h1 := updatePowerups_shieldOk env dt s h
  have h2 : ShieldOk (bossLogic env dt (updatePowerups env dt s)) := by
    simpa [ShieldOk] using h1
  unfold afterEnemies applyScreenShake
  split_ifs <;> exact h2

theorem mainLoop_shieldOk (env : Env) (ts : ℚ) (hands : List Hand) (s : State) (h : ShieldOk s) :
    ShieldOk (mainLoop env ts hands s) := by
  unfold mainLoop
  dsimp only
  split_ifs
  · exact h
  · unfold playingTick beforeEnemies
    apply afterEnemies_shieldOk
    apply updateEnemies_shieldOk
    apply spawnStep_shieldOk
    apply animate_shieldOk
    apply tickCooldowns_shieldOk
    apply specialRelease_shieldOk
    apply smoothMovement_shieldOk
    apply applySmoothedWrist_shieldOk
    apply processGestures_shieldOk
    apply bossTimerStep_shieldOk
    apply advanceClock_shieldOk
    exact h
  · exact h

theorem resetAll_shieldOk (env : Env) (s : State) : ShieldOk (resetAll env s) := by
  simp [ShieldOk, resetAll]

theorem runCallback_shieldOk (env : Env) (cb : Callback) (s : State) (h : ShieldOk s) :
    ShieldOk (runCallback env cb s) := by
  cases cb <;>
    simp [runCallback, ShieldOk, startBoss, endBoss, startSession, resetAll, setTimeout] at h ⊢
    <;> exact h

theorem fireTimer_shieldOk (env : Env) (i : ℕ) (s : State) (h : ShieldOk s) :
    ShieldOk (fireTimer env i s) := by
  unfold fireTimer
  split
  · exact h
  · exact runCallback_shieldOk env _ _ h

theorem keydown_shieldOk (k : Key) (s : State) (h : ShieldOk s) : ShieldOk (keydown k s) := by
  cases k
  · exact h
  · exact h
  · exact activateShield_shieldOk s h

theorem step_shieldOk (env : Env) (s : State) (ev : Event) (h : ShieldOk s) :
    ShieldOk (step env s ev) := by
  cases ev with
  | frame ts hands => exact mainLoop_shieldOk env ts hands s h
  | timeout i => exact fireTimer_shieldOk env i s h
  | key k => exact keydown_shieldOk k s h
  | restartClick => exact h
  | sessionStart => simp [step, startSession, ShieldOk, resetAll]

theorem run_shieldOk (env : Env) (s : State) (evs : List Event) (h : ShieldOk s) :
    ShieldOk (run env s evs) := by
  unfold run
  induction evs generalizing s with
  | nil => exact h
  | cons ev evs ih => exact ih _ (step_shieldOk env s ev h)

/-- C3. The shield flags are never both set: `ShieldOk` holds after `resetAll`
from any state, after every run of events from there (frames with any hands,
pending timers fired in any order, stale ones included, key presses, restarts),
and each operation that writes the flags keeps it: `activateShield`, its expiry
callback, the cooldown-clearing callback, an enemy collision and a shield
pickup. -/
theorem shield_never_active_and_cooling (env : Env) (s : State) (evs : List Event) :
    ShieldOk (resetAll env s)
    ∧ ShieldOk (run env (resetAll env s) evs)
    ∧ (∀ t : State, ShieldOk t →
        ShieldOk (activateShield t)
        ∧ ShieldOk (runCallback env Callback.shieldExpire t)
        ∧ ShieldOk (runCallback env Callback.shieldReady t)
        ∧ ShieldOk (onEnemyCollision env t)
        ∧ ShieldOk (applyPowerup env PowerupType.shield t)) :=
  ⟨resetAll_shieldOk env s, run_shieldOk env _ evs (resetAll_shieldOk env s),
    fun t ht => ⟨activateShield_shieldOk t ht, runCallback_shieldOk env _ t ht,
      runCallback_shieldOk env _ t ht, onEnemyCollision_shieldOk env t,
      applyPowerup_shieldOk env _ t ht⟩⟩

/-! ### C4: several enemies hit a shielded player in one tick -/

theorem hitsPlayer_onEnemyCollision (env : Env) (s : State) :
    hitsPlayer (onEnemyCollision env s) = hitsPlayer s := by
  unfold onEnemyCollision
  dsimp only
  split_ifs <;> rfl

theorem hitsPlayer_enemyStep (env : Env) (ts dt : ℚ) (e : Enemy) (s : State) :
    hitsPlayer (enemyStep env ts dt e s) = hitsPlayer s := by
  unfold enemyStep
  dsimp only
  split_ifs
  · exact hitsPlayer_onEnemyCollision env s
  · rfl
  · rfl

theorem hitsPlayer_foldr_enemyStep (env : Env) (ts dt : ℚ) (b : State) (l : List Enemy) :
    hitsPlayer (l.foldr (enemyStep env ts dt) b) = hitsPlayer b := by
  induction l with
  | nil => rfl
  | cons e l ih => rw [List.foldr_cons, hitsPlayer_enemyStep, ih]

theorem onEnemyCollision_enemies (env : Env) (s : State) :
    (onEnemyCollision env s).enemies = s.enemies := by
  unfold onEnemyCollision
  dsimp only
  split_ifs <;> rfl

/-- The list the enemy loop leaves: the moved enemies that neither collided nor
fell off, in their original order. -/
theorem foldr_enemyStep_enemies (env : Env) (ts dt : ℚ) (b : State) (l : List Enemy) :
    (l.foldr (enemyStep env ts dt) b).enemies
      = (l.map (moveEnemy env ts dt)).filter
          (fun e => !hitsPlayer b e.x e.y e.r && !decide (e.y > env.H + 60)) ++ b.enemies := by
  induction l with
  | nil => rfl
  | cons e l ih =>
    rw [List.foldr_cons, List.map_cons, List.filter_cons, enemyStep, hitsPlayer_foldr_enemyStep]
    by_cases h1 : hitsPlayer b (moveEnemy env ts dt e).x (moveEnemy env ts dt e).y
        (moveEnemy env ts dt e).r = true
    · simp [h1, onEnemyCollision_enemies, ih]
    · by_cases h2 : (moveEnemy env ts dt e).y > env.H + 60
      · simp [h1, h2, ih]
      · simp [h1, h2, ih]

/-- What the enemy loop does to a shielded player, by the number `c` of
enemies that collide. -/
theorem foldr_enemyStep_shielded (env : Env) (ts dt : ℚ) (b : State)
    (hb : b.player.shieldActive = true) (l : List Enemy) :
    (((l.map (moveEnemy env ts dt)).filter (fun e => hitsPlayer b e.x e.y e.r)).length = 0 →
      (l.foldr (enemyStep env ts dt) b).player.shieldActive = true
      ∧ (l.foldr (enemyStep env ts dt) b).player.lives = b.player.lives
      ∧ (l.foldr (enemyStep env ts dt) b).timers = b.timers)
    ∧ (1 ≤ ((l.map (moveEnemy env ts dt)).filter (fun e => hitsPlayer b e.x e.y e.r)).length →
      (l.foldr (enemyStep env ts dt) b).player.shieldActive = false
      ∧ (l.foldr (enemyStep env ts dt) b).player.shieldCooldown = true
      ∧ (l.foldr (enemyStep env ts dt) b).player.lives = b.player.lives
          - ((((l.map (moveEnemy env ts dt)).filter
              (fun e => hitsPlayer b e.x e.y e.r)).length : ℤ) - 1)
      ∧ (l.foldr (enemyStep env ts dt) b).timers
          = b.timers ++ [⟨3000, Callback.shieldReady⟩]) := by
  induction l with
  | nil => simp [hb]
  | cons e l ih =>
    obtain ⟨ih0, ih1⟩ := ih
    rw [List.foldr_cons, List.map_cons, List.filter_cons, enemyStep, hitsPlayer_foldr_enemyStep]
    by_cases h1 : hitsPlayer b (moveEnemy env ts dt e).x (moveEnemy env ts dt e).y
        (moveEnemy env ts dt e).r = true
    · simp only [h1, if_true, List.length_cons]
      refine ⟨fun h => absurd h (by omega), fun _ => ?_⟩
      rcases Nat.eq_zero_or_pos ((l.map (moveEnemy env ts dt)).filter
          (fun e => hitsPlayer b e.x e.y e.r)).length with hc | hc
      · obtain ⟨a1, a2, a3⟩ := ih0 hc
        unfold onEnemyCollision
        simp [a1, a2, a3, hc, setTimeout, spawnParticles]
      · obtain ⟨a1, a2, a3, a4⟩ := ih1 hc
        have hlives : (l.foldr (enemyStep env ts dt) b).player.lives - 1 = b.player.lives
            - ((((l.map (moveEnemy env ts dt)).filter
                (fun e => hitsPlayer b e.x e.y e.r)).length + 1 : ℕ) - 1 : ℤ) := by
          rw [a3]; push_cast; ring
        unfold onEnemyCollision
        dsimp only
        rw [if_neg (by simp [a1])]
        split_ifs <;> simp [spawnParticles, a1, a2, a4, hlives]
    · simp only [h1, Bool.false_eq_true, if_false]
      split_ifs
      · exact ⟨ih0, ih1⟩
      · exact ⟨ih0, ih1⟩

/-- A playing tick is the part before the enemy loop, the loop, and the part
after it. -/
theorem mainLoop_playing (env : Env) (ts : ℚ) (hands : List Hand) (s : State)
    (hrun : s.running = true) (hplay : s.playing = true) :
    mainLoop env ts hands s
      = afterEnemies env (ts - s.lastTS) ((ts - s.lastTS) * s.slowFactor)
          (loopExit env ts hands s) := by
  simp [mainLoop, hrun, hplay, playingTick, loopExit, loopEntry]

theorem activateShield_keeps_active (s : State) (h : s.player.shieldActive = true) :
    (activateShield s).player.shieldActive = true := by
  unfold activateShield
  split_ifs
  · exact h
  · rfl

theorem shieldGesture_keeps_active (env : Env) (hands : List Hand) (s : State)
    (h : s.player.shieldActive = true) :
    (shieldGesture env hands s).player.shieldActive = true := by
  unfold shieldGesture
  split
  · dsimp only
    split_ifs
    · exact activateShield_keeps_active s h
    · exact h
  · exact h

theorem fistGesture_shieldActive (env : Env) (hand : Hand) (s : State) :
    (fistGesture env hand s).player.shieldActive = s.player.shieldActive := by
  unfold fistGesture
  split_ifs
  · simp
  · rfl

theorem processGestures_keeps_active (env : Env) (hands : List Hand) (s : State)
    (h : s.player.shieldActive = true) :
    (processGestures env hands s).player.shieldActive = true := by
  unfold processGestures
  split
  · exact h
  · rw [fistGesture_shieldActive]
    exact shieldGesture_keeps_active env _ _ h

theorem beforeEnemies_keeps_active (env : Env) (d : ℚ) (hands : List Hand) (s : State)
    (h : s.player.shieldActive = true) :
    (beforeEnemies env d hands s).player.shieldActive = true := by
  simp [beforeEnemies, processGestures_keeps_active, h]

theorem hitsPlayer_congr (s t : State) (hx : t.player.x = s.player.x)
    (hy : t.player.y = s.player.y) (hw : t.player.w = s.player.w)
    (hh : t.player.h = s.player.h) : hitsPlayer t = hitsPlayer s := by
  funext cx cy cr
  simp [hitsPlayer, hx, hy, hw, hh]

theorem hitsPlayer_foldr_powerupStep (env : Env) (dt : ℚ) (b : State) (l : List Powerup) :
    hitsPlayer (l.foldr (powerupStep env dt) b) = hitsPlayer b := by
  induction l with
  | nil => rfl
  | cons p l ih =>
    rw [List.foldr_cons, ← ih]
    exact hitsPlayer_congr _ _ (by simp) (by simp) (by simp) (by simp)

/-- With no powerup picked up, the powerup loop leaves the player and the
pending timers as they are. -/
theorem foldr_powerupStep_no_pickup (env : Env) (dt : ℚ) (b : State) (l : List Powerup)
    (h : (l.map (movePowerup dt)).filter (fun p => hitsPlayer b p.x p.y 20) = []) :
    (l.foldr (powerupStep env dt) b).player = b.player := by
  induction l with
  | nil => rfl
  | cons p l ih =>
    rw [List.map_cons, List.filter_cons] at h
    by_cases h1 : hitsPlayer b (movePowerup dt p).x (movePowerup dt p).y 20 = true
    · simp [h1] at h
    · simp only [h1, Bool.false_eq_true, if_false] at h
      rw [List.foldr_cons, powerupStep, hitsPlayer_foldr_powerupStep]
      simp only [h1, Bool.false_eq_true, if_false]
      split_ifs
      · exact ih h
      · exact ih h

theorem updatePowerups_no_pickup (env : Env) (dt : ℚ) (s : State)
    (h : pickedPowerups dt s = []) : (updatePowerups env dt s).player = s.player :=
  foldr_powerupStep_no_pickup env dt { s with powerups := [] } s.powerups h

theorem afterEnemies_no_pickup (env : Env) (d dt : ℚ) (s : State)
    (h : pickedPowerups dt s = []) : (afterEnemies env d dt s).player = s.player := by
  have h1 := updatePowerups_no_pickup env dt s h
  have h2 : (bossLogic env dt (updatePowerups env dt s)).player = s.player := by
    rw [bossLogic_player, h1]
  unfold afterEnemies applyScreenShake
  split_ifs <;> exact h2

/-- C4. In a playing tick that starts with the shield active and in which
`k ≥ 1` enemies overlap the hitbox, the enemy loop deflects exactly one of them
(the shield goes off, its cooldown goes on, one cooldown-clearing timer is
set and no life is lost for it), takes one life for each of the other `k - 1`,
and removes all `k` from the enemy list, which keeps the moved enemies that
neither collided nor fell off.  The flags and the lives are still so at the
end of the tick when no powerup is picked up in it. -/
theorem shield_absorbs_one_collision (env : Env) (ts : ℚ) (hands : List Hand) (s : State)
    (hrun : s.running = true) (hplay : s.playing = true)
    (hshield : s.player.shieldActive = true)
    (hk : 1 ≤ (collidingEnemies env ts ((ts - s.lastTS) * s.slowFactor)
      (loopEntry env ts hands s)).length) :
    mainLoop env ts hands s
      = afterEnemies env (ts - s.lastTS) ((ts - s.lastTS) * s.slowFactor)
          (loopExit env ts hands s)
    ∧ (loopExit env ts hands s).player.shieldActive = false
    ∧ (loopExit env ts hands s).player.shieldCooldown = true
    ∧ (loopExit env ts hands s).timers
        = (loopEntry env ts hands s).timers ++ [⟨3000, Callback.shieldReady⟩]
    ∧ (loopExit env ts hands s).player.lives = s.player.lives
        - (((collidingEnemies env ts ((ts - s.lastTS) * s.slowFactor)
            (loopEntry env ts hands s)).length : ℤ) - 1)
    ∧ (loopExit env ts hands s).enemies
        = survivingEnemies env ts ((ts - s.lastTS) * s.slowFactor) (loopEntry env ts hands s)
    ∧ (∀ e ∈ collidingEnemies env ts ((ts - s.lastTS) * s.slowFactor)
          (loopEntry env ts hands s), e ∉ (loopExit env ts hands s).enemies)
    ∧ (pickedPowerups ((ts - s.lastTS) * s.slowFactor) (loopExit env ts hands s) = [] →
        (mainLoop env ts hands s).player.shieldActive = false
        ∧ (mainLoop env ts hands s).player.shieldCooldown = true
        ∧ (mainLoop env ts hands s).player.lives = s.player.lives
          - (((collidingEnemies env ts ((ts - s.lastTS) * s.slowFactor)
              (loopEntry env ts hands s)).length : ℤ) - 1)) := by
  have hmain := mainLoop_playing env ts hands s hrun hplay
  have hact : (loopEntry env ts hands s).player.shieldActive = true :=
    beforeEnemies_keeps_active env _ hands _ hshield
  have hlives : (loopEntry env ts hands s).player.lives = s.player.lives := by
    simp [loopEntry]
  obtain ⟨-, hloop⟩ := foldr_enemyStep_shielded env ts ((ts - s.lastTS) * s.slowFactor)
    { loopEntry env ts hands s with enemies := [] } hact (loopEntry env ts hands s).enemies
  obtain ⟨a1, a2, a3, a4⟩ := hloop hk
  have henem : (loopExit env ts hands s).enemies
      = survivingEnemies env ts ((ts - s.lastTS) * s.slowFactor) (loopEntry env ts hands s) := by
    have h0 := foldr_enemyStep_enemies env ts ((ts - s.lastTS) * s.slowFactor)
      { loopEntry env ts hands s with enemies := [] } (loopEntry env ts hands s).enemies
    rw [List.append_nil] at h0
    exact h0
  have a3b : (loopExit env ts hands s).player.lives = s.player.lives
      - (((collidingEnemies env ts ((ts - s.lastTS) * s.slowFactor)
          (loopEntry env ts hands s)).length : ℤ) - 1) := by
    rw [← hlives]; exact a3
  refine ⟨hmain, a1, a2, a4, a3b, henem, ?_, fun hp => ?_⟩
  · intro e he hmem
    rw [henem] at hmem
    have hmem2 := hmem
    simp only [collidingEnemies, survivingEnemies, List.mem_filter] at he hmem2
    simp [he.2] at hmem2
  · have hpl := afterEnemies_no_pickup env (ts - s.lastTS) _ _ hp
    rw [hmain, hpl]
    exact ⟨a1, a2, a3b⟩

/-- Witness for C4: the frame at 16 ms from `shieldedState`, in which two enemies
overlap the hitbox: one is deflected, one life is lost, both leave the list. -/
theorem shield_absorbs_one_collision_witness :
    (collidingEnemies sampleEnv 16 ((16 - shieldedState.lastTS) * shieldedState.slowFactor)
      (loopEntry sampleEnv 16 [] shieldedState)).length = 2
    ∧ (loopExit sampleEnv 16 [] shieldedState).player.shieldActive = false
    ∧ (loopExit sampleEnv 16 [] shieldedState).player.shieldCooldown = true
    ∧ (loopExit sampleEnv 16 [] shieldedState).player.lives
        = shieldedState.player.lives
          - (((collidingEnemies sampleEnv 16
              ((16 - shieldedState.lastTS) * shieldedState.slowFactor)
              (loopEntry sampleEnv 16 [] shieldedState)).length : ℤ) - 1) :=
  have h := shield_absorbs_one_collision sampleEnv 16 [] shieldedState
    (by decide!) (by decide!) (by decide!) (by decide!)
  ⟨by decide!, h.2.1, h.2.2.1, h.2.2.2.2.1⟩

/-! ### C5: game over stops the simulation, not the loop -/

theorem onEnemyCollision_playing_false (env : Env) (s : State) (h : s.playing = false) :
    (onEnemyCollision env s).playing = false := by
  unfold onEnemyCollision
  dsimp only
  split_ifs <;> simp [h]

theorem enemyStep_playing_false (env : Env) (ts dt : ℚ) (e : Enemy) (s : State)
    (h : s.playing = false) : (enemyStep env ts dt e s).playing = false := by
  unfold enemyStep
  dsimp only
  split_ifs
  · exact onEnemyCollision_playing_false env s h
  · exact h
  · exact h

theorem foldr_enemyStep_playing_false (env : Env) (ts dt : ℚ) (b : State) (l : List Enemy)
    (h : b.playing = false) : (l.foldr (enemyStep env ts dt) b).playing = false := by
  induction l with
  | nil => exact h
  | cons e l ih => exact enemyStep_playing_false env ts dt e _ ih

/-- The collision that takes the last life clears `playing`. -/
theorem onEnemyCollision_last_life (env : Env) (s : State)
    (hsh : s.player.shieldActive = false) (hl : s.player.lives = 1) :
    (onEnemyCollision env s).playing = false
    ∧ (onEnemyCollision env s).player.lives = 0 := by
  unfold onEnemyCollision
  simp [hsh, hl]

/-- A frame taken while `playing` is false changes `lastTS` and `running` only. -/
theorem mainLoop_not_playing (env : Env) (ts : ℚ) (hands : List Hand) (s : State)
    (h : s.playing = false) :
    mainLoop env ts hands s = { s with lastTS := ts, running := true } := by
  unfold mainLoop
  dsimp only
  cases hr : s.running <;> simp [h]

theorem frames_not_playing (env : Env) (t : State) (ht : t.playing = false)
    (frames : List (ℚ × List Hand)) :
    (frames.foldl (fun st f => mainLoop env f.1 f.2 st) t).playing = false
    ∧ (frames.foldl (fun st f => mainLoop env f.1 f.2 st) t).player = t.player
    ∧ (frames.foldl (fun st f => mainLoop env f.1 f.2 st) t).score = t.score
    ∧ (frames.foldl (fun st f => mainLoop env f.1 f.2 st) t).elapsedMs = t.elapsedMs
    ∧ (frames.foldl (fun st f => mainLoop env f.1 f.2 st) t).difficultyTimer
        = t.difficultyTimer
    ∧ (frames.foldl (fun st f => mainLoop env f.1 f.2 st) t).enemies = t.enemies
    ∧ (frames.foldl (fun st f => mainLoop env f.1 f.2 st) t).powerups = t.powerups
    ∧ (frames.foldl (fun st f => mainLoop env f.1 f.2 st) t).particles = t.particles
    ∧ (frames.foldl (fun st f => mainLoop env f.1 f.2 st) t).boss = t.boss
    ∧ (frames.foldl (fun st f => mainLoop env f.1 f.2 st) t).inBoss = t.inBoss := by
  induction frames generalizing t with
  | nil => simp [ht]
  | cons f fs ih =>
    rw [List.foldl_cons, mainLoop_not_playing env f.1 f.2 t ht]
    exact ih { t with lastTS := f.1, running := true } ht

/-- C5. When a collision of the enemy loop takes the last life (the enemy `e`
overlaps the hitbox at its turn, the shield is off and one life is left, so
`lives` becomes 0), `playing` is false at the end of that tick.  And from any
state with `playing` false, frames with any timestamps and any hands leave
`playing` false and change nothing of the simulation: the player (position,
target, lives, cooldowns), the score, `elapsedMs`, `difficultyTimer`, the enemy,
powerup and particle lists and the boss stay as they are. -/
theorem game_over_halts_simulation (env : Env) (ts : ℚ) (hands : List Hand) (s : State)
    (front back : List Enemy) (e : Enemy)
    (hrun : s.running = true) (hplay : s.playing = true)
    (hsplit : (loopEntry env ts hands s).enemies = front ++ e :: back)
    (hcol : hitsPlayer (loopEntry env ts hands s)
      (moveEnemy env ts ((ts - s.lastTS) * s.slowFactor) e).x
      (moveEnemy env ts ((ts - s.lastTS) * s.slowFactor) e).y
      (moveEnemy env ts ((ts - s.lastTS) * s.slowFactor) e).r = true)
    (hsh : (enemyLoopAfter env ts ((ts - s.lastTS) * s.slowFactor)
      (loopEntry env ts hands s) back).player.shieldActive = false)
    (hl : (enemyLoopAfter env ts ((ts - s.lastTS) * s.slowFactor)
      (loopEntry env ts hands s) back).player.lives = 1) :
    (mainLoop env ts hands s).playing = false
    ∧ ∀ (t : State), t.playing = false → ∀ (frames : List (ℚ × List Hand)),
        (frames.foldl (fun st f => mainLoop env f.1 f.2 st) t).playing = false
        ∧ (frames.foldl (fun st f => mainLoop env f.1 f.2 st) t).player = t.player
        ∧ (frames.foldl (fun st f => mainLoop env f.1 f.2 st) t).score = t.score
        ∧ (frames.foldl (fun st f => mainLoop env f.1 f.2 st) t).elapsedMs = t.elapsedMs
        ∧ (frames.foldl (fun st f => mainLoop env f.1 f.2 st) t).difficultyTimer
            = t.difficultyTimer
        ∧ (frames.foldl (fun st f => mainLoop env f.1 f.2 st) t).enemies = t.enemies
        ∧ (frames.foldl (fun st f => mainLoop env f.1 f.2 st) t).powerups = t.powerups
        ∧ (frames.foldl (fun st f => mainLoop env f.1 f.2 st) t).particles = t.particles
        ∧ (frames.foldl (fun st f => mainLoop env f.1 f.2 st) t).boss = t.boss
        ∧ (frames.foldl (fun st f => mainLoop env f.1 f.2 st) t).inBoss = t.inBoss := by
  refine ⟨?_, fun t ht frames => frames_not_playing env t ht frames⟩
  rw [mainLoop_playing env ts hands s hrun hplay, afterEnemies_playing]
  unfold loopExit updateEnemies
  rw [hsplit, List.foldr_append, List.foldr_cons]
  apply foldr_enemyStep_playing_false
  rw [enemyStep, hitsPlayer_foldr_enemyStep]
  have hc : hitsPlayer { loopEntry env ts hands s with enemies := [] }
      (moveEnemy env ts ((ts - s.lastTS) * s.slowFactor) e).x
      (moveEnemy env ts ((ts - s.lastTS) * s.slowFactor) e).y
      (moveEnemy env ts ((ts - s.lastTS) * s.slowFactor) e).r = true := hcol
  simp only [hc, if_true]
  exact (onEnemyCollision_last_life env _ hsh hl).1

/-- Witness for C5: the frame at 16 ms from `lastLifeState`, in which the enemy
over the hitbox takes the last life. -/
theorem game_over_halts_simulation_witness :
    (mainLoop sampleEnv 16 [] lastLifeState).playing = false
    ∧ (mainLoop sampleEnv 16 [] lastLifeState).player.lives = 0
    ∧ (mainLoop sampleEnv 40 [] (mainLoop sampleEnv 16 [] lastLifeState)).player
        = (mainLoop sampleEnv 16 [] lastLifeState).player :=
  have h := game_over_halts_simulation sampleEnv 16 [] lastLifeState
    [enemyAt 100 100] [] (enemyAt 400 400)
    (by decide!) (by decide!) (by decide!) (by decide!) (by decide!) (by decide!)
  ⟨h.1, by decide!, (h.2 _ h.1 [(40, [])]).2.1⟩

/-! ### C8: the boss phase follows the hp thresholds -/

/-- The boss after `bossTakeDamage(d)`. -/
theorem bossTakeDamage_boss_eq (env : Env) (d : ℚ) (s : State) (b : Boss)
    (hb : s.boss = some b) :
    (bossTakeDamage env d s).boss = some
      (if b.hp - d ≤ 0 then { b with hp := b.hp - d, state := BossState.dead }
       else if b.hp - d < b.maxHp * 0.1 then { b with hp := b.hp - d, phase := 3 }
       else if b.hp - d < b.maxHp * 0.5 then { b with hp := b.hp - d, phase := 2 }
       else { b with hp := b.hp - d }) := by
  unfold bossTakeDamage
  rw [hb]
  dsimp only
  split_ifs <;> simp [spawnParticles, setTimeout, applySlowMotion]

/-- The invariant of a run of hits on a boss made by `startBoss`. -/
theorem foldl_bossTakeDamage_inv (env : Env) (s : State) (ds : List ℚ)
    (hpos : ∀ d ∈ ds, 0 < d) :
    ∃ b : Boss, (ds.foldl (fun st d => bossTakeDamage env d st) (startBoss env s)).boss = some b
      ∧ b.maxHp = 200 ∧ b.hp = 200 - ds.sum
      ∧ (0 < b.hp → b.phase
          = if b.hp ≥ b.maxHp * 0.5 then 1 else if b.hp ≥ b.maxHp * 0.1 then 2 else 3) := by
  induction ds using List.reverseRecOn with
  | nil =>
    refine ⟨_, rfl, rfl, by simp, fun _ => ?_⟩
    norm_num
  | append_singleton l d ih =>
    obtain ⟨b, hb, hmax, hhp, hph⟩ := ih (fun x hx => hpos x (by simp [hx]))
    have hd : 0 < d := hpos d (by simp)
    have hsum : (200 : ℚ) - (l ++ [d]).sum = b.hp - d := by
      rw [hhp]; simp; ring
    rw [List.foldl_append, List.foldl_cons, List.foldl_nil,
      bossTakeDamage_boss_eq env d _ b hb, hsum]
    by_cases h1 : b.hp - d ≤ 0
    · rw [if_pos h1]
      exact ⟨_, rfl, hmax, rfl, fun hlt => absurd hlt (not_lt.mpr h1)⟩
    · rw [if_neg h1]
      by_cases h2 : b.hp - d < b.maxHp * 0.1
      · rw [if_pos h2]
        refine ⟨_, rfl, hmax, rfl, fun _ => ?_⟩
        have h2b : ¬ (b.hp - d ≥ b.maxHp * 0.1) := not_le.mpr h2
        have h2c : ¬ (b.hp - d ≥ b.maxHp * 0.5) := by
          rw [hmax] at h2 ⊢; norm_num at h2 ⊢; linarith
        simp only [h2b, h2c, if_false]
      · rw [if_neg h2]
        by_cases h3 : b.hp - d < b.maxHp * 0.5
        · rw [if_pos h3]
          refine ⟨_, rfl, hmax, rfl, fun _ => ?_⟩
          have h3b : ¬ (b.hp - d ≥ b.maxHp * 0.5) := not_le.mpr h3
          have h3c : b.hp - d ≥ b.maxHp * 0.1 := not_lt.mp h2
          simp only [h3b, h3c, if_false, if_true]
        · rw [if_neg h3]
          refine ⟨_, rfl, hmax, rfl, fun _ => ?_⟩
          have h4 : b.hp - d ≥ b.maxHp * 0.5 := not_lt.mp h3
          have hold : 0 < b.hp := by linarith
          have h5 : b.hp ≥ b.maxHp * 0.5 := by linarith
          have hp1 := hph hold
          rw [if_pos h5] at hp1
          simp only [h4, if_true]
          exact hp1

/-- C8. For a boss made by `startBoss` (hp = maxHp = 200, phase 1) and any run
of `bossTakeDamage` calls with positive damage, the boss is still there with
hp = 200 minus the damage dealt, and while hp is above 0 its phase is 1 for
hp at least 50% of maxHp, 2 for hp from 10% up to 50%, and 3 below 10%; so one
more hit that leaves hp above 0 never lowers the phase. -/
theorem boss_phase_follows_hp (env : Env) (s : State) (ds : List ℚ)
    (hpos : ∀ d ∈ ds, 0 < d) :
    ∃ b : Boss, (ds.foldl (fun st d => bossTakeDamage env d st) (startBoss env s)).boss = some b
      ∧ b.maxHp = 200 ∧ b.hp = 200 - ds.sum
      ∧ (0 < b.hp → b.phase
          = if b.hp ≥ b.maxHp * 0.5 then 1 else if b.hp ≥ b.maxHp * 0.1 then 2 else 3)
      ∧ ∀ d : ℚ, 0 < d → ∃ b2 : Boss,
          (bossTakeDamage env d
            (ds.foldl (fun st d => bossTakeDamage env d st) (startBoss env s))).boss = some b2
          ∧ (0 < b2.hp → b.phase ≤ b2.phase) := by
  obtain ⟨b, hb, hmax, hhp, hph⟩ := foldl_bossTakeDamage_inv env s ds hpos
  refine ⟨b, hb, hmax, hhp, hph, fun d hd => ?_⟩
  obtain ⟨b2, hb2, hmax2, hhp2, hph2⟩ := foldl_bossTakeDamage_inv env s (ds ++ [d])
    (fun x hx => by
      rcases List.mem_append.mp hx with h | h
      · exact hpos x h
      · rw [List.mem_singleton.mp h]; exact hd)
  rw [List.foldl_append, List.foldl_cons, List.foldl_nil] at hb2
  refine ⟨b2, hb2, fun h2 => ?_⟩
  have hlt : b2.hp < b.hp := by
    rw [hhp2, hhp]; simp; linarith
  have hold : 0 < b.hp := by linarith
  rw [hph hold, hph2 h2, hmax, hmax2]
  norm_num
  split_ifs <;> first | omega | (exfalso; linarith)

/-- Witness for C8: hits of 80, 40 and 70 take hp to 120, 80 and 10, fractions
0.6, 0.4 and 0.05 of maxHp, and the phase to 1, 2 and 3. -/
theorem boss_phase_follows_hp_witness :
    (∀ d ∈ [(80 : ℚ), 40, 70], 0 < d)
    ∧ (([(80 : ℚ)].foldl (fun st d => bossTakeDamage sampleEnv d st)
        (startBoss sampleEnv sessionState)).boss.map (fun b => (b.hp, b.phase)))
        = some (120, 1)
    ∧ (([(80 : ℚ), 40].foldl (fun st d => bossTakeDamage sampleEnv d st)
        (startBoss sampleEnv sessionState)).boss.map (fun b => (b.hp, b.phase)))
        = some (80, 2)
    ∧ (([(80 : ℚ), 40, 70].foldl (fun st d => bossTakeDamage sampleEnv d st)
        (startBoss sampleEnv sessionState)).boss.map (fun b => (b.hp, b.phase)))
        = some (10, 3)
    ∧ ∃ b : Boss, ([(80 : ℚ), 40, 70].foldl (fun st d => bossTakeDamage sampleEnv d st)
        (startBoss sampleEnv sessionState)).boss = some b ∧ b.hp = 200 - [(80 : ℚ), 40, 70].sum :=
  have h := boss_phase_follows_hp sampleEnv sessionState [80, 40, 70] (by decide!)
  ⟨by decide!, by decide!, by decide!, by decide!,
    h.elim fun b hb => ⟨b, hb.1, hb.2.2.1⟩⟩

/-! ### What a playing tick does to the cooldowns, the hold timer and the boss hp -/

theorem loopEntry_eq (env : Env) (ts : ℚ) (hands : List Hand) (s : State) :
    loopEntry env ts hands s
      = spawnStep env (ts - s.lastTS) (animate (ts - s.lastTS) (tickCooldowns (ts - s.lastTS)
          (specialRelease env (releaseEntry env ts hands s)))) := rfl

theorem bossIsActive_congr {s t : State} (h : t.boss = s.boss) :
    bossIsActive t = bossIsActive s := by
  unfold bossIsActive
  rw [h]

theorem fistReady_congr (env : Env) (hand : Hand) {s t : State} (h1 : t.inBoss = s.inBoss)
    (h2 : t.boss = s.boss) (h3 : t.player.fistCooldown = s.player.fistCooldown) :
    fistReady env hand t = fistReady env hand s := by
  unfold fistReady
  rw [h1, h3, bossIsActive_congr h2]

/-- The hp of the boss after `bossTakeDamage(d)`. -/
theorem bossTakeDamage_hp (env : Env) (d : ℚ) (s : State) :
    (bossTakeDamage env d s).boss.map Boss.hp = s.boss.map (fun b => b.hp - d) := by
  cases hb : s.boss with
  | none => simp [bossTakeDamage, hb]
  | some b =>
    rw [bossTakeDamage_boss_eq env d s b hb]
    simp only [Option.map_some']
    split_ifs <;> rfl

theorem bossLogic_hp (env : Env) (dt : ℚ) (s : State) :
    (bossLogic env dt s).boss.map Boss.hp = s.boss.map Boss.hp := by
  unfold bossLogic
  split
  · rfl
  · rename_i b hb
    split
    · dsimp only
      simp only [spawnParticles_boss, Option.map_some', hb]
      split_ifs <;> rfl
    · dsimp only
      split_ifs <;> simp [hb]
    · rfl

theorem afterEnemies_hp (env : Env) (d dt : ℚ) (s : State) :
    (afterEnemies env d dt s).boss.map Boss.hp = s.boss.map Boss.hp := by
  unfold afterEnemies
  rw [applyScreenShake_boss, addScore_boss, updateParticles_boss, bossLogic_hp,
    updatePowerups_boss]

/-- The gesture block: whether the fist branch runs is decided by the state at
the start of the tick. -/
theorem gestureExit_fist (env : Env) (ts : ℚ) (hands : List Hand) (s : State) :
    (gestureExit env ts hands s).player.fistCooldown
        = (if fistFires env hands s then 400 else s.player.fistCooldown)
    ∧ (gestureExit env ts hands s).boss.map Boss.hp
        = s.boss.map (fun b => b.hp - (if fistFires env hands s then 4 else 0))
    ∧ (fistFires env hands s = false → (gestureExit env ts hands s).boss = s.boss) := by
  cases hands with
  | nil =>
    simp [gestureExit, processGestures, fistFires, gestureEntry]
  | cons hand rest =>
    have hr : fistReady env hand (shieldGesture env (hand :: rest)
        (pushWrist (mapWrist env (gestureEntry ts s) (wristToNorm hand)).x
          (mapWrist env (gestureEntry ts s) (wristToNorm hand)).y (gestureEntry ts s)))
        = fistReady env hand s :=
      fistReady_congr env hand (by simp [gestureEntry]) (by simp [gestureEntry])
        (by simp [gestureEntry])
    unfold gestureExit processGestures fistFires
    dsimp only
    unfold fistGesture
    rw [hr]
    cases hf : fistReady env hand s
    · simp [gestureEntry]
    · simp [gestureEntry, bossTakeDamage_hp]

theorem specialReady_iff (s : State) :
    specialReady s = true ↔ s.player.holdTimer > 2000 ∧ s.player.specialCooldown = 0
      ∧ s.inBoss = true ∧ bossIsActive s = true := by
  simp [specialReady, and_assoc]

/-- The special release: the hold timer, the special cooldown and the boss hp
after it. -/
theorem specialRelease_effect (env : Env) (s : State) :
    (specialRelease env s).player.holdTimer
        = (if specialReady s then 0 else s.player.holdTimer)
    ∧ (specialRelease env s).player.specialCooldown
        = (if specialReady s then 6000 else s.player.specialCooldown)
    ∧ (specialRelease env s).boss.map Boss.hp
        = s.boss.map (fun b => b.hp - (if specialReady s then 28 else 0)) := by
  unfold specialRelease
  cases hr : specialReady s
  · simp
  · simp [bossTakeDamage_hp]

/-- The cooldown lines: a cooldown `c` becomes `max 0 (c - dtRaw)`, unless it is 0
and stays so. -/
theorem tickCooldowns_effect (d : ℚ) (s : State) :
    (tickCooldowns d s).player.specialCooldown
        = (if s.player.specialCooldown ≠ 0 then max 0 (s.player.specialCooldown - d)
           else s.player.specialCooldown)
    ∧ (tickCooldowns d s).player.fistCooldown
        = (if s.player.fistCooldown ≠ 0 then max 0 (s.player.fistCooldown - d)
           else s.player.fistCooldown) := ⟨rfl, rfl⟩

/-- For a delta `d ≥ 0` the cooldown lines give `max 0 (c - d)` from a cooldown
`c`, with no case apart. -/
theorem cooldown_step (c d : ℚ) (hd : 0 ≤ d) :
    (if c ≠ 0 then max 0 (c - d) else c) = max 0 (c - d) := by
  split_ifs with h
  · rfl
  · have h0 : c = 0 := not_not.mp h
    rw [h0, max_eq_left (by linarith)]

/-- The fist cooldown at the end of a playing tick. -/
theorem mainLoop_fistCooldown (env : Env) (ts : ℚ) (hands : List Hand) (s : State)
    (hrun : s.running = true) (hplay : s.playing = true) :
    (mainLoop env ts hands s).player.fistCooldown
      = (if (if fistFires env hands s then 400 else s.player.fistCooldown) ≠ 0 then
          max 0 ((if fistFires env hands s then 400 else s.player.fistCooldown)
            - (ts - s.lastTS))
         else (if fistFires env hands s then 400 else s.player.fistCooldown)) := by
  rw [mainLoop_playing env ts hands s hrun hplay, afterEnemies_player_fistCooldown]
  unfold loopExit
  rw [updateEnemies_player_fistCooldown, loopEntry_eq, spawnStep_player_fistCooldown,
    animate_player_fistCooldown, (tickCooldowns_effect _ _).2,
    specialRelease_player_fistCooldown]
  unfold releaseEntry
  rw [smoothMovement_player_fistCooldown, applySmoothedWrist_player_fistCooldown,
    (gestureExit_fist env ts hands s).1]

/-- The special cooldown at the end of a playing tick. -/
theorem mainLoop_specialCooldown (env : Env) (ts : ℚ) (hands : List Hand) (s : State)
    (hrun : s.running = true) (hplay : s.playing = true) :
    (mainLoop env ts hands s).player.specialCooldown
      = (if (if specialFires env ts hands s then 6000 else s.player.specialCooldown) ≠ 0 then
          max 0 ((if specialFires env ts hands s then 6000 else s.player.specialCooldown)
            - (ts - s.lastTS))
         else (if specialFires env ts hands s then 6000 else s.player.specialCooldown)) := by
  have hsc : (releaseEntry env ts hands s).player.specialCooldown = s.player.specialCooldown := by
    simp [releaseEntry, gestureExit, gestureEntry]
  rw [mainLoop_playing env ts hands s hrun hplay, afterEnemies_player_specialCooldown]
  unfold loopExit
  rw [updateEnemies_player_specialCooldown, loopEntry_eq, spawnStep_player_specialCooldown,
    animate_player_specialCooldown, (tickCooldowns_effect _ _).1,
    (specialRelease_effect env _).2.1, hsc]
  rfl

/-- The hold timer at the end of a playing tick. -/
theorem mainLoop_holdTimer (env : Env) (ts : ℚ) (hands : List Hand) (s : State)
    (hrun : s.running = true) (hplay : s.playing = true) :
    (mainLoop env ts hands s).player.holdTimer
      = (if specialFires env ts hands s then 0
         else (releaseEntry env ts hands s).player.holdTimer) := by
  rw [mainLoop_playing env ts hands s hrun hplay, afterEnemies_player_holdTimer]
  unfold loopExit
  rw [updateEnemies_player_holdTimer, loopEntry_eq, spawnStep_player_holdTimer,
    animate_player_holdTimer, tickCooldowns_player_holdTimer,
    (specialRelease_effect env _).1]
  rfl

/-- The boss hp at the end of a playing tick: 4 less for a fist hit, 28 less for
a special release. -/
theorem mainLoop_hp (env : Env) (ts : ℚ) (hands : List Hand) (s : State)
    (hrun : s.running = true) (hplay : s.playing = true) :
    (mainLoop env ts hands s).boss.map Boss.hp
      = s.boss.map (fun b => b.hp - (if fistFires env hands s then 4 else 0)
          - (if specialFires env ts hands s then 28 else 0)) := by
  have hb : (releaseEntry env ts hands s).boss = (gestureExit env ts hands s).boss := by
    simp [releaseEntry]
  rw [mainLoop_playing env ts hands s hrun hplay, afterEnemies_hp]
  unfold loopExit
  rw [updateEnemies_boss, loopEntry_eq, spawnStep_boss, animate_boss, tickCooldowns_boss,
    (specialRelease_effect env _).2.2, hb]
  have h2 := (gestureExit_fist env ts hands s).2.1
  cases hs : s.boss with
  | none =>
    rw [hs] at h2
    simp only [Option.map_none', Option.map_eq_none'] at h2 ⊢
    exact h2
  | some b =>
    rw [hs] at h2
    simp only [Option.map_some', Option.map_eq_some'] at h2 ⊢
    obtain ⟨b1, hb1, hb1hp⟩ := h2
    exact ⟨b1, hb1, by rw [hb1hp]; rfl⟩

/-! ### C6: the fist hit and its cooldown -/

/-- One frame keeps the fist cooldown above what is left of 400 ms, counted
from the instant `t0`. -/
theorem mainLoop_fistCooldown_lower (env : Env) (t0 ts : ℚ) (hands : List Hand) (s : State)
    (h0 : t0 ≤ s.lastTS) (hts : s.lastTS ≤ ts)
    (hinv : 400 - (s.lastTS - t0) ≤ s.player.fistCooldown) :
    (mainLoop env ts hands s).lastTS = ts
    ∧ 400 - (ts - t0) ≤ (mainLoop env ts hands s).player.fistCooldown := by
  by_cases hrun : s.running = true
  · by_cases hplay : s.playing = true
    · constructor
      · rw [mainLoop_playing env ts hands s hrun hplay, afterEnemies_lastTS]
        unfold loopExit loopEntry
        rw [updateEnemies_lastTS, beforeEnemies_lastTS]
      · rw [mainLoop_fistCooldown env ts hands s hrun hplay]
        cases hf : fistFires env hands s
        · simp only [Bool.false_eq_true, if_false]
          split_ifs with hc
          · exact le_trans (by linarith) (le_max_right _ _)
          · have : s.player.fistCooldown = 0 := not_not.mp hc
            linarith
        · simp only [if_true]
          rw [if_pos (by norm_num)]
          exact le_trans (by linarith) (le_max_right _ _)
    · have hp : s.playing = false := by simpa using hplay
      rw [mainLoop_not_playing env ts hands s hp]
      exact ⟨rfl, by simp only; linarith⟩
  · have hr : s.running = false := by simpa using hrun
    unfold mainLoop
    simp only [hr]
    exact ⟨rfl, by simp only [Bool.not_false, if_true]; linarith⟩

/-- Over a run of frames with non-decreasing timestamps the fist cooldown stays
above what is left of 400 ms, counted from the instant `t0`. -/
theorem frames_fistCooldown_lower (env : Env) (t0 : ℚ) (frames : List (ℚ × List Hand))
    (s : State) (h0 : t0 ≤ s.lastTS)
    (hch : List.Chain (fun a b => a ≤ b) s.lastTS (frames.map Prod.fst))
    (hinv : 400 - (s.lastTS - t0) ≤ s.player.fistCooldown) :
    400 - ((frames.foldl (fun st f => mainLoop env f.1 f.2 st) s).lastTS - t0)
      ≤ (frames.foldl (fun st f => mainLoop env f.1 f.2 st) s).player.fistCooldown := by
  induction frames generalizing s with
  | nil => exact hinv
  | cons f fs ih =>
    rw [List.map_cons, List.chain_cons] at hch
    obtain ⟨h1, h2⟩ := mainLoop_fistCooldown_lower env t0 f.1 f.2 s h0 hch.1 hinv
    rw [List.foldl_cons]
    apply ih
    · rw [h1]; linarith [hch.1]
    · rw [h1]; exact hch.2
    · rw [h1]; exact h2

/-- C6 (counterexample). From `bossFightState` (boss active, hp 100, fist
cooldown 0) a frame that comes 400 ms after the one before it sees a fist and
takes hp to 96; its own cooldown line already brings the cooldown back to 0,
and the next frame, 16 ms after the hit, sees the fist again and takes hp to
92. -/
theorem second_fist_hit_after_16_ms :
    bossFightState.lastTS = 0
    ∧ (mainLoop sampleEnv 400 [sampleHand] bossFightState).boss.map Boss.hp = some 96
    ∧ (mainLoop sampleEnv 400 [sampleHand] bossFightState).player.fistCooldown = 0
    ∧ (mainLoop sampleEnv 416 [sampleHand]
        (mainLoop sampleEnv 400 [sampleHand] bossFightState)).boss.map Boss.hp = some 92 := by
  decide!

/-- C6 (amended). With the boss active and the fist cooldown at 0, a playing
tick whose first hand is a fist runs the fist branch: the gesture block takes
exactly 4 off the boss hp and sets the cooldown to 400.  The cooldown line of
the same tick lowers it to `max 0 (400 - dtRaw)`, and the hp at the end of the
tick is 4 lower, or 32 lower when the special attack is released in the same
tick.  In the frames that follow, with non-decreasing timestamps, the cooldown
is positive, and a fist gesture deals no damage, as long as less than 400 ms
lie between the frame before the hit and the last frame taken. -/
theorem fist_hit_and_cooldown (env : Env) (ts : ℚ) (hand : Hand) (rest : List Hand)
    (s : State) (b : Boss)
    (hrun : s.running = true) (hplay : s.playing = true) (hin : s.inBoss = true)
    (hb : s.boss = some b) (hact : b.state = BossState.active)
    (hfc : s.player.fistCooldown = 0) (hfist : detectFist env hand = true)
    (hts : s.lastTS ≤ ts) :
    (gestureExit env ts (hand :: rest) s).boss.map Boss.hp = some (b.hp - 4)
    ∧ (gestureExit env ts (hand :: rest) s).player.fistCooldown = 400
    ∧ (mainLoop env ts (hand :: rest) s).player.fistCooldown = max 0 (400 - (ts - s.lastTS))
    ∧ (mainLoop env ts (hand :: rest) s).boss.map Boss.hp
        = some (b.hp - 4 - (if specialFires env ts (hand :: rest) s then 28 else 0))
    ∧ ∀ frames : List (ℚ × List Hand),
        List.Chain (fun a c => a ≤ c) ts (frames.map Prod.fst) →
        (runFrames env frames (mainLoop env ts (hand :: rest) s)).lastTS - s.lastTS < 400 →
        0 < (runFrames env frames (mainLoop env ts (hand :: rest) s)).player.fistCooldown
        ∧ ∀ (ts2 : ℚ) (hands2 : List Hand),
            fistFires env hands2 (runFrames env frames (mainLoop env ts (hand :: rest) s)) = false
            ∧ (gestureExit env ts2 hands2
                (runFrames env frames (mainLoop env ts (hand :: rest) s))).boss
              = (runFrames env frames (mainLoop env ts (hand :: rest) s)).boss := by
  have hfire : fistFires env (hand :: rest) s = true := by
    simp [fistFires, fistReady, hfist, hin, bossIsActive, hb, hact, hfc]
  have hg := gestureExit_fist env ts (hand :: rest) s
  have hfcool := mainLoop_fistCooldown env ts (hand :: rest) s hrun hplay
  have hhp := mainLoop_hp env ts (hand :: rest) s hrun hplay
  rw [hfire] at hg hfcool hhp
  simp only [if_true, hb, Option.map_some'] at hg hhp
  rw [if_pos (by norm_num)] at hfcool
  refine ⟨hg.2.1, hg.1, hfcool, hhp, fun frames hch hlt => ?_⟩
  have hlast : (mainLoop env ts (hand :: rest) s).lastTS = ts := by
    rw [mainLoop_playing env ts _ s hrun hplay, afterEnemies_lastTS]
    unfold loopExit loopEntry
    rw [updateEnemies_lastTS, beforeEnemies_lastTS]
  have hinv := frames_fistCooldown_lower env s.lastTS frames (mainLoop env ts (hand :: rest) s)
    (by rw [hlast]; exact hts) (by rw [hlast]; exact hch)
    (by rw [hlast, hfcool]; exact le_max_right _ _)
  have hpos : 0 < (runFrames env frames (mainLoop env ts (hand :: rest) s)).player.fistCooldown := by
    unfold runFrames at hlt ⊢
    linarith
  refine ⟨hpos, fun ts2 hands2 => ?_⟩
  have hno : fistFires env hands2 (runFrames env frames (mainLoop env ts (hand :: rest) s))
      = false := by
    cases hands2 with
    | nil => rfl
    | cons h2 r2 =>
      have h1 : ¬ (runFrames env frames (mainLoop env ts (hand :: rest) s)).player.fistCooldown
          = 0 := ne_of_gt hpos
      have h2 : ¬ (runFrames env frames (mainLoop env ts (hand :: rest) s)).player.fistCooldown
          ≤ 0 := not_le.mpr hpos
      simp [fistFires, fistReady, h1, h2]
  exact ⟨hno, (gestureExit_fist env ts2 hands2 _).2.2 hno⟩

/-- Witness for C6 (amended): from `bossFightState` a frame 16 ms after the one
before it sees a fist; the next frame is 16 ms later. -/
theorem fist_hit_and_cooldown_witness :
    (mainLoop sampleEnv 16 [sampleHand] bossFightState).boss.map Boss.hp = some 96
    ∧ (mainLoop sampleEnv 16 [sampleHand] bossFightState).player.fistCooldown = 384
    ∧ (mainLoop sampleEnv 16 [sampleHand] bossFightState).player.fistCooldown
        = max 0 (400 - (16 - bossFightState.lastTS))
    ∧ 0 < (runFrames sampleEnv [(32, [sampleHand])]
        (mainLoop sampleEnv 16 [sampleHand] bossFightState)).player.fistCooldown
    ∧ (runFrames sampleEnv [(32, [sampleHand]), (48, [sampleHand])]
        (mainLoop sampleEnv 16 [sampleHand] bossFightState)).boss.map Boss.hp = some 96 :=
  have h := fist_hit_and_cooldown sampleEnv 16 sampleHand [] bossFightState (bossWith 100 1)
    (by decide!) (by decide!) (by decide!) (by decide!) (by decide!) (by decide!)
    (by decide!) (by decide!)
  ⟨by decide!, by decide!, h.2.2.1,
    (h.2.2.2.2 [(32, [sampleHand])] (by norm_num) (by decide!)).1, by decide!⟩

/-! ### C7: the special attack -/

/-- C7 (counterexample). From `holdState` (boss active, hp 50, special cooldown
0, hand held high for 1990 ms) a frame 16 ms later with the hand still high
releases the special attack: hp becomes 22 and the hold timer 0, and the
special cooldown, set to 6000, is 5984 at the end of the tick. -/
theorem special_cooldown_after_release_tick :
    holdState.lastTS = 0
    ∧ specialFires sampleEnv 16 [raisedHand] holdState = true
    ∧ (mainLoop sampleEnv 16 [raisedHand] holdState).boss.map Boss.hp = some 22
    ∧ (mainLoop sampleEnv 16 [raisedHand] holdState).player.holdTimer = 0
    ∧ (mainLoop sampleEnv 16 [raisedHand] holdState).player.specialCooldown = 5984 := by
  decide!

/-- C7 (amended). In a playing tick with the boss active, no special cooldown
pending, no fist hit, and the hold timer above 2000 once the smoothed wrist of
this tick is applied, the special attack is released: at the end of the tick
the boss hp is exactly 28 lower, the hold timer is 0, and the special
cooldown, set to 6000 at the release, stands at `max 0 (6000 - dtRaw)` after the
cooldown line of the same tick. -/
theorem special_release (env : Env) (ts : ℚ) (hands : List Hand) (s : State) (b : Boss)
    (hrun : s.running = true) (hplay : s.playing = true) (hin : s.inBoss = true)
    (hb : s.boss = some b) (hact : b.state = BossState.active)
    (hsc : s.player.specialCooldown = 0)
    (hnofist : fistFires env hands s = false)
    (hhold : (releaseEntry env ts hands s).player.holdTimer > 2000) :
    specialFires env ts hands s = true
    ∧ (mainLoop env ts hands s).boss.map Boss.hp = some (b.hp - 28)
    ∧ (mainLoop env ts hands s).player.specialCooldown = max 0 (6000 - (ts - s.lastTS))
    ∧ (mainLoop env ts hands s).player.holdTimer = 0 := by
  have hboss : (releaseEntry env ts hands s).boss = s.boss := by
    have h1 := (gestureExit_fist env ts hands s).2.2 hnofist
    simpa [releaseEntry] using h1
  have hfire : specialFires env ts hands s = true := by
    unfold specialFires
    rw [specialReady_iff]
    refine ⟨hhold, ?_, ?_, ?_⟩
    · simpa [releaseEntry, gestureExit, gestureEntry] using hsc
    · simpa [releaseEntry, gestureExit, gestureEntry] using hin
    · rw [bossIsActive_congr hboss]
      simp [bossIsActive, hb, hact]
  have h1 := mainLoop_hp env ts hands s hrun hplay
  have h2 := mainLoop_specialCooldown env ts hands s hrun hplay
  have h3 := mainLoop_holdTimer env ts hands s hrun hplay
  rw [hfire] at h1 h2 h3
  rw [hnofist, hb] at h1
  simp only [if_true, Bool.false_eq_true, if_false, Option.map_some', sub_zero] at h1 h3
  rw [if_pos (by simp)] at h2
  exact ⟨hfire, h1, by simpa using h2, h3⟩

/-- Witness for C7 (amended): the tick of the counterexample. -/
theorem special_release_witness :
    (releaseEntry sampleEnv 16 [raisedHand] holdState).player.holdTimer = 2006
    ∧ (mainLoop sampleEnv 16 [raisedHand] holdState).boss.map Boss.hp = some (50 - 28)
    ∧ (mainLoop sampleEnv 16 [raisedHand] holdState).player.specialCooldown
        = max 0 (6000 - (16 - holdState.lastTS))
    ∧ (mainLoop sampleEnv 16 [raisedHand] holdState).player.holdTimer = 0 :=
  have h := special_release sampleEnv 16 [raisedHand] holdState (bossWith 50 2)
    (by decide!) (by decide!) (by decide!) (by decide!) (by decide!) (by decide!)
    (by decide!) (by decide!)
  ⟨by decide!, h.2.1, h.2.2.1, h.2.2.2⟩

/-! ### C9: the boss warning after an encounter

Timers are only ever added by a tick. -/

theorem TimersGrow.refl (s : State) : TimersGrow s s := ⟨[], by simp⟩

theorem TimersGrow.trans {s t u : State} (h1 : TimersGrow s t) (h2 : TimersGrow t u) :
    TimersGrow s u := by
  obtain ⟨l1, e1⟩ := h1
  obtain ⟨l2, e2⟩ := h2
  exact ⟨l1 ++ l2, by rw [e2, e1, List.append_assoc]⟩

theorem TimersGrow.of_eq {s t : State} (h : t.timers = s.timers) : TimersGrow s t :=
  ⟨[], by simp [h]⟩

theorem TimersGrow.mem {s t : State} (h : TimersGrow s t) {x : Timer} (hx : x ∈ s.timers) :
    x ∈ t.timers := by
  obtain ⟨l, e⟩ := h
  rw [e]
  exact List.mem_append_left l hx

theorem timersGrow_setTimeout (cb : Callback) (d : ℚ) (s : State) :
    TimersGrow s (setTimeout cb d s) := ⟨[⟨d, cb⟩], rfl⟩

theorem timersGrow_bossTakeDamage (env : Env) (d : ℚ) (s : State) :
    TimersGrow s (bossTakeDamage env d s) := by
  unfold bossTakeDamage
  split
  · exact TimersGrow.refl s
  · dsimp only
    split_ifs
    · exact ⟨[⟨1500, Callback.slowReset⟩, ⟨1400, Callback.bossEnd⟩], by
        simp [setTimeout, applySlowMotion, spawnParticles]⟩
    · exact TimersGrow.of_eq rfl
    · exact TimersGrow.of_eq rfl
    · exact TimersGrow.of_eq rfl

theorem timersGrow_activateShield (s : State) : TimersGrow s (activateShield s) := by
  unfold activateShield
  split_ifs
  · exact TimersGrow.refl s
  · exact ⟨[⟨2200, Callback.shieldExpire⟩], rfl⟩

theorem timersGrow_shieldGesture (env : Env) (hands : List Hand) (s : State) :
    TimersGrow s (shieldGesture env hands s) := by
  unfold shieldGesture
  split
  · dsimp only
    split_ifs
    · exact timersGrow_activateShield _
    · exact TimersGrow.refl _
  · exact TimersGrow.refl _

theorem timersGrow_fistGesture (env : Env) (hand : Hand) (s : State) :
    TimersGrow s (fistGesture env hand s) := by
  unfold fistGesture
  split_ifs
  · exact TimersGrow.trans (timersGrow_bossTakeDamage env 4 s) (TimersGrow.of_eq rfl)
  · exact TimersGrow.refl _

theorem timersGrow_processGestures (env : Env) (hands : List Hand) (s : State) :
    TimersGrow s (processGestures env hands s) := by
  cases hands with
  | nil => exact TimersGrow.refl s
  | cons hand rest =>
    have h1 : TimersGrow s (pushWrist (mapWrist env s (wristToNorm hand)).x
        (mapWrist env s (wristToNorm hand)).y s) := TimersGrow.of_eq rfl
    exact TimersGrow.trans (TimersGrow.trans h1 (timersGrow_shieldGesture env _ _))
      (timersGrow_fistGesture env _ _)

theorem timersGrow_specialRelease (env : Env) (s : State) :
    TimersGrow s (specialRelease env s) := by
  unfold specialRelease
  split_ifs
  · dsimp only
    have h1 : TimersGrow s
        { s with player := { s.player with holdTimer := 0, specialCooldown := 6000 } } :=
      TimersGrow.of_eq rfl
    have h2 := timersGrow_bossTakeDamage env 28
      { s with player := { s.player with holdTimer := 0, specialCooldown := 6000 } }
    refine TimersGrow.trans (TimersGrow.trans h1 h2) ?_
    exact ⟨[⟨400, Callback.slowReset⟩], by simp [applySlowMotion, setTimeout, spawnParticles]⟩
  · exact TimersGrow.refl s

theorem timersGrow_enemyStep (env : Env) (ts dt : ℚ) (e : Enemy) (s : State) :
    TimersGrow s (enemyStep env ts dt e s) := by
  unfold enemyStep onEnemyCollision
  dsimp only
  split_ifs
  · exact ⟨[⟨3000, Callback.shieldReady⟩], by simp [setTimeout, spawnParticles]⟩
  · exact TimersGrow.of_eq rfl
  · exact TimersGrow.of_eq rfl
  · exact TimersGrow.refl s
  · exact TimersGrow.of_eq rfl

theorem timersGrow_updateEnemies (env : Env) (ts dt : ℚ) (s : State) :
    TimersGrow s (updateEnemies env ts dt s) := by
  unfold updateEnemies
  induction s.enemies with
  | nil => exact TimersGrow.of_eq rfl
  | cons e l ih => exact TimersGrow.trans ih (timersGrow_enemyStep env ts dt e _)

theorem timersGrow_powerupStep (env : Env) (dt : ℚ) (p : Powerup) (s : State) :
    TimersGrow s (powerupStep env dt p s) := by
  unfold powerupStep
  dsimp only
  split_ifs
  · cases (movePowerup dt p).type
    · exact TimersGrow.of_eq rfl
    · exact TimersGrow.of_eq rfl
    · exact ⟨[⟨4500, Callback.slowReset⟩], by
        simp [applyPowerup, applySlowMotion, setTimeout, spawnParticles]⟩
    · exact ⟨[⟨8000, Callback.doubleOff⟩], by simp [applyPowerup, setTimeout, spawnParticles]⟩
  · exact TimersGrow.refl s
  · exact TimersGrow.of_eq rfl

theorem timersGrow_updatePowerups (env : Env) (dt : ℚ) (s : State) :
    TimersGrow s (updatePowerups env dt s) := by
  unfold updatePowerups
  induction s.powerups with
  | nil => exact TimersGrow.of_eq rfl
  | cons e l ih => exact TimersGrow.trans ih (timersGrow_powerupStep env dt e _)

theorem timersGrow_beforeEnemies (env : Env) (d : ℚ) (hands : List Hand) (s : State) :
    TimersGrow (bossTimerStep (advanceClock d s)) (beforeEnemies env d hands s) := by
  unfold beforeEnemies
  have h1 := timersGrow_processGestures env hands (bossTimerStep (advanceClock d s))
  have h2 := timersGrow_specialRelease env (smoothMovement (applySmoothedWrist env d
    (processGestures env hands (bossTimerStep (advanceClock d s)))))
  refine TimersGrow.trans (TimersGrow.trans h1 (TimersGrow.trans (TimersGrow.of_eq ?_) h2))
    (TimersGrow.of_eq ?_)
  · simp
  · simp

theorem timersGrow_afterEnemies (env : Env) (d dt : ℚ) (s : State) :
    TimersGrow s (afterEnemies env d dt s) := by
  unfold afterEnemies
  exact TimersGrow.trans (timersGrow_updatePowerups env dt s) (TimersGrow.of_eq (by simp))

theorem beforeEnemies_bossWarnShown_eq (env : Env) (d : ℚ) (hands : List Hand) (s : State) :
    (beforeEnemies env d hands s).bossWarnShown
      = (bossTimerStep (advanceClock d s)).bossWarnShown := by
  simp [beforeEnemies]

/-- The boss timer block with no encounter on, no warning shown and at most
5000 ms to go: the warning is raised and `startBoss` scheduled. -/
theorem bossTimerStep_warns (s : State) (hin : s.inBoss = false) (hw : s.bossWarnShown = false)
    (hdue : 55000 ≤ s.elapsedMs) :
    (bossTimerStep s).bossWarnShown = true
    ∧ (⟨5000, Callback.bossWarn⟩ : Timer) ∈ (bossTimerStep s).timers := by
  have hrem : max 0 (BOSS_AFTER_MS - s.elapsedMs) ≤ BOSS_WARN_SEC * 1000 := by
    unfold BOSS_AFTER_MS BOSS_WARN_SEC
    apply max_le <;> linarith
  constructor
  · simp [bossTimerStep, hin, hw, hrem, setTimeout]
  · simp [bossTimerStep, hin, hw, hrem, setTimeout]
    right
    norm_num [BOSS_WARN_SEC]

/-- C9 (counterexample). In the session `bossRun` the first encounter has just
been started by `startBoss`; once `endBoss` has torn it down no warning is
shown and no `startBoss` is pending, and the very next playing frame, 16 ms
later, raises the warning again and schedules `startBoss` anew. -/
theorem boss_warning_raised_again :
    (endBoss (run sampleEnv (initialState sampleEnv) bossRun)).playing = true
    ∧ (endBoss (run sampleEnv (initialState sampleEnv) bossRun)).inBoss = false
    ∧ (endBoss (run sampleEnv (initialState sampleEnv) bossRun)).boss = none
    ∧ (endBoss (run sampleEnv (initialState sampleEnv) bossRun)).bossWarnShown = false
    ∧ (⟨5000, Callback.bossWarn⟩ : Timer)
        ∉ (endBoss (run sampleEnv (initialState sampleEnv) bossRun)).timers
    ∧ (mainLoop sampleEnv 55016 []
        (endBoss (run sampleEnv (initialState sampleEnv) bossRun))).bossWarnShown = true
    ∧ (⟨5000, Callback.bossWarn⟩ : Timer)
        ∈ (mainLoop sampleEnv 55016 []
            (endBoss (run sampleEnv (initialState sampleEnv) bossRun))).timers := by
  decide!

/-- C9 (amended). `endBoss` adds 250 to the score, clears `boss` and `inBoss`
and leaves `elapsedMs` as it is; `startBoss` had cleared `bossWarnShown`.  So
from a state `u` with no warning shown, the first playing frame after
`endBoss` that brings `elapsedMs` to 55000 or more raises the boss warning again
and schedules `startBoss` 5000 ms later: encounters recur. -/
theorem boss_warning_after_endBoss (env : Env) (ts : ℚ) (hands : List Hand) (u : State)
    (hrun : u.running = true) (hplay : u.playing = true) (hw : u.bossWarnShown = false)
    (hdue : 55000 ≤ u.elapsedMs + (ts - u.lastTS)) :
    (∀ v : State, (startBoss env v).bossWarnShown = false)
    ∧ (endBoss u).score = u.score + 250
    ∧ (endBoss u).boss = none
    ∧ (endBoss u).inBoss = false
    ∧ (endBoss u).elapsedMs = u.elapsedMs
    ∧ (mainLoop env ts hands (endBoss u)).bossWarnShown = true
    ∧ (⟨5000, Callback.bossWarn⟩ : Timer) ∈ (mainLoop env ts hands (endBoss u)).timers := by
  refine ⟨fun v => rfl, rfl, rfl, rfl, rfl, ?_⟩
  have hstep := bossTimerStep_warns
    (advanceClock (ts - u.lastTS) { endBoss u with lastTS := ts }) rfl hw hdue
  rw [mainLoop_playing env ts hands (endBoss u) hrun hplay]
  constructor
  · rw [afterEnemies_bossWarnShown]
    unfold loopExit loopEntry
    rw [updateEnemies_bossWarnShown, beforeEnemies_bossWarnShown_eq]
    exact hstep.1
  · apply TimersGrow.mem (timersGrow_afterEnemies env _ _ _)
    unfold loopExit loopEntry
    apply TimersGrow.mem (timersGrow_updateEnemies env _ _ _)
    apply TimersGrow.mem (timersGrow_beforeEnemies env _ hands _)
    exact hstep.2

/-- Witness for C9 (amended): the state of the counterexample. -/
theorem boss_warning_after_endBoss_witness :
    (mainLoop sampleEnv 55016 []
        (endBoss (run sampleEnv (initialState sampleEnv) bossRun))).bossWarnShown = true
    ∧ (endBoss (run sampleEnv (initialState sampleEnv) bossRun)).elapsedMs = 55000 :=
  have h := boss_warning_after_endBoss sampleEnv 55016 []
    (run sampleEnv (initialState sampleEnv) bossRun)
    (by decide!) (by decide!) (by decide!) (by decide!)
  ⟨h.2.2.2.2.2.1, by decide!⟩

/-! ### C10: a frame with no hand after a hand was seen -/

/-- C10. The code at the failing input: in the session `staleRun` the frame at
16 ms maps the wrist to `(280, 240)` and sets the target to `(280, 290)`; the
frame at 32 ms has no hand, finds the sample of the frame before still in the
buffer and sets the target to `(280, 290)` again, where a decay by 0.02 toward
the rest position `(400, 460)` would give `(282.4, 293.4)`. -/
theorem target_not_decayed_with_stale_sample :
    (run sampleEnv (initialState sampleEnv) (staleRun.take 3)).player.targetX = 280
    ∧ (run sampleEnv (initialState sampleEnv) (staleRun.take 3)).player.targetY = 290
    ∧ (run sampleEnv (initialState sampleEnv) (staleRun.take 3)).playing = true
    ∧ (run sampleEnv (initialState sampleEnv) staleRun).wristBuffer = [⟨280, 240⟩]
    ∧ (run sampleEnv (initialState sampleEnv) staleRun).player.targetX = 280
    ∧ (run sampleEnv (initialState sampleEnv) staleRun).player.targetY = 290
    ∧ lerp 280 (sampleEnv.W * 0.5) 0.02 = 2824 / 10
    ∧ lerp 290 (sampleEnv.H - 140) 0.02 = 2934 / 10 := by
  decide!

/-! ### C11: what `resetAll` resets -/

/-- C11. From any state whatsoever `resetAll` gives score 0, three lives, empty
enemy, powerup and particle lists, no boss with `inBoss` and `bossIntro` false,
zero `elapsedMs`, `difficultyTimer`, `spawnTimer`, `holdTimer`,
`specialCooldown` and `fistCooldown`, both shield flags and `doublePoints`
cleared. -/
theorem resetAll_resets (env : Env) (s : State) :
    (resetAll env s).score = 0
    ∧ (resetAll env s).player.lives = 3
    ∧ (resetAll env s).enemies = []
    ∧ (resetAll env s).powerups = []
    ∧ (resetAll env s).particles = []
    ∧ (resetAll env s).boss = none
    ∧ (resetAll env s).inBoss = false
    ∧ (resetAll env s).bossIntro = false
    ∧ (resetAll env s).elapsedMs = 0
    ∧ (resetAll env s).difficultyTimer = 0
    ∧ (resetAll env s).spawnTimer = 0
    ∧ (resetAll env s).player.holdTimer = 0
    ∧ (resetAll env s).player.specialCooldown = 0
    ∧ (resetAll env s).player.fistCooldown = 0
    ∧ (resetAll env s).player.shieldActive = false
    ∧ (resetAll env s).player.shieldCooldown = false
    ∧ (resetAll env s).player.doublePoints = false :=
  ⟨rfl, rfl, rfl, rfl, rfl, rfl, rfl, rfl, rfl, rfl, rfl, rfl, rfl, rfl, rfl, rfl, rfl⟩

/-! ### C12: the circle against rectangle test -/

/-- C12. For a radius `cr ≥ 0`, `circleRectCollision` returns true exactly when
the squared distance from the centre of the circle to the closest point of the
rectangle centred at `(rx, ry)`, `rw` wide and `rh` high, is at most `cr²`. -/
theorem circleRectCollision_iff (cx cy cr rx ry rw rh : ℚ) (hcr : 0 ≤ cr) :
    circleRectCollision cx cy cr rx ry rw rh = true
      ↔ (max 0 (|cx - rx| - rw / 2)) ^ 2 + (max 0 (|cy - ry| - rh / 2)) ^ 2 ≤ cr ^ 2 := by
  unfold circleRectCollision
  dsimp only
  split_ifs with h1 h2 h3 h4
  · simp only [Bool.false_eq_true, false_iff, not_le]
    have ha : max 0 (|cx - rx| - rw / 2) = |cx - rx| - rw / 2 := max_eq_right (by linarith)
    rw [ha]
    have hb := sq_nonneg (max 0 (|cy - ry| - rh / 2))
    nlinarith
  · simp only [Bool.false_eq_true, false_iff, not_le]
    have ha : max 0 (|cy - ry| - rh / 2) = |cy - ry| - rh / 2 := max_eq_right (by linarith)
    rw [ha]
    have hb := sq_nonneg (max 0 (|cx - rx| - rw / 2))
    nlinarith
  · simp only [true_iff]
    have ha : max 0 (|cx - rx| - rw / 2) = 0 := max_eq_left (by linarith)
    rw [ha]
    rcases le_total (|cy - ry| - rh / 2) 0 with h | h
    · rw [max_eq_left h]; nlinarith
    · rw [max_eq_right h]; nlinarith
  · simp only [true_iff]
    have ha : max 0 (|cy - ry| - rh / 2) = 0 := max_eq_left (by linarith)
    rw [ha]
    rcases le_total (|cx - rx| - rw / 2) 0 with h | h
    · rw [max_eq_left h]; nlinarith
    · rw [max_eq_right h]; nlinarith
  · have ha : max 0 (|cx - rx| - rw / 2) = |cx - rx| - rw / 2 := max_eq_right (by linarith)
    have hb : max 0 (|cy - ry| - rh / 2) = |cy - ry| - rh / 2 := max_eq_right (by linarith)
    rw [ha, hb, decide_eq_true_iff]
    constructor <;> intro h <;> nlinarith

/-- Witness for C12: a circle of radius 5 whose centre is 3 right of and 4 above
the corner of the rectangle touches it. -/
theorem circleRectCollision_iff_witness :
    (0 : ℚ) ≤ 5
    ∧ (circleRectCollision 13 14 5 0 0 20 20 = true
      ↔ (max 0 (|(13 : ℚ) - 0| - 20 / 2)) ^ 2 + (max 0 (|(14 : ℚ) - 0| - 20 / 2)) ^ 2
          ≤ (5 : ℚ) ^ 2)
    ∧ circleRectCollision 13 14 5 0 0 20 20 = true
    ∧ circleRectCollision 13 15 5 0 0 20 20 = false :=
  ⟨by norm_num, circleRectCollision_iff 13 14 5 0 0 20 20 (by norm_num), by decide!, by decide!⟩

/-! ### C13: cooldowns run on the wall clock, motion on the dilated one -/

theorem sameButSlow_iff (a b : State) :
    SameButSlow a b ↔ ∃ f : ℚ, a = { b with slowFactor := f } := by
  constructor
  · intro h; exact ⟨_, h⟩
  · rintro ⟨f, rfl⟩; rfl

theorem sameButSlow_advanceClock (d : ℚ) (a b : State) (h : SameButSlow a b) :
    SameButSlow (advanceClock d a) (advanceClock d b) := by
  obtain ⟨f, rfl⟩ := (sameButSlow_iff a b).mp h
  rfl

theorem sameButSlow_bossTimerStep (a b : State) (h : SameButSlow a b) :
    SameButSlow (bossTimerStep a) (bossTimerStep b) := by
  obtain ⟨f, rfl⟩ := (sameButSlow_iff a b).mp h
  unfold bossTimerStep
  dsimp only
  split_ifs <;> rfl

theorem sameButSlow_pushWrist (px py : ℚ) (a b : State) (h : SameButSlow a b) :
    SameButSlow (pushWrist px py a) (pushWrist px py b) := by
  obtain ⟨f, rfl⟩ := (sameButSlow_iff a b).mp h
  rfl

theorem sameButSlow_shieldGesture (env : Env) (hands : List Hand) (a b : State)
    (h : SameButSlow a b) :
    SameButSlow (shieldGesture env hands a) (shieldGesture env hands b) := by
  obtain ⟨f, rfl⟩ := (sameButSlow_iff a b).mp h
  unfold shieldGesture activateShield
  split
  · dsimp only
    split_ifs <;> rfl
  · rfl

theorem sameButSlow_bossTakeDamage (env : Env) (d : ℚ) (a b : State) (h : SameButSlow a b) :
    SameButSlow (bossTakeDamage env d a) (bossTakeDamage env d b) := by
  obtain ⟨f, rfl⟩ := (sameButSlow_iff a b).mp h
  cases b with
  | mk running playing player enemies powerups particles spawnTimer spawnInterval
      difficultyTimer elapsedMs score boss inBoss bossIntro bossWarnShown wristBuffer
      calibration slowFactor screenShake lastTS timers rng =>
    cases boss with
    | none => exact (sameButSlow_iff _ _).mpr ⟨f, rfl⟩
    | some bb =>
      unfold bossTakeDamage
      dsimp only
      split_ifs <;> exact (sameButSlow_iff _ _).mpr ⟨_, rfl⟩

theorem sameButSlow_fistGesture (env : Env) (hand : Hand) (a b : State) (h : SameButSlow a b) :
    SameButSlow (fistGesture env hand a) (fistGesture env hand b) := by
  have hr : fistReady env hand a = fistReady env hand b := by
    obtain ⟨f, rfl⟩ := (sameButSlow_iff a b).mp h
    rfl
  unfold fistGesture
  rw [hr]
  split_ifs
  · have h1 := sameButSlow_bossTakeDamage env 4 a b h
    obtain ⟨f, hf⟩ := (sameButSlow_iff _ _).mp h1
    dsimp only
    rw [hf]
    rfl
  · exact h

theorem sameButSlow_processGestures (env : Env) (hands : List Hand) (a b : State)
    (h : SameButSlow a b) :
    SameButSlow (processGestures env hands a) (processGestures env hands b) := by
  cases hands with
  | nil => exact h
  | cons hand rest =>
    have hm : mapWrist env a (wristToNorm hand) = mapWrist env b (wristToNorm hand) := by
      obtain ⟨f, rfl⟩ := (sameButSlow_iff a b).mp h
      rfl
    unfold processGestures
    dsimp only
    rw [hm]
    exact sameButSlow_fistGesture env hand _ _
      (sameButSlow_shieldGesture env _ _ _ (sameButSlow_pushWrist _ _ a b h))

theorem sameButSlow_applySmoothedWrist (env : Env) (d : ℚ) (a b : State)
    (h : SameButSlow a b) :
    SameButSlow (applySmoothedWrist env d a) (applySmoothedWrist env d b) := by
  obtain ⟨f, rfl⟩ := (sameButSlow_iff a b).mp h
  have hg : getSmoothedWrist { b with slowFactor := f } = getSmoothedWrist b := rfl
  unfold applySmoothedWrist
  rw [hg]
  cases getSmoothedWrist b <;> rfl

theorem sameButSlow_smoothMovement (a b : State) (h : SameButSlow a b) :
    SameButSlow (smoothMovement a) (smoothMovement b) := by
  obtain ⟨f, rfl⟩ := (sameButSlow_iff a b).mp h
  rfl

theorem sameButSlow_releaseEntry (env : Env) (ts : ℚ) (hands : List Hand) (s : State) (f : ℚ) :
    SameButSlow (releaseEntry env ts hands { s with slowFactor := f })
      (releaseEntry env ts hands s) := by
  unfold releaseEntry gestureExit gestureEntry
  apply sameButSlow_smoothMovement
  apply sameButSlow_applySmoothedWrist
  apply sameButSlow_processGestures
  apply sameButSlow_bossTimerStep
  apply sameButSlow_advanceClock
  exact (sameButSlow_iff _ _).mpr ⟨f, rfl⟩

theorem specialFires_slowFactor (env : Env) (ts : ℚ) (hands : List Hand) (s : State) (f : ℚ) :
    specialFires env ts hands { s with slowFactor := f } = specialFires env ts hands s := by
  unfold specialFires
  obtain ⟨g, hg⟩ := (sameButSlow_iff _ _).mp (sameButSlow_releaseEntry env ts hands s f)
  rw [hg]
  rfl

theorem fistFires_slowFactor (env : Env) (hands : List Hand) (s : State) (f : ℚ) :
    fistFires env hands { s with slowFactor := f } = fistFires env hands s := by
  cases hands <;> rfl

/-- The list the powerup loop leaves: the moved powerups that were neither
picked up nor fell off, in their original order. -/
theorem foldr_powerupStep_powerups (env : Env) (dt : ℚ) (b : State) (l : List Powerup) :
    (l.foldr (powerupStep env dt) b).powerups
      = (l.map (movePowerup dt)).filter
          (fun p => !hitsPlayer b p.x p.y 20 && !decide (p.y > env.H + 40)) ++ b.powerups := by
  induction l with
  | nil => rfl
  | cons p l ih =>
    rw [List.foldr_cons, List.map_cons, List.filter_cons, powerupStep,
      hitsPlayer_foldr_powerupStep]
    by_cases h1 : hitsPlayer b (movePowerup dt p).x (movePowerup dt p).y 20 = true
    · have hp : ∀ (t : PowerupType) (x : State), (applyPowerup env t x).powerups = x.powerups := by
        intro t x
        cases t <;> rfl
      simp [h1, hp, ih]
    · by_cases h2 : (movePowerup dt p).y > env.H + 40
      · simp [h1, h2, ih]
      · simp [h1, h2, ih]

/-- The timer of an active boss after the boss logic: advanced by `dt`, or back
at 0 when the attack of its phase is launched. -/
theorem bossLogic_timer (env : Env) (dt : ℚ) (m : State) (b : Boss) (hb : m.boss = some b)
    (hact : b.state = BossState.active) :
    (bossLogic env dt m).boss.map Boss.timer
      = some (if bossAttacks b (b.timer + dt) then 0 else b.timer + dt) := by
  unfold bossLogic bossAttacks
  simp only [hb, hact]
  by_cases h1 : b.phase = 1 ∧ b.timer + dt > 1200
  · simp [h1]
  · by_cases h2 : b.phase = 2 ∧ b.timer + dt > 900
    · have h1b : ¬ (b.phase = 1) := by omega
      simp [h1b, h2]
    · by_cases h3 : b.phase = 3 ∧ b.timer + dt > 700
      · have h1b : ¬ (b.phase = 1) := by omega
        have h2b : ¬ (b.phase = 2) := by omega
        simp [h1b, h2b, h3]
      · simp only [h1, h2, h3, if_false, or_self, decide_False, Bool.false_eq_true]
        rfl

theorem moveEnemy_y (env : Env) (ts dt : ℚ) (e : Enemy) :
    (moveEnemy env ts dt e).y = e.y + e.vy * (dt / 16) := by
  unfold moveEnemy
  dsimp only
  split_ifs <;> rfl

theorem cooldown_nonneg (c d : ℚ) : 0 ≤ (if c ≠ 0 then max 0 (c - d) else c) := by
  split_ifs with h
  · exact le_max_left _ _
  · exact le_of_eq (not_not.mp h).symm

/-- C13. In a playing tick with raw delta `dtRaw = ts - lastTS ≥ 0`, a cooldown
that is not set anew in the tick ends at `max 0 (before - dtRaw)`: the special
cooldown when no special attack is released, the fist cooldown when no fist
hit lands.  Both are never negative at the end of a tick, and both are the same
whatever `slowFactor` is at its start.  The dilated delta `dtRaw * slowFactor` is
what the enemy loop, the powerup loop and the boss logic get: an enemy and a
powerup fall by `vy * (dt / 16)`, and the timer of an active boss advances by
`dt` (and goes back to 0 when the attack of its phase is launched). -/
theorem cooldowns_on_wall_clock (env : Env) (ts : ℚ) (hands : List Hand) (s : State)
    (hrun : s.running = true) (hplay : s.playing = true) (hd : s.lastTS ≤ ts) :
    (specialFires env ts hands s = false →
      (mainLoop env ts hands s).player.specialCooldown
        = max 0 (s.player.specialCooldown - (ts - s.lastTS)))
    ∧ (fistFires env hands s = false →
      (mainLoop env ts hands s).player.fistCooldown
        = max 0 (s.player.fistCooldown - (ts - s.lastTS)))
    ∧ 0 ≤ (mainLoop env ts hands s).player.specialCooldown
    ∧ 0 ≤ (mainLoop env ts hands s).player.fistCooldown
    ∧ (∀ f : ℚ,
        (mainLoop env ts hands { s with slowFactor := f }).player.specialCooldown
          = (mainLoop env ts hands s).player.specialCooldown
        ∧ (mainLoop env ts hands { s with slowFactor := f }).player.fistCooldown
          = (mainLoop env ts hands s).player.fistCooldown)
    ∧ mainLoop env ts hands s
        = afterEnemies env (ts - s.lastTS) ((ts - s.lastTS) * s.slowFactor)
            (updateEnemies env ts ((ts - s.lastTS) * s.slowFactor) (loopEntry env ts hands s))
    ∧ (∀ (dt : ℚ) (m : State),
        (updateEnemies env ts dt m).enemies = survivingEnemies env ts dt m
        ∧ ∀ e : Enemy, (moveEnemy env ts dt e).y = e.y + e.vy * (dt / 16))
    ∧ (∀ (dt : ℚ) (m : State),
        (updatePowerups env dt m).powerups = survivingPowerups env dt m
        ∧ ∀ p : Powerup, (movePowerup dt p).y = p.y + p.vy * (dt / 16))
    ∧ (∀ (dt : ℚ) (m : State) (b : Boss), m.boss = some b → b.state = BossState.active →
        (bossLogic env dt m).boss.map Boss.timer
          = some (if bossAttacks b (b.timer + dt) then 0 else b.timer + dt)) := by
  have hdd : 0 ≤ ts - s.lastTS := by linarith
  have hs := mainLoop_specialCooldown env ts hands s hrun hplay
  have hf := mainLoop_fistCooldown env ts hands s hrun hplay
  refine ⟨fun h => ?_, fun h => ?_, ?_, ?_, fun f => ⟨?_, ?_⟩,
    mainLoop_playing env ts hands s hrun hplay, fun dt m => ⟨?_, moveEnemy_y env ts dt⟩,
    fun dt m => ⟨?_, fun p => rfl⟩, fun dt m b hb hact => bossLogic_timer env dt m b hb hact⟩
  · rw [hs, h]
    simp only [Bool.false_eq_true, if_false]
    exact cooldown_step _ _ hdd
  · rw [hf, h]
    simp only [Bool.false_eq_true, if_false]
    exact cooldown_step _ _ hdd
  · rw [hs]; exact cooldown_nonneg _ _
  · rw [hf]; exact cooldown_nonneg _ _
  · rw [hs, mainLoop_specialCooldown env ts hands { s with slowFactor := f } hrun hplay,
      specialFires_slowFactor]
  · rw [hf, mainLoop_fistCooldown env ts hands { s with slowFactor := f } hrun hplay,
      fistFires_slowFactor]
  · have h0 := foldr_enemyStep_enemies env ts dt { m with enemies := [] } m.enemies
    rw [List.append_nil] at h0
    exact h0
  · have h0 := foldr_powerupStep_powerups env dt { m with powerups := [] } m.powerups
    rw [List.append_nil] at h0
    exact h0

/-- Witness for C13: from `bossFightState` with a fist cooldown of 300 ms pending
and `slowFactor` 0.5, a frame 16 ms later leaves 284 ms. -/
theorem cooldowns_on_wall_clock_witness :
    (mainLoop sampleEnv 16 [sampleHand]
        { bossFightState with
          slowFactor := 0.5
          player := { bossFightState.player with fistCooldown := 300 } }).player.fistCooldown
      = 284
    ∧ 0 ≤ (mainLoop sampleEnv 16 [sampleHand]
        { bossFightState with
          slowFactor := 0.5
          player := { bossFightState.player with fistCooldown := 300 } }).player.specialCooldown :=
  have h := cooldowns_on_wall_clock sampleEnv 16 [sampleHand]
    { bossFightState with
      slowFactor := 0.5
      player := { bossFightState.player with fistCooldown := 300 } }
    (by decide!) (by decide!) (by decide!)
  ⟨by decide!, h.2.2.1⟩

/-! ### C14: the control point stays in the playable bounds -/

theorem clamp_mem (v a b : ℚ) (h : a ≤ b) : a ≤ clamp v a b ∧ clamp v a b ≤ b := by
  unfold clamp
  exact ⟨le_max_left _ _, max_le h (min_le_left _ _)⟩

theorem mapWrist_inBox (env : Env) (hW : 120 ≤ env.W) (hH : 200 ≤ env.H) (s : State) (n : Pt) :
    InBox env (mapWrist env s n) := by
  have h1 : (60 : ℚ) ≤ env.W - 60 := by linarith
  have h2 : (120 : ℚ) ≤ env.H - 80 := by linarith
  unfold mapWrist InBox
  split
  · exact ⟨(clamp_mem _ _ _ h1).1, (clamp_mem _ _ _ h1).2,
      (clamp_mem _ _ _ h2).1, (clamp_mem _ _ _ h2).2⟩
  · exact ⟨(clamp_mem _ _ _ h1).1, (clamp_mem _ _ _ h1).2,
      (clamp_mem _ _ _ h2).1, (clamp_mem _ _ _ h2).2⟩

theorem pushWrist_bufferInBox (env : Env) (p : Pt) (s : State) (hp : InBox env p)
    (h : BufferInBox env s) : BufferInBox env (pushWrist p.x p.y s) := by
  intro q hq
  have hq2 : q ∈ s.wristBuffer ++ [p] := by
    rw [pushWrist_wristBuffer] at hq
    split_ifs at hq
    · exact List.mem_of_mem_tail hq
    · exact hq
  rcases List.mem_append.mp hq2 with h1 | h1
  · exact h q h1
  · rw [List.mem_singleton.mp h1]; exact hp

theorem bufferInBox_of_eq (env : Env) {s t : State} (h : t.wristBuffer = s.wristBuffer)
    (hs : BufferInBox env s) : BufferInBox env t := by
  intro q hq
  rw [h] at hq
  exact hs q hq

theorem processGestures_bufferInBox (env : Env) (hW : 120 ≤ env.W) (hH : 200 ≤ env.H)
    (hands : List Hand) (s : State) (h : BufferInBox env s) :
    BufferInBox env (processGestures env hands s) := by
  cases hands with
  | nil => exact h
  | cons hand rest =>
    have h1 := pushWrist_bufferInBox env (mapWrist env s (wristToNorm hand)) s
      (mapWrist_inBox env hW hH s _) h
    exact bufferInBox_of_eq env (by simp [processGestures]) h1

theorem mainLoop_bufferInBox (env : Env) (hW : 120 ≤ env.W) (hH : 200 ≤ env.H) (ts : ℚ)
    (hands : List Hand) (s : State) (h : BufferInBox env s) :
    BufferInBox env (mainLoop env ts hands s) := by
  unfold mainLoop
  dsimp only
  split_ifs
  · exact h
  · have h1 := processGestures_bufferInBox env hW hH hands
      (bossTimerStep (advanceClock (ts - s.lastTS) { s with lastTS := ts }))
      (bufferInBox_of_eq env (by simp) h)
    exact bufferInBox_of_eq env (by simp [playingTick, beforeEnemies]) h1
  · exact h

theorem runCallback_wristBuffer (env : Env) (cb : Callback) (s : State) :
    (runCallback env cb s).wristBuffer = s.wristBuffer := by
  cases cb <;> rfl

theorem fireTimer_wristBuffer (env : Env) (i : ℕ) (s : State) :
    (fireTimer env i s).wristBuffer = s.wristBuffer := by
  unfold fireTimer
  split
  · rfl
  · rw [runCallback_wristBuffer]

theorem keydown_wristBuffer (k : Key) (s : State) :
    (keydown k s).wristBuffer = s.wristBuffer := by
  cases k
  · rfl
  · rfl
  · exact activateShield_wristBuffer s

theorem finishCalibration_wristBuffer (env : Env) (s : State) :
    (finishCalibration env s).wristBuffer = s.wristBuffer := by
  unfold finishCalibration
  dsimp only
  split_ifs <;> rfl

theorem step_bufferInBox (env : Env) (hW : 120 ≤ env.W) (hH : 200 ≤ env.H) (s : State)
    (ev : Event) (h : BufferInBox env s) : BufferInBox env (step env s ev) := by
  cases ev with
  | frame ts hands => exact mainLoop_bufferInBox env hW hH ts hands s h
  | timeout i => exact bufferInBox_of_eq env (fireTimer_wristBuffer env i s) h
  | key k => exact bufferInBox_of_eq env (keydown_wristBuffer k s) h
  | restartClick => exact h
  | sessionStart =>
    exact bufferInBox_of_eq env (finishCalibration_wristBuffer env s) h

theorem run_bufferInBox (env : Env) (hW : 120 ≤ env.W) (hH : 200 ≤ env.H) (s : State)
    (evs : List Event) (h : BufferInBox env s) : BufferInBox env (run env s evs) := by
  unfold run
  induction evs generalizing s with
  | nil => exact h
  | cons ev evs ih => exact ih _ (step_bufferInBox env hW hH s ev h)

theorem sum_bounds (l : List Pt) (f : Pt → ℚ) (lo hi : ℚ)
    (h : ∀ p ∈ l, lo ≤ f p ∧ f p ≤ hi) :
    (l.length : ℚ) * lo ≤ (l.map f).sum ∧ (l.map f).sum ≤ (l.length : ℚ) * hi := by
  induction l with
  | nil => simp
  | cons p l ih =>
    have h1 := h p (by simp)
    have h2 := ih (fun q hq => h q (by simp [hq]))
    simp only [List.length_cons, List.map_cons, List.sum_cons]
    push_cast
    constructor <;> nlinarith [h1.1, h1.2, h2.1, h2.2]

/-- The mean of a buffer whose samples lie in the bounds lies in the bounds. -/
theorem getSmoothedWrist_inBox (env : Env) (s : State) (h : BufferInBox env s) (sm : Pt)
    (hsm : getSmoothedWrist s = some sm) : InBox env sm := by
  unfold getSmoothedWrist at hsm
  split_ifs at hsm with h0
  simp only [Option.some.injEq, foldl_add_x, foldl_add_y, zero_add] at hsm
  have hn : (0 : ℚ) < s.wristBuffer.length := by
    have : 0 < s.wristBuffer.length := Nat.pos_of_ne_zero h0
    exact_mod_cast this
  have hx := sum_bounds s.wristBuffer Pt.x 60 (env.W - 60) (fun p hp => ⟨(h p hp).1, (h p hp).2.1⟩)
  have hy := sum_bounds s.wristBuffer Pt.y 120 (env.H - 80)
    (fun p hp => ⟨(h p hp).2.2.1, (h p hp).2.2.2⟩)
  rw [← hsm]
  refine ⟨?_, ?_, ?_, ?_⟩
  · rw [le_div_iff₀ hn]; linarith [hx.1]
  · rw [div_le_iff₀ hn]; linarith [hx.2]
  · rw [le_div_iff₀ hn]; linarith [hy.1]
  · rw [div_le_iff₀ hn]; linarith [hy.2]

/-- C14. On a canvas with `W ≥ 120` and `H ≥ 200` every wrist sample, calibrated
or not, is mapped to a point of `[60, W-60] × [120, H-80]`; hence in every
state reached from the initial state by any run of events the smoothed control
point `getSmoothedWrist` returns, when it is not `null`, lies in that box
too. -/
theorem control_point_in_bounds (env : Env) (hW : 120 ≤ env.W) (hH : 200 ≤ env.H) :
    (∀ (s : State) (n : Pt), InBox env (mapWrist env s n))
    ∧ ∀ (evs : List Event) (sm : Pt),
        getSmoothedWrist (run env (initialState env) evs) = some sm → InBox env sm :=
  ⟨fun s n => mapWrist_inBox env hW hH s n, fun evs sm hsm =>
    getSmoothedWrist_inBox env _
      (run_bufferInBox env hW hH _ evs (fun p hp => by simp [initialState] at hp)) sm hsm⟩

/-- Witness for C14: the sample canvas, 800 by 600, and the session `staleRun`,
whose control point is `(280, 240)`. -/
theorem control_point_in_bounds_witness :
    (120 : ℚ) ≤ sampleEnv.W ∧ (200 : ℚ) ≤ sampleEnv.H
    ∧ getSmoothedWrist (run sampleEnv (initialState sampleEnv) staleRun) = some ⟨280, 240⟩
    ∧ InBox sampleEnv ⟨280, 240⟩ :=
  ⟨by decide!, by decide!, by decide!,
    (control_point_in_bounds sampleEnv (by decide!) (by decide!)).2 staleRun ⟨280, 240⟩
      (by decide!)⟩

/-! ### C15: the neutral reference a calibration run computes -/

theorem sampleCalibration_samples (hands : List Hand) (s : State) :
    (sampleCalibration hands s).calibration.samples
      = s.calibration.samples ++ (hands.head?.map wristToNorm).toList := by
  cases hands with
  | nil => simp [sampleCalibration]
  | cons h t => simp [sampleCalibration]

/-- The samples at the end of the sampling loop. -/
theorem foldl_sampleCalibration_samples (rounds : List (List Hand)) (s : State) :
    (rounds.foldl (fun st hands => sampleCalibration hands st) s).calibration.samples
      = s.calibration.samples ++ collectedSamples rounds := by
  induction rounds generalizing s with
  | nil => simp [collectedSamples]
  | cons hands rest ih =>
    rw [List.foldl_cons, ih, sampleCalibration_samples]
    cases hands with
    | nil => simp [collectedSamples]
    | cons h t => simp [collectedSamples]

/-- C15. A calibration run sets the neutral reference to the per-coordinate mean
of the wrist samples it collected when there is at least one, and to exactly
`(0.5, 0.5)` when there is none; in both cases `neutralScreenY` is
`neutral.y * H` (`0.5 * H` with no sample).  The result is a function of the
samples of this run alone: the state it starts from, an earlier calibration
result included, plays no part. -/
theorem calibration_neutral (env : Env) (rounds : List (List Hand)) (s : State) :
    (collectedSamples rounds ≠ [] →
      (calibrate env rounds s).calibration.neutral
        = some ⟨((collectedSamples rounds).map Pt.x).sum / (collectedSamples rounds).length,
                ((collectedSamples rounds).map Pt.y).sum / (collectedSamples rounds).length⟩)
    ∧ (collectedSamples rounds = [] →
      (calibrate env rounds s).calibration.neutral = some ⟨0.5, 0.5⟩
      ∧ (calibrate env rounds s).calibration.neutralScreenY = some (0.5 * env.H))
    ∧ (∃ n : Pt, (calibrate env rounds s).calibration.neutral = some n
        ∧ (calibrate env rounds s).calibration.neutralScreenY = some (n.y * env.H))
    ∧ (∀ s2 : State,
        (calibrate env rounds s2).calibration.neutral
          = (calibrate env rounds s).calibration.neutral
        ∧ (calibrate env rounds s2).calibration.neutralScreenY
          = (calibrate env rounds s).calibration.neutralScreenY) := by
  have hs : ∀ st : State, (rounds.foldl (fun st hands => sampleCalibration hands st)
      (beginCalibration st)).calibration.samples = collectedSamples rounds := by
    intro st
    rw [foldl_sampleCalibration_samples]
    simp [beginCalibration]
  have key : ∀ st : State,
      ((calibrate env rounds st).calibration.neutral,
        (calibrate env rounds st).calibration.neutralScreenY)
      = if (collectedSamples rounds).length > 0 then
          (some ⟨((collectedSamples rounds).map Pt.x).sum / (collectedSamples rounds).length,
                ((collectedSamples rounds).map Pt.y).sum / (collectedSamples rounds).length⟩,
            some (((collectedSamples rounds).map Pt.y).sum / (collectedSamples rounds).length
              * env.H))
        else (some ⟨0.5, 0.5⟩, some (0.5 * env.H)) := by
    intro st
    unfold calibrate finishCalibration
    simp only [hs st]
    split_ifs <;> simp [foldl_add_x, foldl_add_y]
  have k1 := key s
  rw [Prod.ext_iff] at k1
  refine ⟨fun hne => ?_, fun he => ?_, ?_, fun s2 => ?_⟩
  · have hl : (collectedSamples rounds).length > 0 := List.length_pos.mpr hne
    rw [if_pos hl] at k1
    exact k1.1
  · have hl : ¬ (collectedSamples rounds).length > 0 := by simp [he]
    rw [if_neg hl] at k1
    exact k1
  · by_cases hl : (collectedSamples rounds).length > 0
    · rw [if_pos hl] at k1
      exact ⟨_, k1.1, k1.2⟩
    · rw [if_neg hl] at k1
      exact ⟨_, k1.1, k1.2⟩
  · have k2 := key s2
    rw [← key s, Prod.ext_iff] at k2
    exact k2

end Stickman
